import Mathlib

/-!
# SQLite VFS over FileX (`SQLite/sqlite3_azure.c`) and the log pipeline (`MPLIB_STORAGE.cpp`)

A shallow embedding of the lock adapter of `sqlite3_azure.c` (namespace `SqliteAzure`: lock state
machine, open/close registry, `xRead`, `xWrite`) and of the staging and ingestion code of
`MPLIB_STORAGE.cpp` (namespace `MplibStorage`).

* C `int` values that are numbers (lock levels, result codes) are `Int`.
* C `unsigned` / `UINT` values (`shared_locks_count`, `open_count`, FileX statuses) are `Nat`,
  with increments and decrements taken modulo `2 ^ 32`.
* C `int` values that are bit masks (the open flags, `delete_on_close`) are the `Nat` of their
  32-bit pattern, so that `&` and `|` are `&&&` and `|||`.
* Pointers (`TX_THREAD*`, `FX_FILE*`) are `Nat` addresses, `0` being `NULL`.
* A failed `assert` aborts the program: the embedded functions return `none`.
* The per-file mutex and the `openclose` mutex serialise the calls; the embedding is the
  sequential behaviour of one call executed under them. Where the order of the mutex operations
  is the question, `xOpen` and `xClose` are cut at them and the threads interleave step by step.
* `ULONG` is the 32-bit unsigned type of the ThreadX port for this target.
* A loop that is not bounded by its own text runs on fuel; running out of fuel is reported
  apart from the results of the function.
* FileX, ThreadX and the engine are not part of the sources: the statuses they return are
  inputs of the embedded functions.
-/

namespace SqliteAzure

/-! ## Constants of `sqlite3.h` and `fx_api.h`

The two headers are not part of the sources; the values are those of the SQLite and FileX
headers, the FileX statuses as the comments of `TranslateReturnValue` give them. -/

def SQLITE_OK : Int := 0
def SQLITE_ERROR : Int := 1
def SQLITE_BUSY : Int := 5
def SQLITE_NOMEM : Int := 7
def SQLITE_IOERR : Int := 10
def SQLITE_CORRUPT : Int := 11
def SQLITE_NOTFOUND : Int := 12
def SQLITE_CANTOPEN : Int := 14
/-- The extended code `SQLITE_IOERR | (2<<8)`. -/
def SQLITE_IOERR_SHORT_READ : Int := 522
/-- The extended code `SQLITE_IOERR | (16<<8)`. -/
def SQLITE_IOERR_CLOSE : Int := 4106

def SQLITE_LOCK_NONE : Int := 0
def SQLITE_LOCK_SHARED : Int := 1
def SQLITE_LOCK_RESERVED : Int := 2
def SQLITE_LOCK_PENDING : Int := 3
def SQLITE_LOCK_EXCLUSIVE : Int := 4

def SQLITE_OPEN_READONLY : Nat := 0x1
def SQLITE_OPEN_READWRITE : Nat := 0x2
def SQLITE_OPEN_CREATE : Nat := 0x4
def SQLITE_OPEN_DELETEONCLOSE : Nat := 0x8
def SQLITE_OPEN_EXCLUSIVE : Nat := 0x10
def SQLITE_OPEN_MAIN_JOURNAL : Nat := 0x800

def FX_SUCCESS : Nat := 0x00
def FX_ACCESS_ERROR : Nat := 0x06
def FX_ALREADY_CREATED : Nat := 0x0B
def FX_WRITE_PROTECT : Nat := 0x23
def FX_IO_ERROR : Nat := 0x90

def FX_OPEN_FOR_READ : Nat := 0
def FX_OPEN_FOR_WRITE : Nat := 1

/-- The C `++` on an `unsigned` (32-bit) value. -/
def u32_inc (n : Nat) : Nat := (n + 1) % 2 ^ 32

/-- The C `--` on an `unsigned` (32-bit) value. -/
def u32_dec (n : Nat) : Nat := (n + (2 ^ 32 - 1)) % 2 ^ 32

/-! ## The file object -/

/-- The fields of `FX_FILE` the VFS uses: FileX's name and open mode, and the
`FX_FILE_MODULE_EXTENSION` of `sqlite3_azure_fx_user.h`. -/
structure FX_FILE where
  fx_file_name : String
  fx_file_open_mode : Nat
  open_count : Nat
  delete_on_close : Nat
  shared_locks_count : Nat
  lock_type : Int
  lock_task : Nat
  deriving DecidableEq, Repr

/-! ## `xLock` and `xUnlock` -/

/-- The branch `case SQLITE_LOCK_NONE` of the switch of `xLock`. -/
def xLock_from_none (f : FX_FILE) (caller : Nat) (lock : Int) : Option (FX_FILE × Int) :=
  if f.shared_locks_count ≠ 0 then none
  else if lock = SQLITE_LOCK_SHARED then
    some ({ f with lock_type := lock, shared_locks_count := 1 }, SQLITE_OK)
  else
    some ({ f with lock_type := lock, lock_task := caller }, SQLITE_OK)

/-- The branch `case SQLITE_LOCK_SHARED` of the switch of `xLock`. -/
def xLock_from_shared (f : FX_FILE) (caller : Nat) (lock : Int) : Option (FX_FILE × Int) :=
  if ¬ (f.shared_locks_count > 0) then none
  else if lock = SQLITE_LOCK_SHARED then
    some ({ f with shared_locks_count := u32_inc f.shared_locks_count }, SQLITE_OK)
  else if lock = SQLITE_LOCK_RESERVED ∨ lock = SQLITE_LOCK_PENDING then
    some ({ f with shared_locks_count := u32_dec f.shared_locks_count,
                   lock_type := lock,
                   lock_task := caller }, SQLITE_OK)
  else if lock = SQLITE_LOCK_EXCLUSIVE then
    if u32_dec f.shared_locks_count ≠ 0 then
      some ({ f with shared_locks_count := u32_dec f.shared_locks_count,
                     lock_task := caller,
                     lock_type := SQLITE_LOCK_PENDING }, SQLITE_BUSY)
    else
      some ({ f with shared_locks_count := u32_dec f.shared_locks_count,
                     lock_task := caller,
                     lock_type := SQLITE_LOCK_EXCLUSIVE }, SQLITE_OK)
  else some (f, SQLITE_ERROR)

/-- The branch `case SQLITE_LOCK_RESERVED` of the switch of `xLock`. -/
def xLock_from_reserved (f : FX_FILE) (caller : Nat) (lock : Int) : Option (FX_FILE × Int) :=
  if lock = SQLITE_LOCK_SHARED then
    if f.lock_task = caller then some (f, SQLITE_ERROR)
    else some ({ f with shared_locks_count := u32_inc f.shared_locks_count }, SQLITE_OK)
  else if lock = SQLITE_LOCK_RESERVED then
    if f.lock_task ≠ caller then some (f, SQLITE_BUSY)
    else some (f, SQLITE_OK)
  else if lock = SQLITE_LOCK_PENDING then
    if f.lock_task = caller then
      some ({ f with lock_type := SQLITE_LOCK_PENDING }, SQLITE_OK)
    else some (f, SQLITE_BUSY)
  else if lock = SQLITE_LOCK_EXCLUSIVE then
    if f.lock_task ≠ caller then some (f, SQLITE_BUSY)
    else if f.shared_locks_count ≠ 0 then
      some ({ f with lock_type := SQLITE_LOCK_PENDING }, SQLITE_BUSY)
    else
      some ({ f with lock_type := SQLITE_LOCK_EXCLUSIVE }, SQLITE_OK)
  else none

/-- The branch `case SQLITE_LOCK_PENDING` of the switch of `xLock`. -/
def xLock_from_pending (f : FX_FILE) (caller : Nat) (lock : Int) : Option (FX_FILE × Int) :=
  if lock = SQLITE_LOCK_SHARED then
    if f.lock_task = caller then some (f, SQLITE_ERROR)
    else some (f, SQLITE_BUSY)
  else if lock = SQLITE_LOCK_RESERVED then
    some (f, SQLITE_BUSY)
  else if lock = SQLITE_LOCK_PENDING then
    if f.lock_task ≠ caller then some (f, SQLITE_BUSY)
    else some (f, SQLITE_OK)
  else if lock = SQLITE_LOCK_EXCLUSIVE then
    if f.lock_task ≠ caller then some (f, SQLITE_BUSY)
    else if f.shared_locks_count ≠ 0 then some (f, SQLITE_BUSY)
    else some ({ f with lock_type := SQLITE_LOCK_EXCLUSIVE }, SQLITE_OK)
  else none

/-- The branch `case SQLITE_LOCK_EXCLUSIVE` of the switch of `xLock`. -/
def xLock_from_exclusive (f : FX_FILE) (caller : Nat) (lock : Int) : Option (FX_FILE × Int) :=
  if lock = SQLITE_LOCK_SHARED ∨ lock = SQLITE_LOCK_RESERVED ∨ lock = SQLITE_LOCK_PENDING then
    if f.lock_task = caller then some (f, SQLITE_ERROR)
    else some (f, SQLITE_BUSY)
  else if lock = SQLITE_LOCK_EXCLUSIVE then
    if f.lock_task ≠ caller then some (f, SQLITE_BUSY)
    else some (f, SQLITE_OK)
  else none

/-- The function `xLock(fptr, lock)` called by thread `caller` (`tx_thread_identify()`),
on the file object `f`: the assertion on `lock`, then the switch on `lock_type`.
`none` is a failed assertion. -/
def xLock (f : FX_FILE) (caller : Nat) (lock : Int) : Option (FX_FILE × Int) :=
  if lock = SQLITE_LOCK_NONE then none
  else if f.lock_type = SQLITE_LOCK_NONE then xLock_from_none f caller lock
  else if f.lock_type = SQLITE_LOCK_SHARED then xLock_from_shared f caller lock
  else if f.lock_type = SQLITE_LOCK_RESERVED then xLock_from_reserved f caller lock
  else if f.lock_type = SQLITE_LOCK_PENDING then xLock_from_pending f caller lock
  else if f.lock_type = SQLITE_LOCK_EXCLUSIVE then xLock_from_exclusive f caller lock
  else none

/-- The branch `case SQLITE_LOCK_NONE` of the outer switch of `xUnlock` (on `lock`). -/
def xUnlock_to_none (f : FX_FILE) (caller : Nat) : Option (FX_FILE × Int) :=
  if f.lock_type = SQLITE_LOCK_NONE then some (f, SQLITE_OK)
  else if f.lock_type = SQLITE_LOCK_SHARED then
    if ¬ (f.shared_locks_count > 0) then none
    else if u32_dec f.shared_locks_count = 0 then
      some ({ f with shared_locks_count := u32_dec f.shared_locks_count,
                     lock_type := SQLITE_LOCK_NONE }, SQLITE_OK)
    else some ({ f with shared_locks_count := u32_dec f.shared_locks_count }, SQLITE_OK)
  else if f.lock_type = SQLITE_LOCK_RESERVED ∨ f.lock_type = SQLITE_LOCK_PENDING
      ∨ f.lock_type = SQLITE_LOCK_EXCLUSIVE then
    if f.lock_task = caller then
      if f.shared_locks_count ≠ 0 then
        some ({ f with lock_type := SQLITE_LOCK_SHARED }, SQLITE_OK)
      else
        some ({ f with lock_type := SQLITE_LOCK_NONE }, SQLITE_OK)
    else
      if f.shared_locks_count ≠ 0 then
        some ({ f with shared_locks_count := u32_dec f.shared_locks_count }, SQLITE_OK)
      else some (f, SQLITE_OK)
  else none

/-- The branch `case SQLITE_LOCK_SHARED` of the outer switch of `xUnlock` (on `lock`). -/
def xUnlock_to_shared (f : FX_FILE) (caller : Nat) : Option (FX_FILE × Int) :=
  if f.lock_type = SQLITE_LOCK_NONE ∨ f.lock_type = SQLITE_LOCK_SHARED then
    some (f, SQLITE_ERROR)
  else if f.lock_type = SQLITE_LOCK_RESERVED ∨ f.lock_type = SQLITE_LOCK_PENDING
      ∨ f.lock_type = SQLITE_LOCK_EXCLUSIVE then
    if f.lock_task = caller then
      some ({ f with lock_type := SQLITE_LOCK_SHARED,
                     shared_locks_count := u32_inc f.shared_locks_count }, SQLITE_OK)
    else some (f, SQLITE_ERROR)
  else none

/-- The function `xUnlock(fptr, lock)` called by thread `caller`, on the file object `f`:
the assertion on `lock`, then the switch on `lock`. `none` is a failed assertion. -/
def xUnlock (f : FX_FILE) (caller : Nat) (lock : Int) : Option (FX_FILE × Int) :=
  if lock = SQLITE_LOCK_EXCLUSIVE then none
  else if lock = SQLITE_LOCK_NONE then xUnlock_to_none f caller
  else if lock = SQLITE_LOCK_SHARED then xUnlock_to_shared f caller
  else none

/-- The assertions `xLock` and `xUnlock` make on the file object they are given: the level is
one of the five, the reader count is 0 at level None and positive at level Shared. -/
def lockStateValid (f : FX_FILE) : Prop :=
  (SQLITE_LOCK_NONE ≤ f.lock_type ∧ f.lock_type ≤ SQLITE_LOCK_EXCLUSIVE) ∧
  (f.lock_type = SQLITE_LOCK_NONE → f.shared_locks_count = 0) ∧
  (f.lock_type = SQLITE_LOCK_SHARED → 0 < f.shared_locks_count)

instance (f : FX_FILE) : Decidable (lockStateValid f) := by
  unfold lockStateValid; infer_instance

/-- The readers left beside a caller that asks for Exclusive: the reader count, less the
caller itself when the level is Shared (`shared_locks_count--` in that branch of `xLock`). -/
def otherReaders (f : FX_FILE) : Nat :=
  if f.lock_type = SQLITE_LOCK_SHARED then u32_dec f.shared_locks_count
  else f.shared_locks_count

/-- The invariant of the lock fields: the level is one of the five, no reader is counted at
level None or Exclusive, and at least one at level Shared. -/
def lockInv (f : FX_FILE) : Prop :=
  (SQLITE_LOCK_NONE ≤ f.lock_type ∧ f.lock_type ≤ SQLITE_LOCK_EXCLUSIVE) ∧
  (f.lock_type = SQLITE_LOCK_NONE → f.shared_locks_count = 0) ∧
  (f.lock_type = SQLITE_LOCK_SHARED → 0 < f.shared_locks_count) ∧
  (f.lock_type = SQLITE_LOCK_EXCLUSIVE → f.shared_locks_count = 0)

instance (f : FX_FILE) : Decidable (lockInv f) := by
  unfold lockInv; infer_instance

/-! ## Call sequences on one handle -/

/-- The lock fields `xOpen` gives a newly created file object (`sqlite3_azure.c`, lines 390-401):
journals and temporary files (`zName == NULL`) are locked Exclusive by the opening thread,
every other file starts unlocked; the reader count is 0 and the open count 1. -/
def xOpen_init_locks (f : FX_FILE) (flags : Nat) (zNameIsNull : Bool) (caller : Nat) : FX_FILE :=
  let f1 :=
    if (flags &&& SQLITE_OPEN_MAIN_JOURNAL ≠ 0) ∨ zNameIsNull = true then
      { f with lock_type := SQLITE_LOCK_EXCLUSIVE, lock_task := caller }
    else
      { f with lock_type := SQLITE_LOCK_NONE, lock_task := 0 }
  { f1 with shared_locks_count := 0, open_count := 1 }

/-- One call of the lock interface on a handle, by a thread. -/
inductive LockCall where
  | lock (thread : Nat) (level : Int)
  | unlock (thread : Nat) (level : Int)
  deriving DecidableEq, Repr

/-- The call `c` executed on the file object `f`. -/
def lockStep (f : FX_FILE) (c : LockCall) : Option (FX_FILE × Int) :=
  match c with
  | LockCall.lock t l => xLock f t l
  | LockCall.unlock t l => xUnlock f t l

/-- The file object after the calls `cs`, executed one after the other (the per-file mutex
serialises them); `none` when an assertion fails on the way. -/
def runCalls (f : FX_FILE) : List LockCall → Option FX_FILE
  | [] => some f
  | c :: cs =>
    match lockStep f c with
    | none => none
    | some (f1, _) => runCalls f1 cs

/-- The requested level is one `xLock` is called with: Shared, Reserved, Pending, Exclusive. -/
def LockCall.valid : LockCall → Bool
  | LockCall.lock _ l =>
    l = SQLITE_LOCK_SHARED ∨ l = SQLITE_LOCK_RESERVED ∨ l = SQLITE_LOCK_PENDING
      ∨ l = SQLITE_LOCK_EXCLUSIVE
  | LockCall.unlock _ l => l = SQLITE_LOCK_NONE ∨ l = SQLITE_LOCK_SHARED

/-- A file object together with the threads that hold a lock of level Reserved or higher:
a thread holds it from an `xLock` call that leaves `lock_type >= RESERVED` with `lock_task`
equal to the caller, until `lock_type` drops below Reserved. -/
structure Held where
  file : FX_FILE
  holders : List Nat
  deriving DecidableEq, Repr

/-- The holders after a call by `caller` that leaves the file object `f1`. -/
def holdersAfter (isLock : Bool) (caller : Nat) (f1 : FX_FILE) (before : List Nat) : List Nat :=
  if SQLITE_LOCK_RESERVED ≤ f1.lock_type then
    if isLock = true ∧ f1.lock_task = caller ∧ caller ∉ before then caller :: before else before
  else []

/-- One call, with the holders kept up to date. -/
def heldStep (h : Held) (c : LockCall) : Option Held :=
  match c with
  | LockCall.lock t l =>
    match xLock h.file t l with
    | none => none
    | some (f1, _) => some { file := f1, holders := holdersAfter true t f1 h.holders }
  | LockCall.unlock t l =>
    match xUnlock h.file t l with
    | none => none
    | some (f1, _) => some { file := f1, holders := holdersAfter false t f1 h.holders }

/-- A sequence of calls, with the holders kept up to date. -/
def runHeld (h : Held) : List LockCall → Option Held
  | [] => some h
  | c :: cs =>
    match heldStep h c with
    | none => none
    | some h1 => runHeld h1 cs

/-- The handle as `xOpen` creates it, with its holders: the opening thread when the file is
locked Exclusive at creation, nobody otherwise. -/
def openedHeld (f : FX_FILE) (flags : Nat) (zNameIsNull : Bool) (caller : Nat) : Held :=
  let f1 := xOpen_init_locks f flags zNameIsNull caller
  { file := f1, holders := if SQLITE_LOCK_RESERVED ≤ f1.lock_type then [caller] else [] }

/-- The invariant of the holders: nobody, or the thread `lock_task` alone while the level is
Reserved or higher; the level is one of the five. -/
def heldInv (h : Held) : Prop :=
  (SQLITE_LOCK_NONE ≤ h.file.lock_type ∧ h.file.lock_type ≤ SQLITE_LOCK_EXCLUSIVE) ∧
  (h.holders = [] ∨
    (h.holders = [h.file.lock_task] ∧ SQLITE_LOCK_RESERVED ≤ h.file.lock_type))

instance (h : Held) : Decidable (heldInv h) := by
  unfold heldInv; infer_instance

/-! ## `TranslateReturnValue` -/

/-- The function `TranslateReturnValue(value)`: a FileX status as an SQLite result code. -/
def TranslateReturnValue (value : Nat) : Int :=
  if value = 0x00 then SQLITE_OK
  else if value = 0x01 ∨ value = 0x02 ∨ value = 0x03 then SQLITE_ERROR
  else if value = 0x04 then SQLITE_NOTFOUND
  else if value = 0x05 ∨ value = 0x06 then SQLITE_IOERR
  else if value = 0x07 then SQLITE_CANTOPEN
  else if value = 0x08 then SQLITE_CORRUPT
  else if value = 0x09 then SQLITE_IOERR_SHORT_READ
  else if 0x0A ≤ value ∧ value ≤ 0x19 then SQLITE_ERROR
  else if value = 0x20 then SQLITE_ERROR
  else if value = 0x21 then SQLITE_IOERR
  else if value = 0x22 ∨ value = 0x23 ∨ value = 0x24 ∨ value = 0x89 then SQLITE_ERROR
  else if value = 0x90 then SQLITE_IOERR
  else if value = 0x91 then SQLITE_NOMEM
  else SQLITE_ERROR

/-- A `UINT` returned from a function whose return type is `int`. -/
def uint_as_int (value : Nat) : Int :=
  if value % 2 ^ 32 < 2 ^ 31 then ((value % 2 ^ 32 : Nat) : Int)
  else ((value % 2 ^ 32 : Nat) : Int) - 2 ^ 32

/-- The result codes the VFS may hand to the engine after a FileX status. -/
def engineCodes : List Int :=
  [SQLITE_OK, SQLITE_NOTFOUND, SQLITE_IOERR, SQLITE_CANTOPEN, SQLITE_CORRUPT,
   SQLITE_IOERR_SHORT_READ, SQLITE_NOMEM, SQLITE_ERROR]

/-! ## The open-file registry: `xOpen` and `xClose` -/

/-- A FileX call issued on the volume. -/
inductive FxCall where
  | fx_file_create (name : String)
  | fx_file_delete (name : String)
  | fx_file_open (file : Nat) (name : String) (open_type : Nat)
  | fx_file_close (file : Nat)
  deriving DecidableEq, Repr

/-- The state `xOpen` and `xClose` work on: the memory holding `FX_FILE` objects, the blocks
obtained from `sqlite3_malloc` and not freed, the list of opened files of the media
(`fx_media_opened_file_list`, as addresses, `fx_media_opened_file_count` being its length),
the static `temp_counter` of `xOpen`, and the FileX calls issued so far (oldest first). -/
structure VfsState where
  mem : Nat → FX_FILE
  allocated : List Nat
  fx_media_opened_file_list : List Nat
  temp_counter : Nat
  calls : List FxCall

/-- The object `struct sqlite3_azure_file`: the pointer to the file object. -/
structure sqlite3_azure_file where
  fx_file : Nat
  deriving DecidableEq, Repr

/-- The fields the VFS adds to `FX_FILE` (`FX_FILE_MODULE_EXTENSION`) are the same in `f` and
in `g`. -/
def sameExtension (f g : FX_FILE) : Prop :=
  f.open_count = g.open_count ∧ f.delete_on_close = g.delete_on_close ∧
  f.shared_locks_count = g.shared_locks_count ∧ f.lock_type = g.lock_type ∧
  f.lock_task = g.lock_task

instance (f g : FX_FILE) : Decidable (sameExtension f g) := by
  unfold sameExtension; infer_instance

/-- The memory `mem` with the object at address `p` replaced by `f`. -/
def mem_write (mem : Nat → FX_FILE) (p : Nat) (f : FX_FILE) : Nat → FX_FILE :=
  fun q => if q = p then f else mem q

/-- Modelled from the spec: FileX `fx_file_open` is not part of the sources (VolumeIO
`open(path, mode)→handle|error`). The status it returns is given; when it is `FX_SUCCESS` the
file object records the name and the open mode and is appended to the list of opened files of
the media, otherwise nothing but the call is recorded. -/
def fx_file_open (s : VfsState) (file : Nat) (name : String) (open_type : Nat)
    (status : Nat) : VfsState :=
  let s1 := { s with calls := s.calls ++ [FxCall.fx_file_open file name open_type] }
  if status = FX_SUCCESS then
    { s1 with
      mem := mem_write s.mem file
        { s.mem file with fx_file_name := name, fx_file_open_mode := open_type },
      fx_media_opened_file_list := s.fx_media_opened_file_list ++ [file] }
  else s1

/-- Modelled from the spec: FileX `fx_file_close` is not part of the sources. The status it
returns is given; when it is `FX_SUCCESS` the file object leaves the list of opened files of
the media. -/
def fx_file_close (s : VfsState) (file : Nat) (status : Nat) : VfsState :=
  let s1 := { s with calls := s.calls ++ [FxCall.fx_file_close file] }
  if status = FX_SUCCESS then
    { s1 with fx_media_opened_file_list := s.fx_media_opened_file_list.erase file }
  else s1

/-- Modelled from the spec: FileX `fx_file_create` is not part of the sources (VolumeIO
`create(path)→exists|ok|error`); the call is recorded, its status is given to the caller. -/
def fx_file_create (s : VfsState) (name : String) : VfsState :=
  { s with calls := s.calls ++ [FxCall.fx_file_create name] }

/-- Modelled from the spec: FileX `fx_file_delete` is not part of the sources (VolumeIO
`delete(path)`); the call is recorded, the VFS ignores its status. -/
def fx_file_delete (s : VfsState) (name : String) : VfsState :=
  { s with calls := s.calls ++ [FxCall.fx_file_delete name] }

/-- What the environment answers during one `xOpen`: the thread making the call, the status of
`fx_file_create`, the address `sqlite3_malloc` returns (0 is `NULL`) and the contents of the
block, the status of the `fx_file_close` of a reopening, the status of the first `fx_file_open`
and the status of the second one (the read-only fallback). -/
structure OpenEnv where
  thread : Nat
  create_result : Nat
  malloc_result : Nat
  malloc_contents : FX_FILE
  close_result : Nat
  open_result : Nat
  fallback_result : Nat

/-- What `xOpen` leaves: its return value, the `sqlite3_azure_file`, `*pOutFlags` (`none` when
the pointer is `NULL`) and the state. -/
structure OpenResult where
  rc : Int
  file : sqlite3_azure_file
  pOutFlags : Option Nat
  state : VfsState

/-- The statements `*pOutFlags &= ~SQLITE_OPEN_READWRITE; *pOutFlags |= SQLITE_OPEN_READONLY;`
under `if(pOutFlags)`. -/
def demote_flags (pOutFlags : Option Nat) : Option Nat :=
  pOutFlags.map fun v => (v &&& (0xFFFFFFFF ^^^ SQLITE_OPEN_READWRITE)) ||| SQLITE_OPEN_READONLY

/-- The digits loop of `xOpen`: `for(i = ...; i > 0; i /= 10)` appending
`(temp_counter / i) % 10 + '0'`; `fuel` bounds the number of iterations. -/
def tempname_digits (fuel : Nat) (temp_counter : Nat) (i : Nat) : List Char :=
  match fuel with
  | 0 => []
  | fuel + 1 =>
    if i > 0 then
      Char.ofNat ((temp_counter / i) % 10 + 48) :: tempname_digits fuel temp_counter (i / 10)
    else []

/-- The name `xOpen` invents when `zName` is `NULL`. -/
def tempname (temp_counter : Nat) : String :=
  String.mk ("~sqlite3_temp-".data ++ tempname_digits 11 temp_counter 1000000000)

/-- The search of `xOpen` through the list of opened files: the first file object whose
`fx_file_name` equals `zName`. -/
def look_up (mem : Nat → FX_FILE) (zName : String) : List Nat → Option Nat
  | [] => none
  | look_fptr :: rest =>
    if zName = (mem look_fptr).fx_file_name then some look_fptr
    else look_up mem zName rest

/-- The reopening for writing of a file object that is open for reading, in `xOpen`:
`fx_file_close`, `fx_file_open` for writing and, when that is denied with `FX_ACCESS_ERROR`,
`fx_file_open` for reading with `*pOutFlags` turned read-only. The result is the last status,
`*pOutFlags` and the state. -/
def xOpen_reopen (s : VfsState) (env : OpenEnv) (zName : String) (look_fptr : Nat)
    (pOutFlags : Option Nat) : Nat × Option Nat × VfsState :=
  let s1 := fx_file_close s look_fptr env.close_result
  let s2 := fx_file_open s1 look_fptr zName FX_OPEN_FOR_WRITE env.open_result
  if env.open_result = FX_ACCESS_ERROR then
    (env.fallback_result, demote_flags pOutFlags,
      fx_file_open s2 look_fptr zName FX_OPEN_FOR_READ env.fallback_result)
  else (env.open_result, pOutFlags, s2)

/-- The branch of `xOpen` taken when the file is already opened, at `look_fptr`: the file
object is shared, and `result`, a `UINT` that starts as `SQLITE_OK` (0) and takes the status
of `fx_file_open`, is returned as it is. -/
def xOpen_reuse (s : VfsState) (env : OpenEnv) (zName : String) (look_fptr : Nat)
    (flags : Nat) (pOutFlags : Option Nat) : OpenResult :=
  let f := s.mem look_fptr
  let f1 := { f with delete_on_close := f.delete_on_close ||| (flags &&& SQLITE_OPEN_DELETEONCLOSE),
                     open_count := u32_inc f.open_count }
  let s1 := { s with mem := mem_write s.mem look_fptr f1 }
  if f1.fx_file_open_mode = FX_OPEN_FOR_READ ∧ flags &&& SQLITE_OPEN_READWRITE ≠ 0 then
    let reopened := xOpen_reopen s1 env zName look_fptr pOutFlags
    { rc := uint_as_int reopened.1, file := { fx_file := look_fptr },
      pOutFlags := reopened.2.1, state := reopened.2.2 }
  else
    { rc := uint_as_int 0, file := { fx_file := look_fptr },
      pOutFlags := pOutFlags, state := s1 }

/-- The opening of the new file object `fx_fptr` by `xOpen`: `fx_file_open` for `open_type`
and, when writing is denied with `FX_ACCESS_ERROR`, once more for reading with `*pOutFlags`
turned read-only. The result is the last status, `*pOutFlags` and the state. -/
def xOpen_try_open (s : VfsState) (env : OpenEnv) (fx_fptr : Nat) (name : String)
    (open_type : Nat) (pOutFlags : Option Nat) : Nat × Option Nat × VfsState :=
  let s1 := fx_file_open s fx_fptr name open_type env.open_result
  if env.open_result = FX_ACCESS_ERROR ∧ open_type &&& FX_OPEN_FOR_WRITE ≠ 0 then
    (env.fallback_result, demote_flags pOutFlags,
      fx_file_open s1 fx_fptr name FX_OPEN_FOR_READ env.fallback_result)
  else (env.open_result, pOutFlags, s1)

/-- The end of `xOpen` for a new file object `fx_fptr`, from `if(result != FX_SUCCESS)` on:
the object is freed when the file could not be opened, and gets its lock fields and its open
count otherwise; the status is translated. -/
def xOpen_finish (s : VfsState) (env : OpenEnv) (fx_fptr : Nat) (result : Nat) (flags : Nat)
    (zNameIsNull : Bool) (pOutFlags : Option Nat) : OpenResult :=
  if result ≠ FX_SUCCESS then
    { rc := TranslateReturnValue result, file := { fx_file := 0 }, pOutFlags := pOutFlags,
      state := { s with allocated := s.allocated.erase fx_fptr } }
  else
    { rc := TranslateReturnValue result, file := { fx_file := fx_fptr },
      pOutFlags := pOutFlags,
      state := { s with
        mem := mem_write s.mem fx_fptr
          (xOpen_init_locks (s.mem fx_fptr) flags zNameIsNull env.thread) } }

/-- The branch of `xOpen` that creates a file object for `name` (`zName`, or the invented
name when `zNameIsNull`). -/
def xOpen_create (s : VfsState) (env : OpenEnv) (name : String) (zNameIsNull : Bool)
    (fptr : sqlite3_azure_file) (flags : Nat) (pOutFlags : Option Nat) : OpenResult :=
  let pOutFlags := pOutFlags.map fun _ => flags
  let s := if zNameIsNull = true then fx_file_delete s name else s
  let s1 := if flags &&& SQLITE_OPEN_CREATE ≠ 0 then fx_file_create s name else s
  if flags &&& SQLITE_OPEN_CREATE ≠ 0 ∧
      ((env.create_result = FX_ALREADY_CREATED ∧ flags &&& SQLITE_OPEN_EXCLUSIVE ≠ 0) ∨
       (env.create_result ≠ FX_ALREADY_CREATED ∧ env.create_result ≠ FX_SUCCESS)) then
    { rc := SQLITE_CANTOPEN, file := fptr, pOutFlags := pOutFlags, state := s1 }
  else
    let fx_fptr := env.malloc_result
    if fx_fptr = 0 then
      { rc := SQLITE_NOMEM, file := { fx_file := 0 }, pOutFlags := pOutFlags, state := s1 }
    else
      let s2 := { s1 with
        allocated := fx_fptr :: s1.allocated,
        mem := mem_write s1.mem fx_fptr
          { env.malloc_contents with delete_on_close := flags &&& SQLITE_OPEN_DELETEONCLOSE } }
      let open_type :=
        if flags &&& SQLITE_OPEN_READWRITE ≠ 0 then FX_OPEN_FOR_WRITE else FX_OPEN_FOR_READ
      let opened := xOpen_try_open s2 env fx_fptr name open_type pOutFlags
      xOpen_finish opened.2.2 env fx_fptr opened.1 flags zNameIsNull opened.2.1

/-- The function `xOpen(vfs, zName, fptr, flags, pOutFlags)`; `zName = none` is a `NULL` name. -/
def xOpen (s : VfsState) (env : OpenEnv) (zName : Option String) (fptr : sqlite3_azure_file)
    (flags : Nat) (pOutFlags : Option Nat) : OpenResult :=
  match zName with
  | none =>
    let name := tempname s.temp_counter
    let s1 := { s with temp_counter := u32_inc s.temp_counter }
    xOpen_create s1 env name true fptr flags pOutFlags
  | some zName =>
    match look_up s.mem zName s.fx_media_opened_file_list with
    | some look_fptr => xOpen_reuse s env zName look_fptr flags pOutFlags
    | none => xOpen_create s env zName false fptr flags pOutFlags

/-- The function `xClose(fptr)`; `close_result` is the status `fx_file_close` returns when it
is called. `none` is the failed assertion of `convert_fptr` (no file object). -/
def xClose (s : VfsState) (close_result : Nat) (fptr : sqlite3_azure_file) :
    Option (VfsState × Int) :=
  let azure_fptr := fptr.fx_file
  if azure_fptr = 0 then none
  else
    let f := s.mem azure_fptr
    let f1 := { f with open_count := u32_dec f.open_count }
    let s1 := { s with mem := mem_write s.mem azure_fptr f1 }
    if f1.open_count ≠ 0 then some (s1, SQLITE_OK)
    else
      let s2 := fx_file_close s1 azure_fptr close_result
      if close_result = FX_SUCCESS then
        let s3 := if (s2.mem azure_fptr).delete_on_close ≠ 0
          then fx_file_delete s2 (s2.mem azure_fptr).fx_file_name else s2
        some ({ s3 with allocated := s3.allocated.erase azure_fptr }, SQLITE_OK)
      else some (s2, SQLITE_IOERR_CLOSE)

/-! ## States and environments used in the examples -/

/-- A file object with every field zero. -/
def blankFile : FX_FILE :=
  { fx_file_name := "", fx_file_open_mode := 0, open_count := 0, delete_on_close := 0,
    shared_locks_count := 0, lock_type := 0, lock_task := 0 }

/-- The state before any file is opened. -/
def emptyState : VfsState :=
  { mem := fun _ => blankFile, allocated := [], fx_media_opened_file_list := [],
    temp_counter := 0, calls := [] }

/-- An environment in which every FileX call succeeds and `sqlite3_malloc` returns the
address `block`, for a call made by `thread`. -/
def goodEnv (thread block : Nat) : OpenEnv :=
  { thread := thread, create_result := FX_SUCCESS, malloc_result := block,
    malloc_contents := blankFile, close_result := FX_SUCCESS, open_result := FX_SUCCESS,
    fallback_result := FX_SUCCESS }

/-- The decimal value of a string of digits. -/
def decimalValue (digits : List Char) : Nat :=
  digits.foldl (fun v ch => v * 10 + (ch.toNat - 48)) 0

/-! ## Reading and writing: `xRead`, `xWrite` -/

/-- The extended result codes of the I/O methods (`SQLITE_IOERR | (3<<8)`, `SQLITE_IOERR |
(22<<8)`). -/
def SQLITE_IOERR_WRITE : Int := 778
def SQLITE_IOERR_SEEK : Int := 5642

/-- The FileX transfer calls the I/O methods make, in order, with their size arguments. -/
inductive IoCall where
  | fx_file_extended_seek (byte_offset : Nat)
  | fx_file_read (request_size : Nat)
  | fx_file_write (bytes : List Nat)
  deriving DecidableEq, Repr

/-- What the volume answers during one `xRead`: the size of the file, the status of
`fx_file_extended_seek`, and for `fx_file_read` its status, the value it stores in `actual_size`
and the buffer as it leaves it. -/
structure ReadEnv where
  fx_file_current_file_size : Nat
  seek_status : Nat
  read_status : Nat
  read_actual_size : Nat
  read_buffer : Nat → Nat

/-- The outcome of `xRead`: the result code, the buffer, the final value of the local
`actual_size` and the FileX calls made. -/
structure ReadResult where
  rc : Int
  buffer : Nat → Nat
  actual_size : Nat
  calls : List IoCall

/-- `xRead` (sqlite3_azure.c 676-719). The asserts on `iAmt` and `iOfst` abort (`none`).
`retval` first records a read behind the end of the file or a failed seek; only when it is still
`SQLITE_OK` is `fx_file_read` called. A transfer of fewer than `iAmt` bytes zeroes the rest of
the buffer and turns the result into `SQLITE_IOERR_SHORT_READ` unless it is
`SQLITE_IOERR_SEEK`. -/
def xRead (env : ReadEnv) (buffer : Nat → Nat) (iAmt : Int) (iOfst : Int) : Option ReadResult :=
  if iAmt < 0 ∨ iOfst < 0 then none
  else
    let behind : Bool := decide ((env.fx_file_current_file_size : Int) < iOfst)
    let seek_failed : Bool := !behind && decide (env.seek_status ≠ FX_SUCCESS)
    let calls1 : List IoCall :=
      if behind then [] else [IoCall.fx_file_extended_seek iOfst.toNat]
    let retval1 : Int :=
      if behind then SQLITE_IOERR_SHORT_READ
      else if seek_failed then SQLITE_IOERR_SEEK
      else SQLITE_OK
    let do_read : Bool := decide (retval1 = SQLITE_OK)
    let retval2 : Int := if do_read then TranslateReturnValue env.read_status else retval1
    let actual_size : Nat := if do_read then env.read_actual_size % 2 ^ 32 else 0
    let buffer2 : Nat → Nat := if do_read then env.read_buffer else buffer
    let calls2 : List IoCall :=
      if do_read then calls1 ++ [IoCall.fx_file_read iAmt.toNat] else calls1
    if (actual_size : Int) < iAmt then
      some { rc := if retval2 ≠ SQLITE_IOERR_SEEK then SQLITE_IOERR_SHORT_READ else retval2
             buffer := fun i => if actual_size ≤ i ∧ (i : Int) < iAmt then 0 else buffer2 i
             actual_size := actual_size
             calls := calls2 }
    else
      some { rc := retval2, buffer := buffer2, actual_size := actual_size, calls := calls2 }

/-- A file of four bytes read through a FileX that transfers what the file holds from the
offset on. -/
def readEnvExample : ReadEnv :=
  { fx_file_current_file_size := 4
    seek_status := FX_SUCCESS
    read_status := FX_SUCCESS
    read_actual_size := 2
    read_buffer := fun i => if i < 2 then 170 else 255 }

/-- The bytes of a file on the volume and the position of its handle
(`fx_file_current_file_size` is the length of `contents`). -/
structure FileData where
  contents : List Nat
  fx_file_current_file_offset : Nat
  deriving DecidableEq, Repr

/-- Modelled from the spec: FileX `fx_file_extended_seek` is not part of the sources (VolumeIO
`seek`). The status it returns is given; when it is `FX_SUCCESS` the position is the requested
offset, or the file size when the request lies behind it ("Just sets to file size without
error"). -/
def fx_file_extended_seek (d : FileData) (byte_offset : Nat) (status : Nat) : FileData :=
  if status = FX_SUCCESS then
    { d with fx_file_current_file_offset := min byte_offset d.contents.length }
  else d

/-- Modelled from the spec: FileX `fx_file_write` is not part of the sources (VolumeIO
`write(handle, offset, bytes)→status`). The status it returns is given; when it is `FX_SUCCESS`
the bytes replace the contents from the current position on, growing the file as needed, and the
position advances by their number; otherwise the file is left as it was. -/
def fx_file_write (d : FileData) (bytes : List Nat) (status : Nat) : FileData :=
  if status = FX_SUCCESS then
    { contents := d.contents.take d.fx_file_current_file_offset ++ bytes ++
        d.contents.drop (d.fx_file_current_file_offset + bytes.length)
      fx_file_current_file_offset := d.fx_file_current_file_offset + bytes.length }
  else d

/-- What the volume answers during one `xWrite`: the status of the seek, of the k-th write of
the zero-extension loop (counted from 0) and of the write of the data. -/
structure WriteEnv where
  seek_status : Nat
  zero_write_status : Nat → Nat
  write_status : Nat

/-- The outcome of `xWrite`: the result code, the file and the FileX calls made. -/
structure WriteResult where
  rc : Int
  data : FileData
  calls : List IoCall
  deriving DecidableEq, Repr

/-- How a run of a method with a loop ends: an assert aborts it, the step budget given to the
loop runs out before the loop ends, or it returns. -/
inductive Run (α : Type) where
  | aborted
  | out_of_fuel
  | returned (a : α)
  deriving DecidableEq, Repr

/-- `sizeof(zero_buffer)` in `xWrite`. -/
def zero_buffer_size : Nat := 512

/-- The zero-extension loop of `xWrite` (sqlite3_azure.c 748-758): while the file is shorter
than `iOfst`, `ULONG size = iOfst - fx_file_current_file_size` (a 64-bit difference stored in a
32-bit `ULONG`), capped at `sizeof(zero_buffer)`, and that many zero bytes are written; a failed
write ends the loop with `SQLITE_IOERR_WRITE`. One unit of `fuel` is spent per evaluation of the
loop condition; `none` means the fuel ran out. `k` counts the writes made so far. -/
def xWrite_zero_extend (env : WriteEnv) (iOfst : Nat) :
    Nat → Nat → FileData → List IoCall → Option (Int × FileData × List IoCall)
  | 0, _, _, _ => none
  | fuel + 1, k, d, calls =>
    if d.contents.length < iOfst then
      let size0 : Nat := (iOfst - d.contents.length) % 2 ^ 32
      let size : Nat := if size0 > zero_buffer_size then zero_buffer_size else size0
      let calls1 := calls ++ [IoCall.fx_file_write (List.replicate size 0)]
      if env.zero_write_status k ≠ FX_SUCCESS then
        some (SQLITE_IOERR_WRITE,
          fx_file_write d (List.replicate size 0) (env.zero_write_status k), calls1)
      else
        xWrite_zero_extend env iOfst fuel (k + 1)
          (fx_file_write d (List.replicate size 0) (env.zero_write_status k)) calls1
    else some (SQLITE_OK, d, calls)

/-- The tail of `xWrite` (sqlite3_azure.c 765-775): the data are written only when `retval` is
still `SQLITE_OK`, and the status of that write is translated. -/
def xWrite_data (env : WriteEnv) (retval : Int) (d : FileData) (calls : List IoCall)
    (buffer : List Nat) (iAmt : Int) : WriteResult :=
  if retval = SQLITE_OK then
    { rc := TranslateReturnValue env.write_status
      data := fx_file_write d (buffer.take iAmt.toNat) env.write_status
      calls := calls ++ [IoCall.fx_file_write (buffer.take iAmt.toNat)] }
  else { rc := retval, data := d, calls := calls }

/-- `xWrite` (sqlite3_azure.c 721-776) by thread `thread` on the handle `file` whose bytes are
`d`. The asserts (`iAmt >= 0`, `iOfst >= 0`, the caller holds the Exclusive lock) abort. Behind
the end of the file the handle is positioned at the end and the zero-extension loop runs;
otherwise the handle is positioned at `iOfst`. -/
def xWrite (env : WriteEnv) (thread : Nat) (file : FX_FILE) (d : FileData) (buffer : List Nat)
    (iAmt : Int) (iOfst : Int) (fuel : Nat) : Run WriteResult :=
  if iAmt < 0 ∨ iOfst < 0 ∨ file.lock_type ≠ SQLITE_LOCK_EXCLUSIVE ∨ file.lock_task ≠ thread then
    Run.aborted
  else if (d.contents.length : Int) < iOfst then
    let calls := [IoCall.fx_file_extended_seek d.contents.length]
    if env.seek_status ≠ FX_SUCCESS then
      Run.returned (xWrite_data env SQLITE_IOERR_SEEK
        (fx_file_extended_seek d d.contents.length env.seek_status) calls buffer iAmt)
    else
      match xWrite_zero_extend env iOfst.toNat fuel 0
          (fx_file_extended_seek d d.contents.length env.seek_status) calls with
      | none => Run.out_of_fuel
      | some (retval, d1, calls1) => Run.returned (xWrite_data env retval d1 calls1 buffer iAmt)
  else
    let calls := [IoCall.fx_file_extended_seek iOfst.toNat]
    if env.seek_status ≠ FX_SUCCESS then
      Run.returned (xWrite_data env SQLITE_IOERR_SEEK
        (fx_file_extended_seek d iOfst.toNat env.seek_status) calls buffer iAmt)
    else
      Run.returned (xWrite_data env SQLITE_OK
        (fx_file_extended_seek d iOfst.toNat env.seek_status) calls buffer iAmt)

/-- A volume on which every seek and every write succeeds. -/
def writeEnvGood : WriteEnv :=
  { seek_status := FX_SUCCESS, zero_write_status := fun _ => FX_SUCCESS,
    write_status := FX_SUCCESS }

/-- A handle on which thread `thread` holds the Exclusive lock. -/
def exclusiveFile (thread : Nat) : FX_FILE :=
  { blankFile with lock_type := SQLITE_LOCK_EXCLUSIVE, lock_task := thread }

/-! ## Threads interleaving in `xOpen` and `xClose`

The two methods are cut at their mutex operations: between two of them another thread may run.
One step of a thread executes the code up to its next cut. -/

/-- The cuts of `xOpen` for a named path (sqlite3_azure.c 262-411). -/
inductive OpenPc where
  | get_openclose
  | look
  | put_openclose
  | get_file_mutex
  | attach
  | put_file_mutex
  | create
  | put_openclose_created
  | returned
  deriving DecidableEq, Repr

/-- The cuts of `xClose` (sqlite3_azure.c 629-661). -/
inductive ClosePc where
  | get_file_mutex
  | decrement
  | put_file_mutex_early
  | get_openclose
  | put_file_mutex
  | close_and_free
  | put_openclose
  | returned
  deriving DecidableEq, Repr

/-- The method a thread is running and where it stands in it. -/
inductive RacePc where
  | xOpen (pc : OpenPc)
  | xClose (pc : ClosePc)
  deriving DecidableEq, Repr

/-- A thread: its program point, the `fx_file` of its file object (0 is `NULL`, `h + 1` is the
`h`-th allocation) and the result of its call once it has returned. -/
structure RaceThread where
  pc : RacePc
  fx_file : Nat
  rc : Option Int
  deriving DecidableEq, Repr

/-- An `FX_FILE` allocation: its `open_count`, the owner of its mutex, and whether
`sqlite3_free` has been called on it. -/
structure RaceFile where
  open_count : Nat
  mutex : Option Nat
  freed : Bool
  deriving DecidableEq, Repr

/-- The shared state: the owner of the registry mutex `openclose`, the handle of the path in
the list of opened files of the media (0 when the path is not open), the allocations, the
threads, and whether a thread has touched an allocation after it was freed. -/
structure RaceState where
  openclose : Option Nat
  opened : Nat
  files : List RaceFile
  threads : List RaceThread
  use_after_free : Bool
  deriving DecidableEq, Repr

/-- Thread `t` moves to `pc`. -/
def RaceState.goto (s : RaceState) (t : Nat) (th : RaceThread) (pc : RacePc) : RaceState :=
  { s with threads := s.threads.set t { th with pc := pc } }

/-- One step of `xOpen` by thread `t` standing at `pc`. A `mutex_get` on a mutex owned by
another thread does not move. The path is opened for writing, so the reuse branch does not
reopen; `fx_file_create`, `sqlite3_malloc` and `fx_file_open` succeed. -/
def xOpen_step (s : RaceState) (t : Nat) (th : RaceThread) (pc : OpenPc) : RaceState :=
  match pc with
  | OpenPc.get_openclose =>
    if s.openclose = none then
      { s.goto t th (RacePc.xOpen OpenPc.look) with openclose := some t }
    else s
  | OpenPc.look =>
    if s.opened ≠ 0 then
      { s with
        threads := s.threads.set t
          { th with fx_file := s.opened, pc := RacePc.xOpen OpenPc.put_openclose } }
    else s.goto t th (RacePc.xOpen OpenPc.create)
  | OpenPc.put_openclose =>
    { s.goto t th (RacePc.xOpen OpenPc.get_file_mutex) with openclose := none }
  | OpenPc.get_file_mutex =>
    match s.files[th.fx_file - 1]? with
    | none => s
    | some f =>
      if f.freed then { s with use_after_free := true }
      else if f.mutex = none then
        { s.goto t th (RacePc.xOpen OpenPc.attach) with
          files := s.files.set (th.fx_file - 1) { f with mutex := some t } }
      else s
  | OpenPc.attach =>
    match s.files[th.fx_file - 1]? with
    | none => s
    | some f =>
      if f.freed then { s with use_after_free := true }
      else
        { s.goto t th (RacePc.xOpen OpenPc.put_file_mutex) with
          files := s.files.set (th.fx_file - 1) { f with open_count := u32_inc f.open_count } }
  | OpenPc.put_file_mutex =>
    match s.files[th.fx_file - 1]? with
    | none => s
    | some f =>
      if f.freed then { s with use_after_free := true }
      else
        { s with
          files := s.files.set (th.fx_file - 1) { f with mutex := none }
          threads := s.threads.set t
            { th with pc := RacePc.xOpen OpenPc.returned, rc := some SQLITE_OK } }
  | OpenPc.create =>
    { s with
      files := s.files ++ [{ open_count := 1, mutex := none, freed := false }]
      opened := s.files.length + 1
      threads := s.threads.set t
        { th with fx_file := s.files.length + 1, pc := RacePc.xOpen OpenPc.put_openclose_created } }
  | OpenPc.put_openclose_created =>
    { s with
      openclose := none
      threads := s.threads.set t
        { th with pc := RacePc.xOpen OpenPc.returned, rc := some SQLITE_OK } }
  | OpenPc.returned => s

/-- One step of `xClose` by thread `t` standing at `pc`; `fx_file_close` succeeds. -/
def xClose_step (s : RaceState) (t : Nat) (th : RaceThread) (pc : ClosePc) : RaceState :=
  match s.files[th.fx_file - 1]? with
  | none => s
  | some f =>
    match pc with
    | ClosePc.get_file_mutex =>
      if f.freed then { s with use_after_free := true }
      else if f.mutex = none then
        { s.goto t th (RacePc.xClose ClosePc.decrement) with
          files := s.files.set (th.fx_file - 1) { f with mutex := some t } }
      else s
    | ClosePc.decrement =>
      if f.freed then { s with use_after_free := true }
      else
        { s.goto t th (RacePc.xClose
            (if u32_dec f.open_count ≠ 0 then ClosePc.put_file_mutex_early
             else ClosePc.get_openclose)) with
          files := s.files.set (th.fx_file - 1) { f with open_count := u32_dec f.open_count } }
    | ClosePc.put_file_mutex_early =>
      if f.freed then { s with use_after_free := true }
      else
        { s with
          files := s.files.set (th.fx_file - 1) { f with mutex := none }
          threads := s.threads.set t
            { th with pc := RacePc.xClose ClosePc.returned, rc := some SQLITE_OK } }
    | ClosePc.get_openclose =>
      if s.openclose = none then
        { s.goto t th (RacePc.xClose ClosePc.put_file_mutex) with openclose := some t }
      else s
    | ClosePc.put_file_mutex =>
      { s.goto t th (RacePc.xClose ClosePc.close_and_free) with
        files := s.files.set (th.fx_file - 1) { f with mutex := none } }
    | ClosePc.close_and_free =>
      { s.goto t th (RacePc.xClose ClosePc.put_openclose) with
        opened := if s.opened = th.fx_file then 0 else s.opened
        files := s.files.set (th.fx_file - 1) { f with freed := true } }
    | ClosePc.put_openclose =>
      { s with
        openclose := none
        threads := s.threads.set t
          { th with pc := RacePc.xClose ClosePc.returned, rc := some SQLITE_OK } }
    | ClosePc.returned => s

/-- One step of thread `t`. -/
def raceStep (s : RaceState) (t : Nat) : RaceState :=
  match s.threads[t]? with
  | none => s
  | some th =>
    match th.pc with
    | RacePc.xOpen pc => xOpen_step s t th pc
    | RacePc.xClose pc => xClose_step s t th pc

/-- The threads run in the order the schedule gives. -/
def raceRun (s : RaceState) (schedule : List Nat) : RaceState :=
  schedule.foldl raceStep s

/-- The path is open once (handle 1, `open_count` 1); thread 0 enters `xOpen` on the same path
while thread 1 enters `xClose` on the handle. -/
def openAgainstLastClose : RaceState :=
  { openclose := none
    opened := 1
    files := [{ open_count := 1, mutex := none, freed := false }]
    threads := [{ pc := RacePc.xOpen OpenPc.get_openclose, fx_file := 0, rc := none },
                { pc := RacePc.xClose ClosePc.get_file_mutex, fx_file := 1, rc := none }]
    use_after_free := false }

/-- The path is not open; threads 0 and 1 both enter `xOpen` on it. -/
def twoOpeners : RaceState :=
  { openclose := none
    opened := 0
    files := []
    threads := [{ pc := RacePc.xOpen OpenPc.get_openclose, fx_file := 0, rc := none },
                { pc := RacePc.xOpen OpenPc.get_openclose, fx_file := 0, rc := none }]
    use_after_free := false }

/-- The states one step of thread 0 or of thread 1 away from the states of a list, added to
the list. -/
def raceSuccessors (l : List RaceState) : List RaceState :=
  l.foldl (fun acc s => (acc.insert (raceStep s 0)).insert (raceStep s 1)) l

/-- The states reachable within `n` rounds of steps. -/
def raceReach : Nat → List RaceState → List RaceState
  | 0, l => l
  | n + 1, l => raceReach n (raceSuccessors l)

end SqliteAzure

namespace MplibStorage

/-! ## The staging buffers: `init`, `captureLog`, `ingestor_direct` (MPLIB_STORAGE.cpp) -/

/-- Records per staging buffer and the event flags of the two buffers (MPLIB_STORAGE.h). -/
def LOGS_PER_BUFFER : Nat := 16384
def FLAG_BUF_A_READY : Nat := 0x01
def FLAG_BUF_B_READY : Nat := 0x02
def FLAG_BUF_A_FREE : Nat := 0x04
def FLAG_BUF_B_FREE : Nat := 0x08

/-- A log record (`DS_LOG_STRUCT`); the character arrays are lists of bytes. -/
structure DS_LOG_STRUCT where
  log_index : Nat
  token : Nat
  local_log_index : Nat
  timestamp_at_store : Nat
  timestamp_at_log : Nat
  severity : Nat
  category : List Nat
  message : List Nat
  reserved : List Nat
  deriving DecidableEq, Repr

/-- The record `init_psram` leaves in every slot. -/
def zeroLog : DS_LOG_STRUCT :=
  { log_index := 0, token := 0, local_log_index := 0, timestamp_at_store := 0,
    timestamp_at_log := 0, severity := 0, category := List.replicate 24 0,
    message := List.replicate 160 0, reserved := List.replicate 16 0 }

/-- The two PSRAM buffers. -/
inductive Buffer where
  | psram_buffer_A
  | psram_buffer_B
  deriving DecidableEq, Repr

/-- The producer side of the staging area: the two buffers, the buffer being filled, the write
cursor (`uint32_t`), the event flags group `staging_events`, and, as a record of what happened,
the ready flags `captureLog` has set so far. -/
structure Staging where
  buffer_A : Nat → DS_LOG_STRUCT
  buffer_B : Nat → DS_LOG_STRUCT
  active_fill_buffer : Buffer
  current_index : Nat
  staging_events : Nat
  signalled : List Nat

/-- The staging state `init` leaves (MPLIB_STORAGE.cpp 333-342): zeroed buffers, buffer A
active, cursor 0, all flags cleared and then `FLAG_BUF_A_FREE | FLAG_BUF_B_FREE` set. -/
def init : Staging :=
  { buffer_A := fun _ => zeroLog
    buffer_B := fun _ => zeroLog
    active_fill_buffer := Buffer.psram_buffer_A
    current_index := 0
    staging_events := (0 &&& 0) ||| (FLAG_BUF_A_FREE ||| FLAG_BUF_B_FREE)
    signalled := [] }

/-- How a call of `captureLog` ends: it returns, or it stays blocked in `tx_event_flags_get`
(the state is the one it waits in). -/
inductive Capture where
  | done (s : Staging)
  | blocked (s : Staging)

/-- The last three lines of `captureLog` (746-748): the cursor is written into the record, the
record is copied into the active buffer at the cursor, and the cursor advances. -/
def Staging.store (s : Staging) (log : DS_LOG_STRUCT) : Staging :=
  let log1 := { log with local_log_index := s.current_index }
  match s.active_fill_buffer with
  | Buffer.psram_buffer_A =>
    { s with
      buffer_A := fun i => if i = s.current_index then log1 else s.buffer_A i
      current_index := (s.current_index + 1) % 2 ^ 32 }
  | Buffer.psram_buffer_B =>
    { s with
      buffer_B := fun i => if i = s.current_index then log1 else s.buffer_B i
      current_index := (s.current_index + 1) % 2 ^ 32 }

/-- `captureLog` (MPLIB_STORAGE.cpp 718-749) for buffers of `capacity` records. On a full
buffer it sets the ready flag of the active buffer, then waits for the free flag of the other
buffer (`TX_AND_CLEAR`): `between` is what the other threads do to the flags from the moment the
ready flag is set; if the free flag is then set it is cleared, the buffers are swapped and the
cursor is reset, otherwise the call stays blocked. -/
def captureLog (capacity : Nat) (between : Nat → Nat) (s : Staging) (log : DS_LOG_STRUCT) :
    Capture :=
  if s.current_index ≥ capacity then
    let ready_flag :=
      if s.active_fill_buffer = Buffer.psram_buffer_A then FLAG_BUF_A_READY else FLAG_BUF_B_READY
    let next_free := if ready_flag = FLAG_BUF_A_READY then FLAG_BUF_B_FREE else FLAG_BUF_A_FREE
    let flags := between (s.staging_events ||| ready_flag)
    if flags &&& next_free = next_free then
      Capture.done (Staging.store
        { s with
          staging_events := flags &&& (0xFFFFFFFF ^^^ next_free)
          active_fill_buffer :=
            if s.active_fill_buffer = Buffer.psram_buffer_A then Buffer.psram_buffer_B
            else Buffer.psram_buffer_A
          current_index := 0
          signalled := s.signalled ++ [ready_flag] } log)
    else
      Capture.blocked
        { s with staging_events := flags, signalled := s.signalled ++ [ready_flag] }
  else Capture.done (Staging.store s log)

/-- The first `n` calls of `captureLog`, the record of call `k + 1` being `log k`; a blocked
call is not followed by another. -/
def captureMany (capacity : Nat) (between : Nat → Nat) (log : Nat → DS_LOG_STRUCT) :
    Nat → Staging → Capture
  | 0, s => Capture.done s
  | n + 1, s =>
    match captureMany capacity between log n s with
    | Capture.done s1 => captureLog capacity between s1 (log n)
    | Capture.blocked s1 => Capture.blocked s1

/-- What one pass of the loop of `ingestor_direct` does to the event flags (MPLIB_STORAGE.cpp
1410-1478): it waits for a ready flag (`none` when there is none), takes buffer A if its flag
is set and buffer B otherwise, and after the inserts, whether they succeeded or not, clears the
ready bit (`~ready_bit`, `TX_AND`) and sets the free bit of that buffer. (A pass in which the
database cannot be opened changes no flag and is repeated.) -/
def ingestor_direct (flags : Nat) : Option Nat :=
  if flags &&& (FLAG_BUF_A_READY ||| FLAG_BUF_B_READY) = 0 then none
  else
    let ready_bit := if flags &&& FLAG_BUF_A_READY ≠ 0 then FLAG_BUF_A_READY else FLAG_BUF_B_READY
    let free_bit := if ready_bit = FLAG_BUF_A_READY then FLAG_BUF_A_FREE else FLAG_BUF_B_FREE
    some ((flags &&& (0xFFFFFFFF ^^^ ready_bit)) ||| free_bit)

/-- A consumer that never runs. -/
def neverConsumes (flags : Nat) : Nat := flags

/-- A consumer that takes each ready buffer at once: one pass of `ingestor_direct` runs as soon
as a ready flag is set. -/
def consumesAtOnce (flags : Nat) : Nat :=
  match ingestor_direct flags with
  | some flags1 => flags1
  | none => flags

/-- A step of the staging area: a call of `captureLog` with a record, or a pass of
`ingestor_direct`. -/
inductive StagingStep where
  | captureLog (log : DS_LOG_STRUCT)
  | ingestor_direct

/-- One step of the staging area, no thread running inside another one's step; `none` when
the step cannot be completed (it blocks). -/
def stagingStep (capacity : Nat) (s : Staging) : StagingStep → Option Staging
  | StagingStep.captureLog log =>
    match captureLog capacity neverConsumes s log with
    | Capture.done s1 => some s1
    | Capture.blocked _ => none
  | StagingStep.ingestor_direct =>
    match ingestor_direct s.staging_events with
    | some flags => some { s with staging_events := flags }
    | none => none

/-- The staging area after a list of steps. -/
def stagingRun (capacity : Nat) (steps : List StagingStep) (s : Staging) : Option Staging :=
  steps.foldl (fun o step => o.bind (fun s1 => stagingStep capacity s1 step)) (some s)

/-- The record the simulator produces with counter `n` (MPLIB_STORAGE.cpp 394-401), without
its time stamp and texts. -/
def testLog (n : Nat) : DS_LOG_STRUCT :=
  { zeroLog with log_index := n, token := 13131, severity := 1 }

/-- The ready flag `captureLog` sets at its swap number `q` (counted from 0) and the free flag
it then waits for: buffer A is the active one at the even swaps. -/
def readyFlagOf (q : Nat) : Nat := if q % 2 = 0 then FLAG_BUF_A_READY else FLAG_BUF_B_READY
def freeFlagOf (q : Nat) : Nat := if q % 2 = 0 then FLAG_BUF_B_FREE else FLAG_BUF_A_FREE

/-- The slots of the buffer being filled. -/
def Staging.active (s : Staging) : Nat → DS_LOG_STRUCT :=
  match s.active_fill_buffer with
  | Buffer.psram_buffer_A => s.buffer_A
  | Buffer.psram_buffer_B => s.buffer_B

/-! ## The staged strategy: `ingestRawToSQLite`, `work`, `ingestor` (MPLIB_STORAGE.cpp) -/

/-- The status values the staged strategy compares against (`UINT` statuses of FileX and of
the engine, and the engine's error codes). -/
def FX_SUCCESS : Nat := 0
def SQLITE_OK : Nat := 0
def SQLITE_NOMEM : Nat := 7
def SQLITE_DONE : Nat := 101
def SQLITE_IOERR_code : Int := 10
def SQLITE_CORRUPT_code : Int := 11
def SQLITE_NOTADB_code : Int := 26
def WRITE_CHUNK_SIZE : Nat := 512
def sizeof_DS_LOG_STRUCT : Nat := 224

/-- The modes of `sqlite3_wal_checkpoint_v2` the two strategies use. -/
def SQLITE_CHECKPOINT_PASSIVE : Nat := 0
def SQLITE_CHECKPOINT_TRUNCATE : Nat := 3

/-- What `ingestRawToSQLite` does outside its own variables, in order. -/
inductive IngestEvent where
  | fx_file_open
  | fx_file_read (chunk : Nat)
  | begin_transaction (chunk : Nat)
  | bindAndStep (chunk : Nat) (row : Nat)
  | release_memory
  | commit (chunk : Nat)
  | rollback
  | wal_checkpoint (mode : Nat)
  | fx_file_close
  | recoverDatabase
  | fx_media_flush
  | fx_file_delete
  deriving DecidableEq, Repr

/-- What the volume and the engine answer during one `ingestRawToSQLite`: the status of
`fx_file_open`; per chunk the status and `bytes_read` of `fx_file_read`, the status of
`BEGIN` and of `COMMIT` and `sqlite3_errcode` after a failed `COMMIT`; per row the status of
`bindAndStep`, `sqlite3_errcode` after its failure, and the status of the retry. -/
structure IngestEnv where
  open_status : Nat
  read_status : Nat → Nat
  bytes_read : Nat → Nat
  begin_status : Nat → Nat
  step_status : Nat → Nat → Nat
  errcode : Nat → Nat → Int
  retry_status : Nat → Nat → Nat
  commit_status : Nat → Nat
  commit_errcode : Nat → Int

/-- The outcome of the row loop of one chunk: whether it left the function through the
critical-error exit, the rows skipped in the chunk, and the events so far. -/
structure RowsResult where
  aborted : Bool
  chunk_skipped : Nat
  events : List IngestEvent
  deriving DecidableEq, Repr

/-- The row loop of `ingestRawToSQLite` (MPLIB_STORAGE.cpp 813-852) over rows `i`, ...,
`i + remaining - 1` of chunk `chunk`. A row whose `bindAndStep` is not `SQLITE_DONE`: if the
status is `SQLITE_NOMEM` the page cache is released and the row retried once, and a failed
retry skips the row; any other status takes the `else` branch, which skips the row and
continues with the next one. The critical-error check is reached only behind a successful
retry. -/
def ingestRows (env : IngestEnv) (chunk : Nat) :
    Nat → Nat → Nat → List IngestEvent → RowsResult
  | 0, _, chunk_skipped, events =>
    { aborted := false, chunk_skipped := chunk_skipped, events := events }
  | remaining + 1, i, chunk_skipped, events =>
    let events1 := events ++ [IngestEvent.bindAndStep chunk i]
    if env.step_status chunk i ≠ SQLITE_DONE then
      let err := env.errcode chunk i
      if env.step_status chunk i = SQLITE_NOMEM ∨ env.step_status chunk i = 7 then
        let events2 := events1 ++ [IngestEvent.release_memory, IngestEvent.bindAndStep chunk i]
        if env.retry_status chunk i ≠ SQLITE_DONE then
          ingestRows env chunk remaining (i + 1) (chunk_skipped + 1) events2
        else if err = SQLITE_CORRUPT_code ∨ err = SQLITE_NOTADB_code ∨ err = SQLITE_IOERR_code then
          { aborted := true, chunk_skipped := chunk_skipped
            events := events2 ++ [IngestEvent.rollback, IngestEvent.fx_file_close,
              IngestEvent.recoverDatabase] }
        else ingestRows env chunk remaining (i + 1) chunk_skipped events2
      else
        ingestRows env chunk remaining (i + 1) (chunk_skipped + 1) events1
    else ingestRows env chunk remaining (i + 1) chunk_skipped events1

/-- The outcome of `ingestRawToSQLite`: the value returned, the rows skipped, the chunks
committed, and the events. -/
structure IngestResult where
  returned : Bool
  total_logs_skipped : Nat
  successful_chunks : Nat
  events : List IngestEvent
  deriving DecidableEq, Repr

/-- The end of `ingestRawToSQLite` (MPLIB_STORAGE.cpp 905-948): the raw file is closed and
deleted, and the result is whether a chunk was committed. -/
def ingestFinish (total_logs_skipped successful_chunks : Nat) (events : List IngestEvent) :
    IngestResult :=
  { returned := decide (successful_chunks > 0)
    total_logs_skipped := total_logs_skipped
    successful_chunks := successful_chunks
    events := events ++ [IngestEvent.fx_file_close, IngestEvent.fx_media_flush,
      IngestEvent.fx_file_delete] }

/-- The chunk loop of `ingestRawToSQLite` (MPLIB_STORAGE.cpp 775-903), one unit of `fuel` per
pass; `none` when the fuel runs out. The counters are `uint32_t`. A failed or empty read and a
failed `BEGIN` leave the loop (the flag `success` they set is not read afterwards). -/
def ingestChunks (env : IngestEnv) :
    Nat → Nat → Nat → Nat → Nat → List IngestEvent → Option IngestResult
  | 0, _, _, _, _, _ => none
  | fuel + 1, chunk_count, total_logs_ingested, total_logs_skipped, successful_chunks, events =>
    if total_logs_ingested < LOGS_PER_BUFFER then
      let events1 := events ++ [IngestEvent.fx_file_read chunk_count]
      if env.read_status chunk_count ≠ FX_SUCCESS ∨ env.bytes_read chunk_count = 0 then
        some (ingestFinish total_logs_skipped successful_chunks events1)
      else
        let num_logs := env.bytes_read chunk_count / sizeof_DS_LOG_STRUCT
        let events2 := events1 ++ [IngestEvent.begin_transaction chunk_count]
        if env.begin_status chunk_count ≠ SQLITE_OK then
          some (ingestFinish total_logs_skipped successful_chunks events2)
        else
          let rows := ingestRows env chunk_count num_logs 0 0 events2
          if rows.aborted then
            some { returned := false
                   total_logs_skipped := (total_logs_skipped + rows.chunk_skipped) % 2 ^ 32
                   successful_chunks := successful_chunks
                   events := rows.events }
          else
            let skipped := (total_logs_skipped + rows.chunk_skipped) % 2 ^ 32
            let events3 := rows.events ++ [IngestEvent.commit chunk_count]
            if env.commit_status chunk_count ≠ SQLITE_OK then
              let events4 := events3 ++ [IngestEvent.rollback]
              if env.commit_errcode chunk_count = SQLITE_CORRUPT_code ∨
                  env.commit_errcode chunk_count = SQLITE_NOTADB_code then
                some { returned := false
                       total_logs_skipped := skipped
                       successful_chunks := successful_chunks
                       events := events4 ++ [IngestEvent.fx_file_close,
                         IngestEvent.recoverDatabase] }
              else
                ingestChunks env fuel ((chunk_count + 1) % 2 ^ 32)
                  ((total_logs_ingested + num_logs) % 2 ^ 32) skipped successful_chunks
                  (if chunk_count % 2 = 0 then
                     events4 ++ [IngestEvent.wal_checkpoint SQLITE_CHECKPOINT_TRUNCATE]
                   else events4)
            else
              ingestChunks env fuel ((chunk_count + 1) % 2 ^ 32)
                ((total_logs_ingested + num_logs) % 2 ^ 32) skipped
                ((successful_chunks + 1) % 2 ^ 32) (events3 ++ [IngestEvent.release_memory])
    else some (ingestFinish total_logs_skipped successful_chunks events)

/-- `ingestRawToSQLite` (MPLIB_STORAGE.cpp 754-949): a raw file that cannot be opened gives
`false` at once; otherwise the chunk loop runs. -/
def ingestRawToSQLite (env : IngestEnv) (fuel : Nat) : Option IngestResult :=
  if env.open_status ≠ FX_SUCCESS then
    some { returned := false, total_logs_skipped := 0, successful_chunks := 0
           events := [IngestEvent.fx_file_open] }
  else ingestChunks env fuel 0 0 0 0 [IngestEvent.fx_file_open]

/-- A raw file of one chunk of three rows whose second row is refused with `SQLITE_CORRUPT`
(status 11, error code 11); everything else succeeds and the second read finds the end of the
file. -/
def corruptRowEnv : IngestEnv :=
  { open_status := FX_SUCCESS
    read_status := fun _ => FX_SUCCESS
    bytes_read := fun chunk => if chunk = 0 then 3 * sizeof_DS_LOG_STRUCT else 0
    begin_status := fun _ => SQLITE_OK
    step_status := fun chunk row => if chunk = 0 ∧ row = 1 then 11 else SQLITE_DONE
    errcode := fun chunk row => if chunk = 0 ∧ row = 1 then SQLITE_CORRUPT_code else 0
    retry_status := fun _ _ => SQLITE_DONE
    commit_status := fun _ => SQLITE_OK
    commit_errcode := fun _ => 0 }

/-- The number of staged raw files the queue is meant to hold. -/
def MAX_RAW_FILES : Nat := 40

/-- The queue of staged raw files: the two `uint32_t` indices, the count of the semaphore
`sem_raw_files`, whether the simulator thread is suspended, and, as a record of what happened,
the numbers of the files `batch_<k>.raw` written and handed to `ingestRawToSQLite`. -/
structure RawQueue where
  produce_idx : Nat
  consume_idx : Nat
  sem_raw_files : Nat
  simulator_suspended : Bool
  written : List Nat
  ingested : List Nat
  deriving DecidableEq, Repr

/-- The occupancy `produce_idx - consume_idx` in `uint32_t` arithmetic. -/
def RawQueue.occupancy (q : RawQueue) : Nat :=
  (q.produce_idx + 2 ^ 32 - q.consume_idx) % 2 ^ 32

/-- One pass of the loop of `work` (MPLIB_STORAGE.cpp 459-498) once a ready flag has arrived,
`write_status` being what `writeRawFile` returns: a full queue suspends the simulator, and in
every case the buffer is then written to `batch_<produce_idx % MAX_RAW_FILES>.raw`; a
successful write advances `produce_idx` and posts the semaphore. -/
def work (q : RawQueue) (write_status : Nat) : RawQueue :=
  let q1 := if q.occupancy ≥ MAX_RAW_FILES then { q with simulator_suspended := true } else q
  let q2 := { q1 with written := q1.written ++ [q1.produce_idx % MAX_RAW_FILES] }
  if write_status = FX_SUCCESS then
    { q2 with produce_idx := (q2.produce_idx + 1) % 2 ^ 32
              sem_raw_files := q2.sem_raw_files + 1 }
  else q2

/-- One pass of the loop of `ingestor` (MPLIB_STORAGE.cpp 574-683) with the database open,
`ingest_ok` being what `ingestRawToSQLite` returns; `none` while the semaphore is 0. Both
outcomes advance `consume_idx`; a success resumes a suspended simulator when the occupancy is
below `MAX_RAW_FILES`. -/
def ingestor (q : RawQueue) (ingest_ok : Bool) : Option RawQueue :=
  if q.sem_raw_files = 0 then none
  else
    let q1 := { q with sem_raw_files := q.sem_raw_files - 1
                       ingested := q.ingested ++ [q.consume_idx % MAX_RAW_FILES]
                       consume_idx := (q.consume_idx + 1) % 2 ^ 32 }
    if ingest_ok then
      some (if q1.occupancy < MAX_RAW_FILES then { q1 with simulator_suspended := false }
            else q1)
    else some q1

/-- A step of the staged strategy. -/
inductive QueueStep where
  | work (write_status : Nat)
  | ingestor (ingest_ok : Bool)
  deriving DecidableEq, Repr

/-- The queue after a list of steps; `none` when a step of the list blocks. -/
def queueRun (steps : List QueueStep) (q : RawQueue) : Option RawQueue :=
  steps.foldl (fun o step => o.bind (fun q1 =>
    match step with
    | QueueStep.work write_status => some (work q1 write_status)
    | QueueStep.ingestor ingest_ok => ingestor q1 ingest_ok)) (some q)

/-- The queue at start: `produce_idx = consume_idx = 0`, semaphore 0, simulator running. -/
def queueInit : RawQueue :=
  { produce_idx := 0, consume_idx := 0, sem_raw_files := 0, simulator_suspended := false,
    written := [], ingested := [] }

/-! ## The staged strategy: event flags of `work`, file names -/

/-- The wait at the head of the loop of `work` (MPLIB_STORAGE.cpp 462):
`tx_event_flags_get(&staging_events, 0x03, TX_OR_CLEAR, &actual_flags, TX_WAIT_FOREVER)`. It
blocks (`none`) while neither ready flag is set; otherwise it returns the flags as they were
and clears the two requested bits. -/
def work_wait (flags : Nat) : Option (Nat × Nat) :=
  if flags &&& 0x03 = 0 then none
  else some (flags, flags &&& (0xFFFFFFFF ^^^ 0x03))

/-- One pass of the loop of `work` with the event flags (MPLIB_STORAGE.cpp 459-498): the wait,
the choice of the source buffer from `actual_flags & 0x01`, and the rest of the pass as `work`
gives it. The result is the event flags, the buffer drained and the queue. No other line of the
pass touches `staging_events`. -/
def work_pass (flags : Nat) (q : RawQueue) (write_status : Nat) :
    Option (Nat × Buffer × RawQueue) :=
  match work_wait flags with
  | none => none
  | some (actual_flags, flags1) =>
    some (flags1,
      if actual_flags &&& 0x01 ≠ 0 then Buffer.psram_buffer_A else Buffer.psram_buffer_B,
      work q write_status)

/-- The decimal digits of `n`, most significant first (`%lu`); `fuel` bounds their number. -/
def decimalDigits : Nat → Nat → List Char
  | 0, _ => []
  | fuel + 1, n =>
    if n < 10 then [Char.ofNat (n + 48)]
    else decimalDigits fuel (n / 10) ++ [Char.ofNat (n % 10 + 48)]

/-- The name `snprintf(raw_filename, sizeof(raw_filename), "batch_%lu.raw", idx %
MAX_RAW_FILES)` gives for the counter value `idx`, in `work` (line 479, `idx` is `produce_idx`)
and in `ingestor` (line 618, `idx` is `consume_idx`). -/
def raw_filename (idx : Nat) : String :=
  String.mk ("batch_".data ++ decimalDigits 10 (idx % MAX_RAW_FILES) ++ ".raw".data)

/-- The counter value of file number `k`: the `uint32_t` index after `k` increments from 0. -/
def counterOf (k : Nat) : Nat := k % 2 ^ 32

/-! ## One pass of `ingestor_direct` with the engine -/

/-- What a pass of `ingestor_direct` does outside its own variables, in order. -/
inductive DirectEvent where
  | sqlite3_open
  | tuneDbConfig
  | sqlite3_prepare
  | sqlite3_close
  | tx_thread_sleep (ticks : Nat)
  | begin_transaction
  | bindAndStep (row : Nat)
  | commit
  | rollback
  | flags_and (mask : Nat)
  | flags_or (bits : Nat)
  | wal_checkpoint (mode : Nat)
  deriving DecidableEq, Repr

/-- What the engine answers during one pass of `ingestor_direct`: the result of `sqlite3_open`
and the handle it stores, the result of `sqlite3_prepare_v2` and the statement it stores, the
results of `BEGIN`, of `bindAndStep` per row and of `COMMIT`. -/
structure DirectEnv where
  open_rc : Nat
  open_db : Nat
  prepare_rc : Nat
  prepared_stmt : Nat
  begin_rc : Nat
  step_rc : Nat → Nat
  commit_rc : Nat

/-- The variables of `ingestor_direct`: the event flags, the connection handle `db` and the
prepared statement `insert_stmt` (0 is `nullptr`), the local `buffer_counter`, and the events
so far. -/
structure DirectState where
  staging_events : Nat
  db : Nat
  insert_stmt : Nat
  buffer_counter : Nat
  events : List DirectEvent

/-- The row loop of `ingestor_direct` (MPLIB_STORAGE.cpp 1450-1459) over rows `i`, ...,
`i + remaining - 1`: it stops at the first row whose `bindAndStep` is not `SQLITE_DONE`. The
result is `batch_ok` and the events. -/
def directRows (env : DirectEnv) : Nat → Nat → List DirectEvent → Bool × List DirectEvent
  | 0, _, events => (true, events)
  | remaining + 1, i, events =>
    if env.step_rc i ≠ SQLITE_DONE then (false, events ++ [DirectEvent.bindAndStep i])
    else directRows env remaining (i + 1) (events ++ [DirectEvent.bindAndStep i])

/-- One pass of the loop of `ingestor_direct` (MPLIB_STORAGE.cpp 1407-1488) for buffers of
`capacity` records; `none` while no ready flag is set. A pass that cannot open the database or
prepare the statement sleeps and ends without touching the flags. Otherwise the buffer is
inserted in one transaction, and on every path the ready bit is cleared and the free bit set
(the flags `ingestor_direct` gives); a pass that got past `BEGIN` counts the buffer and asks
for a passive checkpoint at every fifth. -/
def ingestor_direct_pass (capacity : Nat) (env : DirectEnv) (s : DirectState) :
    Option DirectState :=
  match ingestor_direct s.staging_events with
  | none => none
  | some released =>
    let ready_bit :=
      if s.staging_events &&& FLAG_BUF_A_READY ≠ 0 then FLAG_BUF_A_READY else FLAG_BUF_B_READY
    let free_bit := if ready_bit = FLAG_BUF_A_READY then FLAG_BUF_A_FREE else FLAG_BUF_B_FREE
    let release := [DirectEvent.flags_and (0xFFFFFFFF ^^^ ready_bit), DirectEvent.flags_or free_bit]
    if s.db = 0 ∧ env.open_rc ≠ SQLITE_OK then
      some { s with db := env.open_db
                    events := s.events ++ [DirectEvent.sqlite3_open,
                      DirectEvent.tx_thread_sleep 1000] }
    else if s.db = 0 ∧ env.prepare_rc ≠ SQLITE_OK then
      some { s with db := 0
                    insert_stmt := env.prepared_stmt
                    events := s.events ++ [DirectEvent.sqlite3_open, DirectEvent.tuneDbConfig,
                      DirectEvent.sqlite3_prepare, DirectEvent.sqlite3_close,
                      DirectEvent.tx_thread_sleep 1000] }
    else
      let s1 : DirectState :=
        if s.db = 0 then
          { s with db := env.open_db
                   insert_stmt := env.prepared_stmt
                   events := s.events ++ [DirectEvent.sqlite3_open, DirectEvent.tuneDbConfig,
                     DirectEvent.sqlite3_prepare] }
        else s
      let events1 := s1.events ++ [DirectEvent.begin_transaction]
      if env.begin_rc ≠ SQLITE_OK then
        some { s1 with staging_events := released, events := events1 ++ release }
      else
        let rows := directRows env capacity 0 events1
        let events2 :=
          if rows.1 then
            if env.commit_rc ≠ SQLITE_OK then
              rows.2 ++ [DirectEvent.commit, DirectEvent.rollback]
            else rows.2 ++ [DirectEvent.commit]
          else rows.2 ++ [DirectEvent.rollback]
        let counter := (s1.buffer_counter + 1) % 2 ^ 32
        some { s1 with
               staging_events := released
               buffer_counter := counter
               events :=
                 if counter % 5 = 0 then
                   events2 ++ release ++ [DirectEvent.wal_checkpoint SQLITE_CHECKPOINT_PASSIVE]
                 else events2 ++ release }

/-- Whether the pass gets to `BEGIN`: the database is open, or it can be opened and the
statement prepared. -/
def reachesTransaction (env : DirectEnv) (s : DirectState) : Prop :=
  s.db ≠ 0 ∨ (env.open_rc = SQLITE_OK ∧ env.prepare_rc = SQLITE_OK)

instance (env : DirectEnv) (s : DirectState) : Decidable (reachesTransaction env s) := by
  unfold reachesTransaction; infer_instance

/-- An engine on which everything succeeds. -/
def directEnvGood : DirectEnv :=
  { open_rc := SQLITE_OK, open_db := 1000, prepare_rc := SQLITE_OK, prepared_stmt := 2000,
    begin_rc := SQLITE_OK, step_rc := fun _ => SQLITE_DONE, commit_rc := SQLITE_OK }

/-- An event that is neither the recovery of the database nor the deletion of the raw file. -/
def IngestEvent.quiet : IngestEvent → Bool
  | IngestEvent.recoverDatabase => false
  | IngestEvent.fx_file_delete => false
  | _ => true

/-- An event that is a `COMMIT`. -/
def IngestEvent.isCommit : IngestEvent → Bool
  | IngestEvent.commit _ => true
  | _ => false

/-- An event that is a request for a checkpoint of the write-ahead log. -/
def IngestEvent.isCheckpoint : IngestEvent → Bool
  | IngestEvent.wal_checkpoint _ => true
  | _ => false

/-- A raw file of two chunks of one row each; every call succeeds and the third read finds
the end of the file. -/
def twoChunksEnv : IngestEnv :=
  { open_status := FX_SUCCESS
    read_status := fun _ => FX_SUCCESS
    bytes_read := fun chunk => if chunk < 2 then sizeof_DS_LOG_STRUCT else 0
    begin_status := fun _ => SQLITE_OK
    step_status := fun _ _ => SQLITE_DONE
    errcode := fun _ _ => 0
    retry_status := fun _ _ => SQLITE_DONE
    commit_status := fun _ => SQLITE_OK
    commit_errcode := fun _ => 0 }

/-- A raw file whose first chunk (one row) commits and whose second read fails with
`FX_IO_ERROR`. -/
def readFailsAfterCommitEnv : IngestEnv :=
  { twoChunksEnv with read_status := fun chunk => if chunk = 0 then FX_SUCCESS else 0x90 }

/-- A raw file whose first chunk (one row) commits and for whose second chunk `BEGIN` fails
with `SQLITE_BUSY`. -/
def beginFailsAfterCommitEnv : IngestEnv :=
  { twoChunksEnv with begin_status := fun chunk => if chunk = 0 then SQLITE_OK else 5 }

/-- A raw file of two chunks whose first `COMMIT` fails with `SQLITE_BUSY` (not a critical
error) and whose second chunk commits. -/
def commitFailsEnv : IngestEnv :=
  { twoChunksEnv with commit_status := fun chunk => if chunk = 0 then 5 else SQLITE_OK
                      commit_errcode := fun _ => 5 }

/-! ## Recovery of the database: `recoverDatabase` and the reopening in `ingestor` -/

/-- The result `SQLITE_BUSY` of `sqlite3_close_v2`. -/
def SQLITE_BUSY : Nat := 5

/-- The session of the ingestion thread: the connection handle `db` and the prepared statement
`insert_stmt` (0 is `nullptr`), with the queue of staged files. -/
structure Session where
  db : Nat
  insert_stmt : Nat
  queue : RawQueue
  deriving DecidableEq, Repr

/-- What `recoverDatabase` and the reopening of `ingestor` do outside the session, in order. -/
inductive SessionEvent where
  | sqlite3_finalize
  | sqlite3_close_v2
  | sqlite3_interrupt
  | tx_thread_sleep (ticks : Nat)
  | fx_media_flush
  | delete_database_files
  | fx_file_delete (name : String)
  | sqlite3_open
  | tuneDbConfig
  | createTable
  | sqlite3_prepare_v2
  | tx_semaphore_put
  deriving DecidableEq, Repr

/-- What the engine and the volume answer during `recoverDatabase`: the results of
`sqlite3_finalize`, of the first and the repeated `sqlite3_close_v2`, of `fx_media_flush` and
`delete_database_files`, the result of `sqlite3_open` and the handle it stores in `db`,
whether `createTable` succeeds, and the result of the last `sqlite3_close_v2`. -/
structure RecoverEnv where
  finalize_rc : Nat
  close_rc : Nat
  close_again_rc : Nat
  flush_status : Nat
  delete_status : Nat
  open_rc : Nat
  open_db : Nat
  createTable_ok : Bool
  final_close_rc : Nat

/-- Steps 1 to 4 of `recoverDatabase` (MPLIB_STORAGE.cpp 1092-1158): the statement is
finalized and its pointer cleared, the handle is closed (interrupted and closed again when
busy) and its pointer cleared, the media is flushed and the database files are deleted. -/
def recoverDatabase_teardown (env : RecoverEnv) (s : Session) : Session × List SessionEvent :=
  let events1 := if s.insert_stmt ≠ 0 then [SessionEvent.sqlite3_finalize] else []
  let s1 := if s.insert_stmt ≠ 0 then { s with insert_stmt := 0 } else s
  let events2 :=
    if s1.db ≠ 0 then
      if env.close_rc = SQLITE_OK then events1 ++ [SessionEvent.sqlite3_close_v2]
      else if env.close_rc = SQLITE_BUSY then
        events1 ++ [SessionEvent.sqlite3_close_v2, SessionEvent.sqlite3_interrupt,
          SessionEvent.tx_thread_sleep 10, SessionEvent.sqlite3_close_v2]
      else events1 ++ [SessionEvent.sqlite3_close_v2]
    else events1
  let s2 := if s1.db ≠ 0 then { s1 with db := 0 } else s1
  (s2, events2 ++ [SessionEvent.fx_media_flush, SessionEvent.delete_database_files,
    SessionEvent.fx_file_delete "logs.db-wal", SessionEvent.fx_file_delete "logs.db-shm"])

/-- `recoverDatabase` (MPLIB_STORAGE.cpp 1083-1215): after the teardown the database is
opened again to recreate the table and closed; a failed `sqlite3_open` and a failed
`createTable` return early. `tuneDbConfig` and `createTable` only execute statements on `db`. -/
def recoverDatabase (env : RecoverEnv) (s : Session) : Session × List SessionEvent :=
  let t := recoverDatabase_teardown env s
  let s3 : Session := { t.1 with db := env.open_db }
  let events3 := t.2 ++ [SessionEvent.sqlite3_open]
  if env.open_rc ≠ SQLITE_OK then ({ s3 with db := 0 }, events3)
  else
    let events4 := events3 ++ [SessionEvent.tuneDbConfig, SessionEvent.createTable]
    if env.createTable_ok = false then
      ({ s3 with db := 0 }, events4 ++ [SessionEvent.sqlite3_close_v2])
    else
      ({ s3 with db := 0, insert_stmt := 0 },
        events4 ++ [SessionEvent.sqlite3_close_v2, SessionEvent.tx_thread_sleep 100])

/-- What the engine answers when `ingestor` reopens the database: the result of `sqlite3_open`
and the handle it stores, the result of `sqlite3_prepare_v2` and the statement it stores. -/
structure ReopenEnv where
  open_rc : Nat
  open_db : Nat
  prepare_rc : Nat
  prepared_stmt : Nat

/-- The check at the head of a pass of `ingestor`, behind `tx_semaphore_get` (MPLIB_STORAGE.cpp
581-611): with `db == nullptr` the database is opened and the statement prepared; when either
fails the semaphore is posted back and the pass ends (`false`). -/
def ingestor_reopen (env : ReopenEnv) (s : Session) : Session × Bool × List SessionEvent :=
  if s.db = 0 then
    if env.open_rc ≠ SQLITE_OK then
      ({ s with db := env.open_db }, false,
        [SessionEvent.sqlite3_open, SessionEvent.tx_semaphore_put,
         SessionEvent.tx_thread_sleep 1000])
    else if env.prepare_rc ≠ SQLITE_OK then
      ({ s with db := 0, insert_stmt := env.prepared_stmt }, false,
        [SessionEvent.sqlite3_open, SessionEvent.tuneDbConfig, SessionEvent.sqlite3_prepare_v2,
         SessionEvent.sqlite3_close_v2, SessionEvent.tx_semaphore_put,
         SessionEvent.tx_thread_sleep 1000])
    else
      ({ s with db := env.open_db, insert_stmt := env.prepared_stmt }, true,
        [SessionEvent.sqlite3_open, SessionEvent.tuneDbConfig, SessionEvent.sqlite3_prepare_v2])
  else (s, true, [])

/-! ## Writing a staged file: `writeRawFile`, `writeRawFile_interrupt` -/

/-- The size of the landing zone in AXI SRAM (MPLIB_STORAGE.h) and the status
`FX_ALREADY_CREATED`. -/
def SRAM_LANDING_SIZE : Nat := 128 * 1024
def FX_ALREADY_CREATED : Nat := 0x0B

/-- How the bulk copy of one chunk ends: `HAL_DMA_Start` (or `HAL_DMA_Start_IT`) fails; the
transfer is started but the poll (or the wait for the completion semaphore) times out or the
transfer ends in error; the transfer completes. -/
inductive CopyOutcome where
  | start_failed
  | not_completed
  | completed
  deriving DecidableEq, Repr

/-- What the two functions do outside their own variables, in order. -/
inductive RawWriteEvent where
  | fx_file_create
  | fx_file_open
  | HAL_DMA_Start (record : Nat) (sz : Nat)
  | HAL_DMA_PollForTransfer
  | tx_semaphore_get
  | HAL_DMA_Abort
  | memcpy (record : Nat) (sz : Nat)
  | fx_file_write (sz : Nat)
  | fx_media_flush
  | fx_file_close
  deriving DecidableEq, Repr

/-- What the volume and the DMA answer during one call: the statuses of `fx_file_create` and
`fx_file_open`, per chunk the outcome of the bulk copy, what a transfer that did not complete
has left in the landing zone, and the status of `fx_file_write`. -/
structure RawWriteEnv where
  create_status : Nat
  open_status : Nat
  copy : Nat → CopyOutcome
  partial_transfer : Nat → List Nat
  write_status : Nat → Nat

/-- The `count` records from record `first` on of a buffer, as bytes: `psram` gives the byte at
each byte offset from the start of the buffer. -/
def bufferBytes (psram : Nat → Nat) (first count : Nat) : List Nat :=
  (List.range (count * sizeof_DS_LOG_STRUCT)).map
    (fun i => psram (first * sizeof_DS_LOG_STRUCT + i))

/-- The first `n` records of a buffer one after the other, nothing before or between them. -/
def concatRecords (psram : Nat → Nat) : Nat → List Nat
  | 0 => []
  | n + 1 => concatRecords psram n ++ bufferBytes psram n 1

/-- `memcpy(dst, src, n)` with `n` the length of `src`: the first bytes of `dst` are replaced. -/
def memcpy (dst src : List Nat) : List Nat := src ++ dst.drop src.length

/-- The bulk copy of one chunk into the landing zone (MPLIB_STORAGE.cpp 986-1011 and
1355-1373). A transfer that completes has moved the bytes; when the start fails, and when the
transfer does not complete (the interrupt variant aborts it first), `memcpy` copies the
chunk. -/
def bulkCopy (interrupt : Bool) (outcome : CopyOutcome) (partial_transfer : List Nat)
    (landing src : List Nat) (record sz : Nat) : List Nat × List RawWriteEvent :=
  match outcome with
  | CopyOutcome.start_failed =>
    (memcpy landing src, [RawWriteEvent.HAL_DMA_Start record sz, RawWriteEvent.memcpy record sz])
  | CopyOutcome.not_completed =>
    (memcpy (memcpy landing partial_transfer) src,
      if interrupt then
        [RawWriteEvent.HAL_DMA_Start record sz, RawWriteEvent.tx_semaphore_get,
         RawWriteEvent.HAL_DMA_Abort, RawWriteEvent.memcpy record sz]
      else
        [RawWriteEvent.HAL_DMA_Start record sz, RawWriteEvent.HAL_DMA_PollForTransfer,
         RawWriteEvent.memcpy record sz])
  | CopyOutcome.completed =>
    (memcpy landing src,
      if interrupt then [RawWriteEvent.HAL_DMA_Start record sz, RawWriteEvent.tx_semaphore_get]
      else [RawWriteEvent.HAL_DMA_Start record sz, RawWriteEvent.HAL_DMA_PollForTransfer])

/-- The state of the chunk loop: `logs_rem`, `offset`, the number of the chunk, `status`, the
landing zone, the file and the events. -/
structure RawWriteState where
  logs_rem : Nat
  offset : Nat
  chunk : Nat
  status : Nat
  landing : List Nat
  file : SqliteAzure.FileData
  events : List RawWriteEvent

/-- The chunk loop of the two functions (MPLIB_STORAGE.cpp 979-1029 and 1348-1390), one unit
of `fuel` per evaluation of `logs_rem > 0`; `none` when the fuel runs out. Each pass copies at
most `WRITE_CHUNK_SIZE` records into the landing zone and writes them to the file; a failed
write leaves the loop. -/
def writeChunks (interrupt : Bool) (env : RawWriteEnv) (psram : Nat → Nat) :
    Nat → RawWriteState → Option RawWriteState
  | 0, _ => none
  | fuel + 1, st =>
    if st.logs_rem > 0 then
      let count := if st.logs_rem ≥ WRITE_CHUNK_SIZE then WRITE_CHUNK_SIZE else st.logs_rem
      let sz := (count * sizeof_DS_LOG_STRUCT) % 2 ^ 32
      let src := (List.range sz).map (fun i => psram (st.offset * sizeof_DS_LOG_STRUCT + i))
      let copied := bulkCopy interrupt (env.copy st.chunk) (env.partial_transfer st.chunk)
        st.landing src st.offset sz
      let status := env.write_status st.chunk
      let st1 : RawWriteState :=
        { st with
          status := status
          landing := copied.1
          file := SqliteAzure.fx_file_write st.file (copied.1.take sz) status
          events := st.events ++ copied.2 ++ [RawWriteEvent.fx_file_write sz] }
      if status ≠ FX_SUCCESS then some st1
      else
        writeChunks interrupt env psram fuel
          { st1 with
            logs_rem := st.logs_rem - count
            offset := (st.offset + count) % 2 ^ 32
            chunk := st.chunk + 1 }
    else some st

/-- The outcome of `writeRawFile`: the status returned, the contents of the file of that name
afterwards, and the events. -/
structure RawWriteResult where
  status : Nat
  contents : List Nat
  events : List RawWriteEvent
  deriving DecidableEq, Repr

/-- The body shared by `writeRawFile` and `writeRawFile_interrupt` for buffers of `capacity`
records: `existing` is what the file of that name holds before the call (nothing when there is
no such file). A create that fails otherwise than with `FX_ALREADY_CREATED`, and a failed open,
return the status at once. The file is opened for writing at position 0, the chunk loop runs,
the media is flushed and the file closed; the status returned is that of the last write. -/
def writeRaw (interrupt : Bool) (capacity : Nat) (env : RawWriteEnv) (psram : Nat → Nat)
    (existing landing : List Nat) (fuel : Nat) : Option RawWriteResult :=
  if env.create_status ≠ FX_SUCCESS ∧ env.create_status ≠ FX_ALREADY_CREATED then
    some { status := env.create_status, contents := existing
           events := [RawWriteEvent.fx_file_create] }
  else if env.open_status ≠ FX_SUCCESS then
    some { status := env.open_status, contents := existing
           events := [RawWriteEvent.fx_file_create, RawWriteEvent.fx_file_open] }
  else
    match writeChunks interrupt env psram fuel
        { logs_rem := capacity, offset := 0, chunk := 0, status := env.open_status,
          landing := landing
          file := { contents := existing, fx_file_current_file_offset := 0 }
          events := [RawWriteEvent.fx_file_create, RawWriteEvent.fx_file_open] } with
    | none => none
    | some st =>
      some { status := st.status, contents := st.file.contents
             events := st.events ++ [RawWriteEvent.fx_media_flush, RawWriteEvent.fx_file_close] }

/-- `writeRawFile` (MPLIB_STORAGE.cpp 954-1044): the bulk copy is polled. The parameter
`actual_count` of the source is not used by it. -/
def writeRawFile (capacity : Nat) (env : RawWriteEnv) (psram : Nat → Nat)
    (existing landing : List Nat) (fuel : Nat) : Option RawWriteResult :=
  writeRaw false capacity env psram existing landing fuel

/-- `writeRawFile_interrupt` (MPLIB_STORAGE.cpp 1322-1397): the end of the bulk copy is
signalled by interrupt through a semaphore. -/
def writeRawFile_interrupt (capacity : Nat) (env : RawWriteEnv) (psram : Nat → Nat)
    (existing landing : List Nat) (fuel : Nat) : Option RawWriteResult :=
  writeRaw true capacity env psram existing landing fuel

/-- A volume and a DMA on which everything succeeds. -/
def rawWriteEnvGood : RawWriteEnv :=
  { create_status := FX_SUCCESS, open_status := FX_SUCCESS
    copy := fun _ => CopyOutcome.completed, partial_transfer := fun _ => []
    write_status := fun _ => FX_SUCCESS }

end MplibStorage

namespace SqliteAzure

/-! ## Theorems: single calls of the lock machine -/

/-- Claim C3. From every state in which the caller may escalate (level Shared with the reader
count positive as `xLock` asserts, or level Reserved or Pending owned by the caller),
`xLock(EXCLUSIVE)` returns; it records the caller as `lock_task` and leaves the readers other
than the caller as the count; it returns `SQLITE_OK` with level Exclusive exactly when no other
reader remains, and otherwise `SQLITE_BUSY` with level Pending. -/
theorem xLock_exclusive_only_after_readers_drained (f : FX_FILE) (caller : Nat)
    (hesc : (f.lock_type = SQLITE_LOCK_SHARED ∧ 0 < f.shared_locks_count) ∨
      ((f.lock_type = SQLITE_LOCK_RESERVED ∨ f.lock_type = SQLITE_LOCK_PENDING) ∧
        f.lock_task = caller)) :
    xLock f caller SQLITE_LOCK_EXCLUSIVE =
      some ({ f with shared_locks_count := otherReaders f,
                     lock_task := caller,
                     lock_type := if otherReaders f = 0 then SQLITE_LOCK_EXCLUSIVE
                       else SQLITE_LOCK_PENDING },
            if otherReaders f = 0 then SQLITE_OK else SQLITE_BUSY) := by
  obtain ⟨nm, md, oc, dc, cnt, lt, task⟩ := f
  simp only [SQLITE_LOCK_SHARED, SQLITE_LOCK_RESERVED, SQLITE_LOCK_PENDING] at hesc
  rcases hesc with ⟨hs, hc⟩ | ⟨hrp | hrp, ht⟩
  · subst hs
    have hc1 : cnt ≠ 0 := by omega
    by_cases h0 : u32_dec cnt = 0 <;>
      simp [xLock, xLock_from_shared, otherReaders, hc1, h0, SQLITE_LOCK_NONE,
        SQLITE_LOCK_SHARED, SQLITE_LOCK_RESERVED, SQLITE_LOCK_PENDING, SQLITE_LOCK_EXCLUSIVE]
  · subst hrp; subst ht
    by_cases h0 : cnt = 0 <;>
      simp [xLock, xLock_from_reserved, otherReaders, h0, SQLITE_LOCK_NONE,
        SQLITE_LOCK_SHARED, SQLITE_LOCK_RESERVED, SQLITE_LOCK_PENDING, SQLITE_LOCK_EXCLUSIVE]
  · subst hrp; subst ht
    by_cases h0 : cnt = 0 <;>
      simp [xLock, xLock_from_pending, otherReaders, h0, SQLITE_LOCK_NONE,
        SQLITE_LOCK_SHARED, SQLITE_LOCK_RESERVED, SQLITE_LOCK_PENDING, SQLITE_LOCK_EXCLUSIVE]

/-- Witness of `xLock_exclusive_only_after_readers_drained`: one of two readers asks for
Exclusive and is left Pending with one reader to wait for. -/
theorem xLock_exclusive_only_after_readers_drained_witness :
    xLock { fx_file_name := "db", fx_file_open_mode := 1, open_count := 2, delete_on_close := 0,
            shared_locks_count := 2, lock_type := SQLITE_LOCK_SHARED, lock_task := 0 }
        7 SQLITE_LOCK_EXCLUSIVE =
      some ({ fx_file_name := "db", fx_file_open_mode := 1, open_count := 2,
              delete_on_close := 0, shared_locks_count := 1,
              lock_type := SQLITE_LOCK_PENDING, lock_task := 7 }, SQLITE_BUSY) :=
  (xLock_exclusive_only_after_readers_drained
    { fx_file_name := "db", fx_file_open_mode := 1, open_count := 2, delete_on_close := 0,
      shared_locks_count := 2, lock_type := SQLITE_LOCK_SHARED, lock_task := 0 } 7
    (Or.inl ⟨rfl, by decide⟩)).trans (by decide)

/-- Claim C4, counterexample. The owner of an Exclusive lock that asks for Exclusive again
gets `SQLITE_OK`, not `SQLITE_ERROR`. -/
theorem xLock_exclusive_again_by_owner_is_ok :
    xLock { fx_file_name := "db", fx_file_open_mode := 1, open_count := 1, delete_on_close := 0,
            shared_locks_count := 0, lock_type := SQLITE_LOCK_EXCLUSIVE, lock_task := 7 }
        7 SQLITE_LOCK_EXCLUSIVE =
      some ({ fx_file_name := "db", fx_file_open_mode := 1, open_count := 1,
              delete_on_close := 0, shared_locks_count := 0,
              lock_type := SQLITE_LOCK_EXCLUSIVE, lock_task := 7 }, SQLITE_OK) ∧
    SQLITE_OK ≠ SQLITE_ERROR := by
  decide

/-- Claim C4, amended. At level Exclusive every `xLock` request for Shared, Reserved, Pending
or Exclusive returns and leaves the file object as it is; a thread other than the owner gets
`SQLITE_BUSY`, the owner gets `SQLITE_ERROR` for a weaker level (Shared, Reserved, Pending) and
`SQLITE_OK` for Exclusive. -/
theorem xLock_at_exclusive (f : FX_FILE) (caller : Nat) (lock : Int)
    (hx : f.lock_type = SQLITE_LOCK_EXCLUSIVE)
    (hl : lock = SQLITE_LOCK_SHARED ∨ lock = SQLITE_LOCK_RESERVED ∨ lock = SQLITE_LOCK_PENDING
      ∨ lock = SQLITE_LOCK_EXCLUSIVE) :
    xLock f caller lock =
      some (f, if f.lock_task ≠ caller then SQLITE_BUSY
               else if lock = SQLITE_LOCK_EXCLUSIVE then SQLITE_OK else SQLITE_ERROR) := by
  simp only [SQLITE_LOCK_SHARED, SQLITE_LOCK_RESERVED, SQLITE_LOCK_PENDING,
    SQLITE_LOCK_EXCLUSIVE] at hx hl
  by_cases ht : f.lock_task = caller <;> rcases hl with h | h | h | h <;> subst h <;>
    simp [xLock, xLock_from_exclusive, hx, ht, SQLITE_LOCK_NONE, SQLITE_LOCK_SHARED,
      SQLITE_LOCK_RESERVED, SQLITE_LOCK_PENDING, SQLITE_LOCK_EXCLUSIVE]

/-- Witness of `xLock_at_exclusive`: the owner asks for Reserved while it holds Exclusive. -/
theorem xLock_at_exclusive_witness :
    xLock { fx_file_name := "db", fx_file_open_mode := 1, open_count := 1, delete_on_close := 0,
            shared_locks_count := 0, lock_type := SQLITE_LOCK_EXCLUSIVE, lock_task := 7 }
        7 SQLITE_LOCK_RESERVED =
      some ({ fx_file_name := "db", fx_file_open_mode := 1, open_count := 1,
              delete_on_close := 0, shared_locks_count := 0,
              lock_type := SQLITE_LOCK_EXCLUSIVE, lock_task := 7 }, SQLITE_ERROR) :=
  (xLock_at_exclusive
    { fx_file_name := "db", fx_file_open_mode := 1, open_count := 1, delete_on_close := 0,
      shared_locks_count := 0, lock_type := SQLITE_LOCK_EXCLUSIVE, lock_task := 7 } 7
    SQLITE_LOCK_RESERVED rfl (Or.inr (Or.inl rfl))).trans (by decide)

/-- Claim C5, counterexample. `xUnlock(NONE)` on a handle that holds no lock, and
`xUnlock(NONE)` by a thread that is not the owner of a Reserved lock without any reader,
both return `SQLITE_OK` and not `SQLITE_ERROR`. -/
theorem xUnlock_none_never_held_is_ok :
    xUnlock { fx_file_name := "db", fx_file_open_mode := 1, open_count := 1,
              delete_on_close := 0, shared_locks_count := 0,
              lock_type := SQLITE_LOCK_NONE, lock_task := 0 } 7 SQLITE_LOCK_NONE =
      some ({ fx_file_name := "db", fx_file_open_mode := 1, open_count := 1,
              delete_on_close := 0, shared_locks_count := 0,
              lock_type := SQLITE_LOCK_NONE, lock_task := 0 }, SQLITE_OK) ∧
    xUnlock { fx_file_name := "db", fx_file_open_mode := 1, open_count := 1,
              delete_on_close := 0, shared_locks_count := 0,
              lock_type := SQLITE_LOCK_RESERVED, lock_task := 8 } 7 SQLITE_LOCK_NONE =
      some ({ fx_file_name := "db", fx_file_open_mode := 1, open_count := 1,
              delete_on_close := 0, shared_locks_count := 0,
              lock_type := SQLITE_LOCK_RESERVED, lock_task := 8 }, SQLITE_OK) ∧
    SQLITE_OK ≠ SQLITE_ERROR := by
  decide

/-- Claim C5, amended. `xUnlock(NONE)` accepts the release of a lock that is not held: on a
handle at level None, and by a thread that is not `lock_task` at level Reserved, Pending or
Exclusive with no reader, it returns `SQLITE_OK` and leaves the file object as it is. The hard
error `SQLITE_ERROR` is what `xUnlock(SHARED)` returns at level None or Shared, and at level
Reserved, Pending or Exclusive to a thread that is not `lock_task`, the file object again
left as it is. -/
theorem xUnlock_of_lock_not_held (f : FX_FILE) (caller : Nat) :
    (f.lock_type = SQLITE_LOCK_NONE → xUnlock f caller SQLITE_LOCK_NONE = some (f, SQLITE_OK)) ∧
    ((f.lock_type = SQLITE_LOCK_RESERVED ∨ f.lock_type = SQLITE_LOCK_PENDING
        ∨ f.lock_type = SQLITE_LOCK_EXCLUSIVE) → f.lock_task ≠ caller →
      (f.shared_locks_count = 0 → xUnlock f caller SQLITE_LOCK_NONE = some (f, SQLITE_OK)) ∧
      xUnlock f caller SQLITE_LOCK_SHARED = some (f, SQLITE_ERROR)) ∧
    ((f.lock_type = SQLITE_LOCK_NONE ∨ f.lock_type = SQLITE_LOCK_SHARED) →
      xUnlock f caller SQLITE_LOCK_SHARED = some (f, SQLITE_ERROR)) := by
  simp only [SQLITE_LOCK_NONE, SQLITE_LOCK_SHARED, SQLITE_LOCK_RESERVED, SQLITE_LOCK_PENDING,
    SQLITE_LOCK_EXCLUSIVE]
  refine ⟨fun h => ?_, fun h ht => ⟨fun hc => ?_, ?_⟩, fun h => ?_⟩
  · simp [xUnlock, xUnlock_to_none, h, SQLITE_LOCK_NONE, SQLITE_LOCK_EXCLUSIVE]
  · rcases h with h | h | h <;>
      simp [xUnlock, xUnlock_to_none, h, ht, hc, SQLITE_LOCK_NONE, SQLITE_LOCK_SHARED,
        SQLITE_LOCK_RESERVED, SQLITE_LOCK_PENDING, SQLITE_LOCK_EXCLUSIVE]
  · rcases h with h | h | h <;>
      simp [xUnlock, xUnlock_to_shared, h, ht, SQLITE_LOCK_NONE, SQLITE_LOCK_SHARED,
        SQLITE_LOCK_RESERVED, SQLITE_LOCK_PENDING, SQLITE_LOCK_EXCLUSIVE]
  · rcases h with h | h <;>
      simp [xUnlock, xUnlock_to_shared, h, SQLITE_LOCK_NONE, SQLITE_LOCK_SHARED,
        SQLITE_LOCK_RESERVED, SQLITE_LOCK_PENDING, SQLITE_LOCK_EXCLUSIVE]

/-- Claim C6. At level Pending `xLock(SHARED)` returns `SQLITE_ERROR` to the owner and
`SQLITE_BUSY` to every other thread, every request (Shared, Reserved, Pending, Exclusive) of a
thread that is not the owner returns `SQLITE_BUSY`, and the file object (level, owner, reader
count) is left as it is: no reader is admitted. -/
theorem xLock_at_pending_admits_no_reader (f : FX_FILE) (caller : Nat) (lock : Int)
    (hp : f.lock_type = SQLITE_LOCK_PENDING) :
    xLock f caller SQLITE_LOCK_SHARED =
      some (f, if f.lock_task = caller then SQLITE_ERROR else SQLITE_BUSY) ∧
    (f.lock_task ≠ caller →
      (lock = SQLITE_LOCK_SHARED ∨ lock = SQLITE_LOCK_RESERVED ∨ lock = SQLITE_LOCK_PENDING
        ∨ lock = SQLITE_LOCK_EXCLUSIVE) →
      xLock f caller lock = some (f, SQLITE_BUSY)) := by
  simp only [SQLITE_LOCK_SHARED, SQLITE_LOCK_RESERVED, SQLITE_LOCK_PENDING,
    SQLITE_LOCK_EXCLUSIVE] at hp ⊢
  refine ⟨?_, fun ht hl => ?_⟩
  · by_cases ht : f.lock_task = caller <;>
      simp [xLock, xLock_from_pending, hp, ht, SQLITE_LOCK_NONE, SQLITE_LOCK_SHARED,
        SQLITE_LOCK_RESERVED, SQLITE_LOCK_PENDING, SQLITE_LOCK_EXCLUSIVE]
  · rcases hl with h | h | h | h <;> subst h <;>
      simp [xLock, xLock_from_pending, hp, ht, SQLITE_LOCK_NONE, SQLITE_LOCK_SHARED,
        SQLITE_LOCK_RESERVED, SQLITE_LOCK_PENDING, SQLITE_LOCK_EXCLUSIVE]

/-- Witness of `xLock_at_pending_admits_no_reader`: a reader is refused while thread 7 is
Pending. -/
theorem xLock_at_pending_admits_no_reader_witness :
    xLock { fx_file_name := "db", fx_file_open_mode := 1, open_count := 2, delete_on_close := 0,
            shared_locks_count := 1, lock_type := SQLITE_LOCK_PENDING, lock_task := 7 }
        8 SQLITE_LOCK_SHARED =
      some ({ fx_file_name := "db", fx_file_open_mode := 1, open_count := 2,
              delete_on_close := 0, shared_locks_count := 1,
              lock_type := SQLITE_LOCK_PENDING, lock_task := 7 }, SQLITE_BUSY) :=
  ((xLock_at_pending_admits_no_reader
    { fx_file_name := "db", fx_file_open_mode := 1, open_count := 2, delete_on_close := 0,
      shared_locks_count := 1, lock_type := SQLITE_LOCK_PENDING, lock_task := 7 } 8
    SQLITE_LOCK_SHARED rfl).2 (by decide) (Or.inl rfl))

/-- Claim C7. At level Reserved, for a thread that is not the owner: `xLock` for Reserved,
Pending or Exclusive returns `SQLITE_BUSY` and leaves the file object as it is; `xLock` for
Shared returns `SQLITE_OK` and adds one to `shared_locks_count` (the `++` of an `unsigned`),
level and owner unchanged. -/
theorem xLock_at_reserved_by_other_thread (f : FX_FILE) (caller : Nat) (lock : Int)
    (hr : f.lock_type = SQLITE_LOCK_RESERVED) (hne : f.lock_task ≠ caller) :
    ((lock = SQLITE_LOCK_RESERVED ∨ lock = SQLITE_LOCK_PENDING ∨ lock = SQLITE_LOCK_EXCLUSIVE) →
      xLock f caller lock = some (f, SQLITE_BUSY)) ∧
    xLock f caller SQLITE_LOCK_SHARED =
      some ({ f with shared_locks_count := (f.shared_locks_count + 1) % 2 ^ 32 }, SQLITE_OK) ∧
    (f.shared_locks_count + 1 < 2 ^ 32 →
      (f.shared_locks_count + 1) % 2 ^ 32 = f.shared_locks_count + 1) := by
  simp only [SQLITE_LOCK_SHARED, SQLITE_LOCK_RESERVED, SQLITE_LOCK_PENDING,
    SQLITE_LOCK_EXCLUSIVE] at hr ⊢
  refine ⟨fun hl => ?_, ?_, fun hlt => Nat.mod_eq_of_lt hlt⟩
  · rcases hl with h | h | h <;> subst h <;>
      simp [xLock, xLock_from_reserved, hr, hne, SQLITE_LOCK_NONE, SQLITE_LOCK_SHARED,
        SQLITE_LOCK_RESERVED, SQLITE_LOCK_PENDING, SQLITE_LOCK_EXCLUSIVE]
  · simp [xLock, xLock_from_reserved, hr, hne, u32_inc, SQLITE_LOCK_NONE, SQLITE_LOCK_SHARED,
      SQLITE_LOCK_RESERVED, SQLITE_LOCK_PENDING, SQLITE_LOCK_EXCLUSIVE, SQLITE_OK]

/-- Witness of `xLock_at_reserved_by_other_thread`: thread 8 starts reading while thread 7
holds Reserved. -/
theorem xLock_at_reserved_by_other_thread_witness :
    xLock { fx_file_name := "db", fx_file_open_mode := 1, open_count := 2, delete_on_close := 0,
            shared_locks_count := 0, lock_type := SQLITE_LOCK_RESERVED, lock_task := 7 }
        8 SQLITE_LOCK_SHARED =
      some ({ fx_file_name := "db", fx_file_open_mode := 1, open_count := 2,
              delete_on_close := 0, shared_locks_count := 1,
              lock_type := SQLITE_LOCK_RESERVED, lock_task := 7 }, SQLITE_OK) :=
  ((xLock_at_reserved_by_other_thread
    { fx_file_name := "db", fx_file_open_mode := 1, open_count := 2, delete_on_close := 0,
      shared_locks_count := 0, lock_type := SQLITE_LOCK_RESERVED, lock_task := 7 } 8
    SQLITE_LOCK_SHARED rfl (by decide)).2.1).trans (by decide)

/-- Witness of `xUnlock_of_lock_not_held`: thread 7 unlocks a handle that holds no lock. -/
theorem xUnlock_of_lock_not_held_witness :
    xUnlock { fx_file_name := "db", fx_file_open_mode := 1, open_count := 1,
              delete_on_close := 0, shared_locks_count := 0,
              lock_type := SQLITE_LOCK_NONE, lock_task := 0 } 7 SQLITE_LOCK_NONE =
      some ({ fx_file_name := "db", fx_file_open_mode := 1, open_count := 1,
              delete_on_close := 0, shared_locks_count := 0,
              lock_type := SQLITE_LOCK_NONE, lock_task := 0 }, SQLITE_OK) :=
  (xUnlock_of_lock_not_held
    { fx_file_name := "db", fx_file_open_mode := 1, open_count := 1, delete_on_close := 0,
      shared_locks_count := 0, lock_type := SQLITE_LOCK_NONE, lock_task := 0 } 7).1 rfl

/-! ## Lemmas on the steps of the lock machine -/

lemma u32_dec_of_pos (n : Nat) (h0 : 0 < n) (hb : n < 2 ^ 32) : u32_dec n = n - 1 := by
  unfold u32_dec
  norm_num at hb ⊢
  omega

lemma u32_inc_of_lt (n : Nat) (hb : n + 1 < 2 ^ 32) : u32_inc n = n + 1 := by
  unfold u32_inc
  exact Nat.mod_eq_of_lt hb

lemma xLock_lockInv (f : FX_FILE) (caller : Nat) (lock : Int)
    (hl : lock = SQLITE_LOCK_SHARED ∨ lock = SQLITE_LOCK_RESERVED ∨ lock = SQLITE_LOCK_PENDING
      ∨ lock = SQLITE_LOCK_EXCLUSIVE)
    (hinv : lockInv f) (hb : f.shared_locks_count + 1 < 2 ^ 32)
    (f1 : FX_FILE) (rc : Int) (h : xLock f caller lock = some (f1, rc)) :
    lockInv f1 ∧ f1.shared_locks_count ≤ f.shared_locks_count + 1 := by
  obtain ⟨⟨hr0, hr4⟩, hn, hs, hx⟩ := hinv
  have hdec : 0 < f.shared_locks_count → u32_dec f.shared_locks_count = f.shared_locks_count - 1 :=
    fun hp => u32_dec_of_pos _ hp (by omega)
  have hinc : u32_inc f.shared_locks_count = f.shared_locks_count + 1 := u32_inc_of_lt _ hb
  unfold lockInv
  unfold xLock at h
  simp only [SQLITE_LOCK_NONE, SQLITE_LOCK_SHARED,
    SQLITE_LOCK_RESERVED, SQLITE_LOCK_PENDING, SQLITE_LOCK_EXCLUSIVE] at h hl hr0 hr4 hn hs hx ⊢
  split_ifs at h with h0 h1 h2 h3 h4 h5
  · unfold xLock_from_none at h
    simp only [SQLITE_LOCK_SHARED] at h
    split_ifs at h <;> simp only [Option.some.injEq, Prod.mk.injEq] at h <;>
      obtain ⟨rfl, -⟩ := h <;> dsimp only <;> omega
  · unfold xLock_from_shared at h
    simp only [SQLITE_LOCK_NONE, SQLITE_LOCK_SHARED,
      SQLITE_LOCK_RESERVED, SQLITE_LOCK_PENDING, SQLITE_LOCK_EXCLUSIVE] at h
    split_ifs at h <;> simp only [Option.some.injEq, Prod.mk.injEq] at h <;>
      obtain ⟨rfl, -⟩ := h <;> (try dsimp only) <;> omega
  · unfold xLock_from_reserved at h
    simp only [SQLITE_LOCK_NONE, SQLITE_LOCK_SHARED,
      SQLITE_LOCK_RESERVED, SQLITE_LOCK_PENDING, SQLITE_LOCK_EXCLUSIVE] at h
    split_ifs at h <;> simp only [Option.some.injEq, Prod.mk.injEq] at h <;>
      obtain ⟨rfl, -⟩ := h <;> (try dsimp only) <;> omega
  · unfold xLock_from_pending at h
    simp only [SQLITE_LOCK_NONE, SQLITE_LOCK_SHARED,
      SQLITE_LOCK_RESERVED, SQLITE_LOCK_PENDING, SQLITE_LOCK_EXCLUSIVE] at h
    split_ifs at h <;> simp only [Option.some.injEq, Prod.mk.injEq] at h <;>
      obtain ⟨rfl, -⟩ := h <;> (try dsimp only) <;> omega
  · unfold xLock_from_exclusive at h
    simp only [SQLITE_LOCK_NONE, SQLITE_LOCK_SHARED,
      SQLITE_LOCK_RESERVED, SQLITE_LOCK_PENDING, SQLITE_LOCK_EXCLUSIVE] at h
    split_ifs at h <;> simp only [Option.some.injEq, Prod.mk.injEq] at h <;>
      obtain ⟨rfl, -⟩ := h <;> omega

lemma xUnlock_lockInv (f : FX_FILE) (caller : Nat) (lock : Int)
    (hinv : lockInv f) (hb : f.shared_locks_count + 1 < 2 ^ 32)
    (f1 : FX_FILE) (rc : Int) (h : xUnlock f caller lock = some (f1, rc)) :
    lockInv f1 ∧ f1.shared_locks_count ≤ f.shared_locks_count + 1 := by
  obtain ⟨⟨hr0, hr4⟩, hn, hs, hx⟩ := hinv
  have hdec : 0 < f.shared_locks_count → u32_dec f.shared_locks_count = f.shared_locks_count - 1 :=
    fun hp => u32_dec_of_pos _ hp (by omega)
  have hinc : u32_inc f.shared_locks_count = f.shared_locks_count + 1 := u32_inc_of_lt _ hb
  unfold lockInv
  unfold xUnlock at h
  simp only [SQLITE_LOCK_NONE, SQLITE_LOCK_SHARED,
    SQLITE_LOCK_RESERVED, SQLITE_LOCK_PENDING, SQLITE_LOCK_EXCLUSIVE] at h hr0 hr4 hn hs hx ⊢
  split_ifs at h with h0 h1 h2
  · unfold xUnlock_to_none at h
    simp only [SQLITE_LOCK_NONE, SQLITE_LOCK_SHARED,
      SQLITE_LOCK_RESERVED, SQLITE_LOCK_PENDING, SQLITE_LOCK_EXCLUSIVE] at h
    split_ifs at h <;> simp only [Option.some.injEq, Prod.mk.injEq] at h <;>
      obtain ⟨rfl, -⟩ := h <;> (try dsimp only) <;> omega
  · unfold xUnlock_to_shared at h
    simp only [SQLITE_LOCK_NONE, SQLITE_LOCK_SHARED,
      SQLITE_LOCK_RESERVED, SQLITE_LOCK_PENDING, SQLITE_LOCK_EXCLUSIVE] at h
    split_ifs at h <;> simp only [Option.some.injEq, Prod.mk.injEq] at h <;>
      obtain ⟨rfl, -⟩ := h <;> (try dsimp only) <;> omega


lemma xLock_level_le (f : FX_FILE) (caller : Nat) (lock : Int)
    (hl : lock = SQLITE_LOCK_SHARED ∨ lock = SQLITE_LOCK_RESERVED ∨ lock = SQLITE_LOCK_PENDING
      ∨ lock = SQLITE_LOCK_EXCLUSIVE)
    (f1 : FX_FILE) (rc : Int) (h : xLock f caller lock = some (f1, rc)) :
    f.lock_type ≤ f1.lock_type := by
  unfold xLock at h
  simp only [SQLITE_LOCK_NONE, SQLITE_LOCK_SHARED,
    SQLITE_LOCK_RESERVED, SQLITE_LOCK_PENDING, SQLITE_LOCK_EXCLUSIVE] at h hl
  split_ifs at h with h0 h1 h2 h3 h4 h5
  · unfold xLock_from_none at h
    split_ifs at h <;> simp only [Option.some.injEq, Prod.mk.injEq] at h <;>
      obtain ⟨rfl, -⟩ := h <;> (try dsimp only) <;> omega
  · unfold xLock_from_shared at h
    simp only [SQLITE_LOCK_NONE, SQLITE_LOCK_SHARED,
      SQLITE_LOCK_RESERVED, SQLITE_LOCK_PENDING, SQLITE_LOCK_EXCLUSIVE] at h
    split_ifs at h <;> simp only [Option.some.injEq, Prod.mk.injEq] at h <;>
      obtain ⟨rfl, -⟩ := h <;> (try dsimp only) <;> omega
  · unfold xLock_from_reserved at h
    simp only [SQLITE_LOCK_NONE, SQLITE_LOCK_SHARED,
      SQLITE_LOCK_RESERVED, SQLITE_LOCK_PENDING, SQLITE_LOCK_EXCLUSIVE] at h
    split_ifs at h <;> simp only [Option.some.injEq, Prod.mk.injEq] at h <;>
      obtain ⟨rfl, -⟩ := h <;> (try dsimp only) <;> omega
  · unfold xLock_from_pending at h
    simp only [SQLITE_LOCK_NONE, SQLITE_LOCK_SHARED,
      SQLITE_LOCK_RESERVED, SQLITE_LOCK_PENDING, SQLITE_LOCK_EXCLUSIVE] at h
    split_ifs at h <;> simp only [Option.some.injEq, Prod.mk.injEq] at h <;>
      obtain ⟨rfl, -⟩ := h <;> (try dsimp only) <;> omega
  · unfold xLock_from_exclusive at h
    simp only [SQLITE_LOCK_NONE, SQLITE_LOCK_SHARED,
      SQLITE_LOCK_RESERVED, SQLITE_LOCK_PENDING, SQLITE_LOCK_EXCLUSIVE] at h
    split_ifs at h <;> simp only [Option.some.injEq, Prod.mk.injEq] at h <;>
      obtain ⟨rfl, -⟩ := h <;> omega


lemma xUnlock_level_le (f : FX_FILE) (caller : Nat) (lock : Int)
    (f1 : FX_FILE) (rc : Int) (h : xUnlock f caller lock = some (f1, rc)) :
    f1.lock_type ≤ f.lock_type := by
  unfold xUnlock at h
  simp only [SQLITE_LOCK_NONE, SQLITE_LOCK_SHARED,
    SQLITE_LOCK_RESERVED, SQLITE_LOCK_PENDING, SQLITE_LOCK_EXCLUSIVE] at h ⊢
  split_ifs at h with h0 h1 h2
  · unfold xUnlock_to_none at h
    simp only [SQLITE_LOCK_NONE, SQLITE_LOCK_SHARED,
      SQLITE_LOCK_RESERVED, SQLITE_LOCK_PENDING, SQLITE_LOCK_EXCLUSIVE] at h
    split_ifs at h <;> simp only [Option.some.injEq, Prod.mk.injEq] at h <;>
      obtain ⟨rfl, -⟩ := h <;> (try dsimp only) <;> omega
  · unfold xUnlock_to_shared at h
    simp only [SQLITE_LOCK_NONE, SQLITE_LOCK_SHARED,
      SQLITE_LOCK_RESERVED, SQLITE_LOCK_PENDING, SQLITE_LOCK_EXCLUSIVE] at h
    split_ifs at h <;> simp only [Option.some.injEq, Prod.mk.injEq] at h <;>
      obtain ⟨rfl, -⟩ := h <;> (try dsimp only) <;> omega

lemma xLock_returns (f : FX_FILE) (caller : Nat) (lock : Int)
    (hl : lock = SQLITE_LOCK_SHARED ∨ lock = SQLITE_LOCK_RESERVED ∨ lock = SQLITE_LOCK_PENDING
      ∨ lock = SQLITE_LOCK_EXCLUSIVE)
    (hv : lockStateValid f) : ∃ f1 rc, xLock f caller lock = some (f1, rc) := by
  obtain ⟨⟨hr0, hr4⟩, hn, hs⟩ := hv
  unfold xLock
  simp only [SQLITE_LOCK_NONE, SQLITE_LOCK_SHARED,
    SQLITE_LOCK_RESERVED, SQLITE_LOCK_PENDING, SQLITE_LOCK_EXCLUSIVE] at hl hr0 hr4 hn hs ⊢
  split_ifs with h0 h1 h2 h3 h4 h5
  · omega
  · unfold xLock_from_none
    simp only [SQLITE_LOCK_SHARED]
    split_ifs <;> first | exact ⟨_, _, rfl⟩ | (exfalso; omega)
  · unfold xLock_from_shared
    simp only [SQLITE_LOCK_NONE, SQLITE_LOCK_SHARED,
      SQLITE_LOCK_RESERVED, SQLITE_LOCK_PENDING, SQLITE_LOCK_EXCLUSIVE]
    split_ifs <;> first | exact ⟨_, _, rfl⟩ | (exfalso; omega)
  · unfold xLock_from_reserved
    simp only [SQLITE_LOCK_NONE, SQLITE_LOCK_SHARED,
      SQLITE_LOCK_RESERVED, SQLITE_LOCK_PENDING, SQLITE_LOCK_EXCLUSIVE]
    split_ifs <;> first | exact ⟨_, _, rfl⟩ | (exfalso; omega)
  · unfold xLock_from_pending
    simp only [SQLITE_LOCK_NONE, SQLITE_LOCK_SHARED,
      SQLITE_LOCK_RESERVED, SQLITE_LOCK_PENDING, SQLITE_LOCK_EXCLUSIVE]
    split_ifs <;> first | exact ⟨_, _, rfl⟩ | (exfalso; omega)
  · unfold xLock_from_exclusive
    simp only [SQLITE_LOCK_NONE, SQLITE_LOCK_SHARED,
      SQLITE_LOCK_RESERVED, SQLITE_LOCK_PENDING, SQLITE_LOCK_EXCLUSIVE]
    split_ifs <;> first | exact ⟨_, _, rfl⟩ | (exfalso; omega)
  · omega

lemma xUnlock_returns (f : FX_FILE) (caller : Nat) (lock : Int)
    (hl : lock = SQLITE_LOCK_NONE ∨ lock = SQLITE_LOCK_SHARED)
    (hv : lockStateValid f) : ∃ f1 rc, xUnlock f caller lock = some (f1, rc) := by
  obtain ⟨⟨hr0, hr4⟩, hn, hs⟩ := hv
  unfold xUnlock
  simp only [SQLITE_LOCK_NONE, SQLITE_LOCK_SHARED,
    SQLITE_LOCK_RESERVED, SQLITE_LOCK_PENDING, SQLITE_LOCK_EXCLUSIVE] at hl hr0 hr4 hn hs ⊢
  split_ifs with h0 h1 h2
  · omega
  · unfold xUnlock_to_none
    simp only [SQLITE_LOCK_NONE, SQLITE_LOCK_SHARED,
      SQLITE_LOCK_RESERVED, SQLITE_LOCK_PENDING, SQLITE_LOCK_EXCLUSIVE]
    split_ifs <;> first | exact ⟨_, _, rfl⟩ | (exfalso; omega)
  · unfold xUnlock_to_shared
    simp only [SQLITE_LOCK_NONE, SQLITE_LOCK_SHARED,
      SQLITE_LOCK_RESERVED, SQLITE_LOCK_PENDING, SQLITE_LOCK_EXCLUSIVE]
    split_ifs <;> first | exact ⟨_, _, rfl⟩ | (exfalso; omega)
  · omega

lemma lockInv_valid (f : FX_FILE) (h : lockInv f) : lockStateValid f :=
  ⟨h.1, h.2.1, h.2.2.1⟩

lemma lockStep_lockInv (f : FX_FILE) (c : LockCall) (hc : c.valid = true)
    (hinv : lockInv f) (hb : f.shared_locks_count + 1 < 2 ^ 32) :
    ∃ f1 rc, lockStep f c = some (f1, rc) ∧ lockInv f1 ∧
      f1.shared_locks_count ≤ f.shared_locks_count + 1 := by
  cases c with
  | lock t l =>
    have hl : l = SQLITE_LOCK_SHARED ∨ l = SQLITE_LOCK_RESERVED ∨ l = SQLITE_LOCK_PENDING
        ∨ l = SQLITE_LOCK_EXCLUSIVE := by simpa [LockCall.valid] using hc
    obtain ⟨f1, rc, h⟩ := xLock_returns f t l hl (lockInv_valid f hinv)
    exact ⟨f1, rc, h, xLock_lockInv f t l hl hinv hb f1 rc h⟩
  | unlock t l =>
    have hl : l = SQLITE_LOCK_NONE ∨ l = SQLITE_LOCK_SHARED := by
      simpa [LockCall.valid] using hc
    obtain ⟨f1, rc, h⟩ := xUnlock_returns f t l hl (lockInv_valid f hinv)
    exact ⟨f1, rc, h, xUnlock_lockInv f t l hinv hb f1 rc h⟩

lemma runCalls_lockInv (cs : List LockCall) :
    ∀ (f : FX_FILE), (∀ c ∈ cs, c.valid = true) → lockInv f →
      f.shared_locks_count + cs.length < 2 ^ 32 →
      ∃ f1, runCalls f cs = some f1 ∧ lockInv f1 ∧
        f1.shared_locks_count ≤ f.shared_locks_count + cs.length := by
  induction cs with
  | nil => intro f _ hinv _; exact ⟨f, rfl, hinv, by simp⟩
  | cons c cs ih =>
    intro f hv hinv hb
    simp only [List.length_cons] at hb
    obtain ⟨f1, rc, hstep, hinv1, hle⟩ :=
      lockStep_lockInv f c (hv c (List.mem_cons_self c cs)) hinv (by omega)
    obtain ⟨f2, hrun, hinv2, hle2⟩ :=
      ih f1 (fun d hd => hv d (List.mem_cons_of_mem c hd)) hinv1 (by omega)
    refine ⟨f2, ?_, hinv2, ?_⟩
    · simp only [runCalls, hstep, hrun]
    · simp only [List.length_cons]; omega

lemma xOpen_init_locks_lockInv (f : FX_FILE) (flags : Nat) (zNameIsNull : Bool)
    (caller : Nat) :
    lockInv (xOpen_init_locks f flags zNameIsNull caller) ∧
      (xOpen_init_locks f flags zNameIsNull caller).shared_locks_count = 0 := by
  unfold xOpen_init_locks lockInv
  simp only [SQLITE_LOCK_NONE, SQLITE_LOCK_SHARED, SQLITE_LOCK_EXCLUSIVE]
  split_ifs <;> simp


/-- What a completed `xLock` keeps: the level stays one of the five, and at level Reserved or
higher the owner is kept and the level stays Reserved or higher. -/
lemma xLock_frame (f : FX_FILE) (caller : Nat) (lock : Int)
    (hl : lock = SQLITE_LOCK_SHARED ∨ lock = SQLITE_LOCK_RESERVED ∨ lock = SQLITE_LOCK_PENDING
      ∨ lock = SQLITE_LOCK_EXCLUSIVE)
    (f1 : FX_FILE) (rc : Int) (h : xLock f caller lock = some (f1, rc)) :
    (SQLITE_LOCK_NONE ≤ f1.lock_type ∧ f1.lock_type ≤ SQLITE_LOCK_EXCLUSIVE) ∧
    (SQLITE_LOCK_RESERVED ≤ f.lock_type →
      f1.lock_task = f.lock_task ∧ SQLITE_LOCK_RESERVED ≤ f1.lock_type) := by
  unfold xLock at h
  simp only [SQLITE_LOCK_NONE, SQLITE_LOCK_SHARED,
    SQLITE_LOCK_RESERVED, SQLITE_LOCK_PENDING, SQLITE_LOCK_EXCLUSIVE] at h hl ⊢
  split_ifs at h with h0 h1 h2 h3 h4 h5
  · unfold xLock_from_none at h
    simp only [SQLITE_LOCK_SHARED] at h
    split_ifs at h <;> simp only [Option.some.injEq, Prod.mk.injEq] at h <;>
      obtain ⟨rfl, -⟩ := h <;> dsimp only <;> omega
  · unfold xLock_from_shared at h
    simp only [SQLITE_LOCK_NONE, SQLITE_LOCK_SHARED,
      SQLITE_LOCK_RESERVED, SQLITE_LOCK_PENDING, SQLITE_LOCK_EXCLUSIVE] at h
    split_ifs at h <;> simp only [Option.some.injEq, Prod.mk.injEq] at h <;>
      obtain ⟨rfl, -⟩ := h <;> (try dsimp only) <;> omega
  · unfold xLock_from_reserved at h
    simp only [SQLITE_LOCK_NONE, SQLITE_LOCK_SHARED,
      SQLITE_LOCK_RESERVED, SQLITE_LOCK_PENDING, SQLITE_LOCK_EXCLUSIVE] at h
    split_ifs at h <;> simp only [Option.some.injEq, Prod.mk.injEq] at h <;>
      obtain ⟨rfl, -⟩ := h <;> (try dsimp only) <;> omega
  · unfold xLock_from_pending at h
    simp only [SQLITE_LOCK_NONE, SQLITE_LOCK_SHARED,
      SQLITE_LOCK_RESERVED, SQLITE_LOCK_PENDING, SQLITE_LOCK_EXCLUSIVE] at h
    split_ifs at h <;> simp only [Option.some.injEq, Prod.mk.injEq] at h <;>
      obtain ⟨rfl, -⟩ := h <;> (try dsimp only) <;> omega
  · unfold xLock_from_exclusive at h
    simp only [SQLITE_LOCK_NONE, SQLITE_LOCK_SHARED,
      SQLITE_LOCK_RESERVED, SQLITE_LOCK_PENDING, SQLITE_LOCK_EXCLUSIVE] at h
    split_ifs at h <;> simp only [Option.some.injEq, Prod.mk.injEq] at h <;>
      obtain ⟨rfl, -⟩ := h <;> omega

/-- What a completed `xUnlock` keeps: the owner, and a level that is one of the five. -/
lemma xUnlock_frame (f : FX_FILE) (caller : Nat) (lock : Int)
    (f1 : FX_FILE) (rc : Int) (h : xUnlock f caller lock = some (f1, rc)) :
    (SQLITE_LOCK_NONE ≤ f1.lock_type ∧ f1.lock_type ≤ SQLITE_LOCK_EXCLUSIVE) ∧
    f1.lock_task = f.lock_task := by
  unfold xUnlock at h
  simp only [SQLITE_LOCK_NONE, SQLITE_LOCK_SHARED,
    SQLITE_LOCK_RESERVED, SQLITE_LOCK_PENDING, SQLITE_LOCK_EXCLUSIVE] at h ⊢
  split_ifs at h with h0 h1 h2
  · unfold xUnlock_to_none at h
    simp only [SQLITE_LOCK_NONE, SQLITE_LOCK_SHARED,
      SQLITE_LOCK_RESERVED, SQLITE_LOCK_PENDING, SQLITE_LOCK_EXCLUSIVE] at h
    split_ifs at h <;> simp only [Option.some.injEq, Prod.mk.injEq] at h <;>
      obtain ⟨rfl, -⟩ := h <;> (try dsimp only) <;> omega
  · unfold xUnlock_to_shared at h
    simp only [SQLITE_LOCK_NONE, SQLITE_LOCK_SHARED,
      SQLITE_LOCK_RESERVED, SQLITE_LOCK_PENDING, SQLITE_LOCK_EXCLUSIVE] at h
    split_ifs at h <;> simp only [Option.some.injEq, Prod.mk.injEq] at h <;>
      obtain ⟨rfl, -⟩ := h <;> (try dsimp only) <;> omega

lemma heldStep_heldInv (h : Held) (c : LockCall) (hc : c.valid = true) (hinv : heldInv h)
    (h1 : Held) (hstep : heldStep h c = some h1) : heldInv h1 := by
  obtain ⟨hrange, hh⟩ := hinv
  cases c with
  | lock t l =>
    have hl : l = SQLITE_LOCK_SHARED ∨ l = SQLITE_LOCK_RESERVED ∨ l = SQLITE_LOCK_PENDING
        ∨ l = SQLITE_LOCK_EXCLUSIVE := by simpa [LockCall.valid] using hc
    simp only [heldStep] at hstep
    cases hx : xLock h.file t l with
    | none => simp [hx] at hstep
    | some r =>
      obtain ⟨f1, rc⟩ := r
      simp only [hx, Option.some.injEq] at hstep
      subst hstep
      obtain ⟨hr1, hkeep⟩ := xLock_frame h.file t l hl f1 rc hx
      refine ⟨hr1, ?_⟩
      dsimp only
      unfold holdersAfter
      by_cases hge : SQLITE_LOCK_RESERVED ≤ f1.lock_type
      · rw [if_pos hge]
        rcases hh with hh | ⟨hh, hge0⟩
        · rw [hh]
          by_cases ht : f1.lock_task = t
          · right; simp [ht, hge]
          · left; simp [ht]
        · obtain ⟨htask, -⟩ := hkeep hge0
          right
          rw [hh, htask]
          refine ⟨?_, hge⟩
          by_cases ht : h.file.lock_task = t
          · simp [ht]
          · simp [ht]
      · rw [if_neg hge]; left; rfl
  | unlock t l =>
    simp only [heldStep] at hstep
    cases hx : xUnlock h.file t l with
    | none => simp [hx] at hstep
    | some r =>
      obtain ⟨f1, rc⟩ := r
      simp only [hx, Option.some.injEq] at hstep
      subst hstep
      obtain ⟨hr1, htask⟩ := xUnlock_frame h.file t l f1 rc hx
      refine ⟨hr1, ?_⟩
      dsimp only
      unfold holdersAfter
      by_cases hge : SQLITE_LOCK_RESERVED ≤ f1.lock_type
      · rw [if_pos hge]
        rcases hh with hh | ⟨hh, -⟩
        · left; simp [hh]
        · right; rw [hh, htask]; simp [hge]
      · rw [if_neg hge]; left; rfl

lemma runHeld_heldInv (cs : List LockCall) :
    ∀ (h : Held), (∀ c ∈ cs, c.valid = true) → heldInv h →
      ∀ h1, runHeld h cs = some h1 → heldInv h1 := by
  induction cs with
  | nil =>
    intro h _ hinv h1 hrun
    simp only [runHeld, Option.some.injEq] at hrun
    exact hrun ▸ hinv
  | cons c cs ih =>
    intro h hv hinv h1 hrun
    simp only [runHeld] at hrun
    cases hs : heldStep h c with
    | none => simp [hs] at hrun
    | some h2 =>
      simp only [hs] at hrun
      exact ih h2 (fun d hd => hv d (List.mem_cons_of_mem c hd))
        (heldStep_heldInv h c (hv c (List.mem_cons_self c cs)) hinv h2 hs) h1 hrun

lemma openedHeld_heldInv (f : FX_FILE) (flags : Nat) (zNameIsNull : Bool) (caller : Nat) :
    heldInv (openedHeld f flags zNameIsNull caller) := by
  unfold heldInv openedHeld xOpen_init_locks
  simp only [SQLITE_LOCK_NONE, SQLITE_LOCK_RESERVED, SQLITE_LOCK_EXCLUSIVE]
  split_ifs <;> simp at *

/-- At level Reserved, Pending or Exclusive a request for Reserved, Pending or Exclusive by a
thread that is not the owner is refused as busy and changes nothing. -/
lemma xLock_writer_refused (f : FX_FILE) (t : Nat) (lock : Int)
    (hge : SQLITE_LOCK_RESERVED ≤ f.lock_type) (hle : f.lock_type ≤ SQLITE_LOCK_EXCLUSIVE)
    (ht : t ≠ f.lock_task)
    (hl : lock = SQLITE_LOCK_RESERVED ∨ lock = SQLITE_LOCK_PENDING
      ∨ lock = SQLITE_LOCK_EXCLUSIVE) :
    xLock f t lock = some (f, SQLITE_BUSY) := by
  simp only [SQLITE_LOCK_RESERVED, SQLITE_LOCK_PENDING, SQLITE_LOCK_EXCLUSIVE] at hge hle hl
  have ht1 : ¬ f.lock_task = t := fun e => ht e.symm
  have hcases : f.lock_type = 2 ∨ f.lock_type = 3 ∨ f.lock_type = 4 := by omega
  rcases hcases with hc | hc | hc <;> rcases hl with h | h | h <;> subst h <;>
    simp [xLock, xLock_from_reserved, xLock_from_pending, xLock_from_exclusive, hc, ht1,
      SQLITE_LOCK_NONE, SQLITE_LOCK_SHARED, SQLITE_LOCK_RESERVED, SQLITE_LOCK_PENDING,
      SQLITE_LOCK_EXCLUSIVE]


/-! ## Theorems: sequences of calls on one handle -/

/-- Claim C1. From the state `xOpen` creates, after every sequence of `xLock` (levels Shared to
Exclusive) and `xUnlock` (to None or Shared) calls by any threads, at most one thread holds a
lock of level Reserved or higher, that thread is `lock_task`, and while the level is Reserved
or higher an `xLock` request for Reserved, Pending or Exclusive by any other thread returns
`SQLITE_BUSY` and leaves the file object as it is. -/
theorem at_most_one_thread_holds_reserved_or_higher
    (f : FX_FILE) (flags : Nat) (zNameIsNull : Bool) (creator : Nat)
    (cs : List LockCall) (hv : ∀ c ∈ cs, c.valid = true) (h : Held)
    (hrun : runHeld (openedHeld f flags zNameIsNull creator) cs = some h) :
    h.holders.length ≤ 1 ∧
    (∀ t ∈ h.holders, t = h.file.lock_task ∧ SQLITE_LOCK_RESERVED ≤ h.file.lock_type) ∧
    (SQLITE_LOCK_RESERVED ≤ h.file.lock_type → ∀ (t : Nat) (lock : Int),
      t ≠ h.file.lock_task →
      (lock = SQLITE_LOCK_RESERVED ∨ lock = SQLITE_LOCK_PENDING
        ∨ lock = SQLITE_LOCK_EXCLUSIVE) →
      xLock h.file t lock = some (h.file, SQLITE_BUSY)) := by
  obtain ⟨⟨-, hle⟩, hh⟩ :=
    runHeld_heldInv cs _ hv (openedHeld_heldInv f flags zNameIsNull creator) h hrun
  refine ⟨?_, ?_, fun hge t lock ht hl => xLock_writer_refused h.file t lock hge hle ht hl⟩
  · rcases hh with hh | ⟨hh, -⟩ <;> simp [hh]
  · intro t ht
    rcases hh with hh | ⟨hh, hge⟩
    · simp [hh] at ht
    · rw [hh] at ht
      exact ⟨by simpa using ht, hge⟩

/-- Witness of `at_most_one_thread_holds_reserved_or_higher`: two readers, of which thread 1
takes Reserved and thread 2 is then refused Reserved. -/
theorem at_most_one_thread_holds_reserved_or_higher_witness :
    runHeld
        (openedHeld { fx_file_name := "db", fx_file_open_mode := 1, open_count := 0,
                      delete_on_close := 0, shared_locks_count := 0, lock_type := 0,
                      lock_task := 0 } 0 false 9)
        [LockCall.lock 1 SQLITE_LOCK_SHARED, LockCall.lock 2 SQLITE_LOCK_SHARED,
         LockCall.lock 1 SQLITE_LOCK_RESERVED, LockCall.lock 2 SQLITE_LOCK_RESERVED] =
      some { file := { fx_file_name := "db", fx_file_open_mode := 1, open_count := 1,
                       delete_on_close := 0, shared_locks_count := 1,
                       lock_type := SQLITE_LOCK_RESERVED, lock_task := 1 },
             holders := [1] } ∧
    ([1] : List Nat).length ≤ 1 :=
  ⟨by decide,
   (at_most_one_thread_holds_reserved_or_higher
      { fx_file_name := "db", fx_file_open_mode := 1, open_count := 0,
        delete_on_close := 0, shared_locks_count := 0, lock_type := 0, lock_task := 0 }
      0 false 9
      [LockCall.lock 1 SQLITE_LOCK_SHARED, LockCall.lock 2 SQLITE_LOCK_SHARED,
       LockCall.lock 1 SQLITE_LOCK_RESERVED, LockCall.lock 2 SQLITE_LOCK_RESERVED]
      (by decide)
      { file := { fx_file_name := "db", fx_file_open_mode := 1, open_count := 1,
                  delete_on_close := 0, shared_locks_count := 1,
                  lock_type := SQLITE_LOCK_RESERVED, lock_task := 1 },
        holders := [1] }
      (by decide)).1⟩

/-- Claim C2, counterexample. Two threads read, one of them takes Reserved: the level is
Reserved and the reader count is 1, so a positive count does not imply level Shared. -/
theorem reader_counted_at_level_reserved :
    runCalls
        (xOpen_init_locks { fx_file_name := "db", fx_file_open_mode := 1, open_count := 0,
                            delete_on_close := 0, shared_locks_count := 0, lock_type := 0,
                            lock_task := 0 } 0 false 9)
        [LockCall.lock 1 SQLITE_LOCK_SHARED, LockCall.lock 2 SQLITE_LOCK_SHARED,
         LockCall.lock 1 SQLITE_LOCK_RESERVED] =
      some { fx_file_name := "db", fx_file_open_mode := 1, open_count := 1,
             delete_on_close := 0, shared_locks_count := 1,
             lock_type := SQLITE_LOCK_RESERVED, lock_task := 1 } ∧
    ¬ ((0 : Nat) < 1 ↔ SQLITE_LOCK_RESERVED = SQLITE_LOCK_SHARED) := by
  decide

/-- Claim C2, amended. From the state `xOpen` creates, every sequence of fewer than `2 ^ 32`
calls of `xLock` (levels Shared to Exclusive) and `xUnlock` (to None or Shared) completes, and
in the state it reaches level Shared implies a positive `shared_locks_count`, and a positive
`shared_locks_count` implies level Shared, Reserved or Pending. -/
theorem shared_locks_count_and_level
    (f : FX_FILE) (flags : Nat) (zNameIsNull : Bool) (creator : Nat)
    (cs : List LockCall) (hv : ∀ c ∈ cs, c.valid = true) (hlen : cs.length < 2 ^ 32) :
    ∃ f1, runCalls (xOpen_init_locks f flags zNameIsNull creator) cs = some f1 ∧
      (f1.lock_type = SQLITE_LOCK_SHARED → 0 < f1.shared_locks_count) ∧
      (0 < f1.shared_locks_count →
        f1.lock_type = SQLITE_LOCK_SHARED ∨ f1.lock_type = SQLITE_LOCK_RESERVED
          ∨ f1.lock_type = SQLITE_LOCK_PENDING) := by
  obtain ⟨hinv0, hc0⟩ := xOpen_init_locks_lockInv f flags zNameIsNull creator
  obtain ⟨f1, hrun, ⟨⟨hr0, hr4⟩, hn, hs, hx⟩, -⟩ :=
    runCalls_lockInv cs _ hv hinv0 (by omega)
  refine ⟨f1, hrun, hs, fun hpos => ?_⟩
  simp only [SQLITE_LOCK_NONE, SQLITE_LOCK_SHARED, SQLITE_LOCK_RESERVED, SQLITE_LOCK_PENDING,
    SQLITE_LOCK_EXCLUSIVE] at *
  omega

/-- Witness of `shared_locks_count_and_level`: a reader arrives and leaves. -/
theorem shared_locks_count_and_level_witness :
    ∃ f1, runCalls
        (xOpen_init_locks { fx_file_name := "db", fx_file_open_mode := 1, open_count := 0,
                            delete_on_close := 0, shared_locks_count := 0, lock_type := 0,
                            lock_task := 0 } 0 false 9)
        [LockCall.lock 1 SQLITE_LOCK_SHARED, LockCall.unlock 1 SQLITE_LOCK_NONE] = some f1 ∧
      (f1.lock_type = SQLITE_LOCK_SHARED → 0 < f1.shared_locks_count) ∧
      (0 < f1.shared_locks_count →
        f1.lock_type = SQLITE_LOCK_SHARED ∨ f1.lock_type = SQLITE_LOCK_RESERVED
          ∨ f1.lock_type = SQLITE_LOCK_PENDING) :=
  shared_locks_count_and_level
    { fx_file_name := "db", fx_file_open_mode := 1, open_count := 0,
      delete_on_close := 0, shared_locks_count := 0, lock_type := 0, lock_task := 0 }
    0 false 9 [LockCall.lock 1 SQLITE_LOCK_SHARED, LockCall.unlock 1 SQLITE_LOCK_NONE]
    (by decide) (by decide)

/-- Claim C8. For every file object, thread and level: a completed `xLock` (level Shared to
Exclusive) leaves a level at least the one before, a completed `xUnlock` leaves a level at
most the one before, and on every file object that satisfies the assertions of the two
functions the call completes (`xUnlock` with None or Shared). -/
theorem lock_level_moves_one_way (f : FX_FILE) (caller : Nat) (lock : Int) :
    ((lock = SQLITE_LOCK_SHARED ∨ lock = SQLITE_LOCK_RESERVED ∨ lock = SQLITE_LOCK_PENDING
        ∨ lock = SQLITE_LOCK_EXCLUSIVE) →
      (∀ f1 rc, xLock f caller lock = some (f1, rc) → f.lock_type ≤ f1.lock_type) ∧
      (lockStateValid f → ∃ f1 rc, xLock f caller lock = some (f1, rc))) ∧
    (∀ f1 rc, xUnlock f caller lock = some (f1, rc) → f1.lock_type ≤ f.lock_type) ∧
    ((lock = SQLITE_LOCK_NONE ∨ lock = SQLITE_LOCK_SHARED) → lockStateValid f →
      ∃ f1 rc, xUnlock f caller lock = some (f1, rc)) :=
  ⟨fun hl => ⟨xLock_level_le f caller lock hl, xLock_returns f caller lock hl⟩,
   xUnlock_level_le f caller lock, xUnlock_returns f caller lock⟩

/-- Witness of `lock_level_moves_one_way`: the only reader takes Reserved, the level goes
from Shared to Reserved. -/
theorem lock_level_moves_one_way_witness :
    SQLITE_LOCK_SHARED ≤
      ({ fx_file_name := "db", fx_file_open_mode := 1, open_count := 1,
         delete_on_close := 0, shared_locks_count := 0,
         lock_type := SQLITE_LOCK_RESERVED, lock_task := 7 } : FX_FILE).lock_type :=
  ((lock_level_moves_one_way
    { fx_file_name := "db", fx_file_open_mode := 1, open_count := 1, delete_on_close := 0,
      shared_locks_count := 1, lock_type := SQLITE_LOCK_SHARED, lock_task := 0 } 7
    SQLITE_LOCK_RESERVED).1 (Or.inr (Or.inl rfl))).1
    { fx_file_name := "db", fx_file_open_mode := 1, open_count := 1, delete_on_close := 0,
      shared_locks_count := 0, lock_type := SQLITE_LOCK_RESERVED, lock_task := 7 }
    SQLITE_OK (by decide)

/-! ## Lemmas on the registry -/

lemma ite_ne_of_ne {c : Prop} [Decidable c] {a b x : Int} (ha : a ≠ x) (hb : b ≠ x) :
    (if c then a else b) ≠ x := by
  by_cases hc : c
  · rw [if_pos hc]; exact ha
  · rw [if_neg hc]; exact hb

lemma TranslateReturnValue_eq_ok (value : Nat) :
    TranslateReturnValue value = SQLITE_OK ↔ value = 0 := by
  constructor
  · intro h
    by_contra hne
    revert h
    unfold TranslateReturnValue
    rw [if_neg hne]
    repeat' apply ite_ne_of_ne
    all_goals decide
  · rintro rfl; rfl

lemma uint_as_int_eq_ok (value : Nat) (hv : value < 2 ^ 32) :
    uint_as_int value = SQLITE_OK ↔ value = 0 := by
  unfold uint_as_int SQLITE_OK
  rw [Nat.mod_eq_of_lt hv]
  norm_num at hv ⊢
  split_ifs <;> omega

lemma look_up_append (mem mem1 : Nat → FX_FILE) (zName : String) (p : Nat)
    (hp : (mem1 p).fx_file_name = zName) (hq : ∀ q, q ≠ p → mem1 q = mem q) :
    ∀ l : List Nat, look_up mem zName l = none → look_up mem1 zName (l ++ [p]) = some p := by
  intro l
  induction l with
  | nil => intro _; simp [look_up, hp]
  | cons a l ih =>
    intro h
    simp only [look_up] at h
    split_ifs at h with ha
    simp only [List.cons_append, look_up]
    by_cases hap : a = p
    · subst hap; simp [hp]
    · rw [hq a hap, if_neg ha]; exact ih h


/-- What `fx_file_open` leaves untouched, and what it does when it succeeds. -/
lemma fx_file_open_effect (s : VfsState) (p : Nat) (name : String) (m st : Nat) :
    (fx_file_open s p name m st).allocated = s.allocated ∧
    (∀ q, q ≠ p → (fx_file_open s p name m st).mem q = s.mem q) ∧
    sameExtension ((fx_file_open s p name m st).mem p) (s.mem p) ∧
    ((s.mem p).fx_file_name = name → ((fx_file_open s p name m st).mem p).fx_file_name = name) ∧
    (st = FX_SUCCESS →
      ((fx_file_open s p name m st).mem p).fx_file_name = name ∧
      (fx_file_open s p name m st).fx_media_opened_file_list =
        s.fx_media_opened_file_list ++ [p]) ∧
    (st ≠ FX_SUCCESS →
      (fx_file_open s p name m st).fx_media_opened_file_list = s.fx_media_opened_file_list) := by
  unfold fx_file_open sameExtension
  by_cases h : st = FX_SUCCESS
  · simp only [h, if_true, mem_write, ne_eq, not_true_eq_false, false_implies, and_true]
    refine ⟨trivial, fun q hq => by rw [if_neg hq], ?_, fun _ => ?_, fun _ => ?_⟩ <;> simp
  · simp only [h, if_false]
    simp

/-- What `fx_file_close` leaves untouched. -/
lemma fx_file_close_effect (s : VfsState) (p : Nat) (st : Nat) :
    (fx_file_close s p st).allocated = s.allocated ∧
    (fx_file_close s p st).mem = s.mem ∧
    (fx_file_close s p st).calls = s.calls ++ [FxCall.fx_file_close p] := by
  unfold fx_file_close
  by_cases h : st = FX_SUCCESS <;> simp [h]


lemma sameExtension_trans {f g k : FX_FILE} (h1 : sameExtension f g) (h2 : sameExtension g k) :
    sameExtension f k :=
  ⟨h1.1.trans h2.1, h1.2.1.trans h2.2.1, h1.2.2.1.trans h2.2.2.1,
    h1.2.2.2.1.trans h2.2.2.2.1, h1.2.2.2.2.trans h2.2.2.2.2⟩

/-- A successful opening of a new file object records the name, puts the object at the end
of the list of opened files and changes nothing else. -/
lemma xOpen_try_open_ok (s : VfsState) (env : OpenEnv) (p : Nat) (name : String)
    (m : Nat) (po : Option Nat) (h : (xOpen_try_open s env p name m po).1 = FX_SUCCESS) :
    (xOpen_try_open s env p name m po).2.2.allocated = s.allocated ∧
    (∀ q, q ≠ p → (xOpen_try_open s env p name m po).2.2.mem q = s.mem q) ∧
    sameExtension ((xOpen_try_open s env p name m po).2.2.mem p) (s.mem p) ∧
    ((xOpen_try_open s env p name m po).2.2.mem p).fx_file_name = name ∧
    (xOpen_try_open s env p name m po).2.2.fx_media_opened_file_list =
      s.fx_media_opened_file_list ++ [p] := by
  unfold xOpen_try_open at h ⊢
  by_cases hr : env.open_result = FX_ACCESS_ERROR ∧ m &&& FX_OPEN_FOR_WRITE ≠ 0
  · simp only [hr, ne_eq, not_false_eq_true, and_self, if_true] at h ⊢
    have hne : FX_ACCESS_ERROR ≠ FX_SUCCESS := by decide
    obtain ⟨a1, b1, c1, -, -, e1⟩ := fx_file_open_effect s p name m FX_ACCESS_ERROR
    obtain ⟨a2, b2, c2, -, d2, -⟩ :=
      fx_file_open_effect (fx_file_open s p name m FX_ACCESS_ERROR) p name FX_OPEN_FOR_READ
        env.fallback_result
    obtain ⟨d2n, d2l⟩ := d2 h
    refine ⟨a2.trans a1, fun q hq => (b2 q hq).trans (b1 q hq), sameExtension_trans c2 c1,
      d2n, ?_⟩
    rw [d2l, e1 hne]
  · simp only [hr, if_false] at h ⊢
    obtain ⟨a1, b1, c1, -, d1, -⟩ := fx_file_open_effect s p name m env.open_result
    obtain ⟨d1n, d1l⟩ := d1 h
    exact ⟨a1, b1, c1, d1n, d1l⟩

lemma xOpen_init_locks_fields (f : FX_FILE) (flags : Nat) (z : Bool) (t : Nat) :
    (xOpen_init_locks f flags z t).fx_file_name = f.fx_file_name ∧
    (xOpen_init_locks f flags z t).delete_on_close = f.delete_on_close ∧
    (xOpen_init_locks f flags z t).open_count = 1 := by
  unfold xOpen_init_locks
  by_cases h : (flags &&& SQLITE_OPEN_MAIN_JOURNAL ≠ 0) ∨ z = true
  · rw [if_pos h]; exact ⟨rfl, rfl, rfl⟩
  · rw [if_neg h]; exact ⟨rfl, rfl, rfl⟩

/-- A successful `xOpen` of a path that is not open creates one file object, with open count
1 and the delete flag of the opener, at the end of the list of opened files. -/
lemma xOpen_create_ok (s : VfsState) (env : OpenEnv) (name : String)
    (fptr : sqlite3_azure_file) (flags : Nat) (pOutFlags : Option Nat)
    (h : (xOpen_create s env name false fptr flags pOutFlags).rc = SQLITE_OK) :
    env.malloc_result ≠ 0 ∧
    (xOpen_create s env name false fptr flags pOutFlags).file.fx_file = env.malloc_result ∧
    ((xOpen_create s env name false fptr flags pOutFlags).state.mem
      env.malloc_result).fx_file_name = name ∧
    ((xOpen_create s env name false fptr flags pOutFlags).state.mem
      env.malloc_result).open_count = 1 ∧
    ((xOpen_create s env name false fptr flags pOutFlags).state.mem
      env.malloc_result).delete_on_close = flags &&& SQLITE_OPEN_DELETEONCLOSE ∧
    (xOpen_create s env name false fptr flags pOutFlags).state.fx_media_opened_file_list =
      s.fx_media_opened_file_list ++ [env.malloc_result] ∧
    (xOpen_create s env name false fptr flags pOutFlags).state.allocated =
      env.malloc_result :: s.allocated ∧
    (∀ q, q ≠ env.malloc_result →
      (xOpen_create s env name false fptr flags pOutFlags).state.mem q = s.mem q) := by
  unfold xOpen_create at h ⊢
  simp only [Bool.false_eq_true, if_false] at h ⊢
  by_cases hcant : flags &&& SQLITE_OPEN_CREATE ≠ 0 ∧
      ((env.create_result = FX_ALREADY_CREATED ∧ flags &&& SQLITE_OPEN_EXCLUSIVE ≠ 0) ∨
       (env.create_result ≠ FX_ALREADY_CREATED ∧ env.create_result ≠ FX_SUCCESS))
  · rw [if_pos hcant] at h
    simp [SQLITE_CANTOPEN, SQLITE_OK] at h
  · rw [if_neg hcant] at h ⊢
    by_cases hm : env.malloc_result = 0
    · rw [if_pos hm] at h
      simp [SQLITE_NOMEM, SQLITE_OK] at h
    · rw [if_neg hm] at h ⊢
      refine ⟨hm, ?_⟩
      generalize hs2 : ({ (if flags &&& SQLITE_OPEN_CREATE ≠ 0 then fx_file_create s name
          else s) with
        allocated := env.malloc_result ::
          (if flags &&& SQLITE_OPEN_CREATE ≠ 0 then fx_file_create s name else s).allocated,
        mem := mem_write
          (if flags &&& SQLITE_OPEN_CREATE ≠ 0 then fx_file_create s name else s).mem
          env.malloc_result
          { env.malloc_contents with
            delete_on_close := flags &&& SQLITE_OPEN_DELETEONCLOSE } } : VfsState) = s2 at h ⊢
      have hs2a : s2.allocated = env.malloc_result :: s.allocated := by
        rw [← hs2]; by_cases hc : flags &&& SQLITE_OPEN_CREATE ≠ 0 <;> simp [hc, fx_file_create]
      have hs2l : s2.fx_media_opened_file_list = s.fx_media_opened_file_list := by
        rw [← hs2]; by_cases hc : flags &&& SQLITE_OPEN_CREATE ≠ 0 <;> simp [hc, fx_file_create]
      have hs2m : ∀ q, q ≠ env.malloc_result → s2.mem q = s.mem q := by
        intro q hq
        rw [← hs2]
        by_cases hc : flags &&& SQLITE_OPEN_CREATE ≠ 0 <;> simp [hc, fx_file_create, mem_write, hq]
      have hs2d : (s2.mem env.malloc_result).delete_on_close =
          flags &&& SQLITE_OPEN_DELETEONCLOSE := by
        rw [← hs2]; simp [mem_write]
      generalize ho : xOpen_try_open s2 env env.malloc_result name
        (if flags &&& SQLITE_OPEN_READWRITE ≠ 0 then FX_OPEN_FOR_WRITE else FX_OPEN_FOR_READ)
        (Option.map (fun _ => flags) pOutFlags) = opened at h ⊢
      unfold xOpen_finish at h ⊢
      by_cases hres : opened.1 = FX_SUCCESS
      · have hok := xOpen_try_open_ok s2 env env.malloc_result name _ _ (ho ▸ hres)
        rw [ho] at hok
        obtain ⟨ka, km, ke, kn, kl⟩ := hok
        simp only [hres, ne_eq, not_true_eq_false, if_false]
        refine ⟨trivial, ?_, ?_, ?_, ?_, ?_, ?_⟩
        · simp only [mem_write, if_true]
          rw [(xOpen_init_locks_fields _ _ _ _).1, kn]
        · simp only [mem_write, if_true]
          exact (xOpen_init_locks_fields _ _ _ _).2.2
        · simp only [mem_write, if_true]
          rw [(xOpen_init_locks_fields _ _ _ _).2.1, ke.2.1, hs2d]
        · rw [kl, hs2l]
        · rw [ka, hs2a]
        · intro q hq
          simp only [mem_write, if_neg hq]
          rw [km q hq, hs2m q hq]
      · rw [if_pos hres] at h
        exact absurd ((TranslateReturnValue_eq_ok _).1 h) hres


/-- The reopening of a shared file object keeps the fields of the VFS, the name when it is
the one asked for, the other objects and the allocations. -/
lemma xOpen_reopen_effect (s : VfsState) (env : OpenEnv) (name : String) (p : Nat)
    (po : Option Nat) :
    (xOpen_reopen s env name p po).2.2.allocated = s.allocated ∧
    (∀ q, q ≠ p → (xOpen_reopen s env name p po).2.2.mem q = s.mem q) ∧
    sameExtension ((xOpen_reopen s env name p po).2.2.mem p) (s.mem p) ∧
    ((s.mem p).fx_file_name = name →
      ((xOpen_reopen s env name p po).2.2.mem p).fx_file_name = name) := by
  unfold xOpen_reopen
  obtain ⟨a0, m0, -⟩ := fx_file_close_effect s p env.close_result
  obtain ⟨a1, b1, c1, n1, -, -⟩ :=
    fx_file_open_effect (fx_file_close s p env.close_result) p name FX_OPEN_FOR_WRITE
      env.open_result
  rw [m0] at b1 c1 n1
  by_cases hr : env.open_result = FX_ACCESS_ERROR
  · simp only [hr, if_true]
    rw [hr] at a1 b1 c1 n1
    obtain ⟨a2, b2, c2, n2, -, -⟩ :=
      fx_file_open_effect
        (fx_file_open (fx_file_close s p env.close_result) p name FX_OPEN_FOR_WRITE
          FX_ACCESS_ERROR) p name FX_OPEN_FOR_READ env.fallback_result
    exact ⟨a2.trans (a1.trans a0), fun q hq => (b2 q hq).trans (b1 q hq),
      sameExtension_trans c2 c1, fun hn => n2 (n1 hn)⟩
  · simp only [hr, if_false]
    exact ⟨a1.trans a0, b1, c1, n1⟩

/-- The branch of `xOpen` for a path that is open shares the file object: one more in the open
count, the delete flag of the opener added, the lock fields and the allocations kept. -/
lemma xOpen_reuse_effect (s : VfsState) (env : OpenEnv) (name : String) (p : Nat)
    (flags : Nat) (po : Option Nat) (hn : (s.mem p).fx_file_name = name) :
    (xOpen_reuse s env name p flags po).file.fx_file = p ∧
    (xOpen_reuse s env name p flags po).state.allocated = s.allocated ∧
    ((xOpen_reuse s env name p flags po).state.mem p).open_count =
      u32_inc (s.mem p).open_count ∧
    ((xOpen_reuse s env name p flags po).state.mem p).delete_on_close =
      (s.mem p).delete_on_close ||| (flags &&& SQLITE_OPEN_DELETEONCLOSE) ∧
    ((xOpen_reuse s env name p flags po).state.mem p).shared_locks_count =
      (s.mem p).shared_locks_count ∧
    ((xOpen_reuse s env name p flags po).state.mem p).lock_type = (s.mem p).lock_type ∧
    ((xOpen_reuse s env name p flags po).state.mem p).lock_task = (s.mem p).lock_task ∧
    ((xOpen_reuse s env name p flags po).state.mem p).fx_file_name = name := by
  unfold xOpen_reuse
  dsimp only
  by_cases hre : (s.mem p).fx_file_open_mode = FX_OPEN_FOR_READ ∧
      flags &&& SQLITE_OPEN_READWRITE ≠ 0
  · rw [if_pos hre]
    dsimp only
    generalize hs1 : ({ s with
        mem := mem_write s.mem p
          ({ fx_file_name := (s.mem p).fx_file_name,
             fx_file_open_mode := (s.mem p).fx_file_open_mode,
             open_count := u32_inc (s.mem p).open_count,
             delete_on_close :=
               (s.mem p).delete_on_close ||| (flags &&& SQLITE_OPEN_DELETEONCLOSE),
             shared_locks_count := (s.mem p).shared_locks_count,
             lock_type := (s.mem p).lock_type,
             lock_task := (s.mem p).lock_task } : FX_FILE) } : VfsState) = s1
    obtain ⟨a, -, e, n⟩ := xOpen_reopen_effect s1 env name p po
    have ha : s1.allocated = s.allocated := by rw [← hs1]
    have h1 : (s1.mem p).open_count = u32_inc (s.mem p).open_count := by
      rw [← hs1]; simp [mem_write]
    have h2 : (s1.mem p).delete_on_close =
        (s.mem p).delete_on_close ||| (flags &&& SQLITE_OPEN_DELETEONCLOSE) := by
      rw [← hs1]; simp [mem_write]
    have h3 : (s1.mem p).shared_locks_count = (s.mem p).shared_locks_count := by
      rw [← hs1]; simp [mem_write]
    have h4 : (s1.mem p).lock_type = (s.mem p).lock_type := by
      rw [← hs1]; simp [mem_write]
    have h5 : (s1.mem p).lock_task = (s.mem p).lock_task := by
      rw [← hs1]; simp [mem_write]
    have h6 : (s1.mem p).fx_file_name = name := by
      rw [← hs1]; simp [mem_write, hn]
    obtain ⟨e1, e2, e3, e4, e5⟩ := e
    exact ⟨rfl, a.trans ha, e1.trans h1, e2.trans h2, e3.trans h3, e4.trans h4,
      e5.trans h5, n h6⟩
  · rw [if_neg hre]
    simp [mem_write, hn]

/-- A close that is not the last one only takes one from the open count. -/
lemma xClose_not_last (s : VfsState) (c : Nat) (fptr : sqlite3_azure_file)
    (hp : fptr.fx_file ≠ 0) (hc : u32_dec (s.mem fptr.fx_file).open_count ≠ 0) :
    xClose s c fptr =
      some ({ s with
              mem := mem_write s.mem fptr.fx_file
                { s.mem fptr.fx_file with
                  open_count := u32_dec (s.mem fptr.fx_file).open_count } }, SQLITE_OK) := by
  unfold xClose
  simp only [hp, if_false]
  rw [if_pos hc]

/-- The last close closes the file on the volume and, when that succeeds, deletes it if
`delete_on_close` is set and frees the file object; when it fails the result is
`SQLITE_IOERR_CLOSE` and the file object stays. -/
lemma xClose_last (s : VfsState) (c : Nat) (fptr : sqlite3_azure_file)
    (hp : fptr.fx_file ≠ 0) (hc : u32_dec (s.mem fptr.fx_file).open_count = 0) :
    ∃ s1 rc, xClose s c fptr = some (s1, rc) ∧
      s1.calls = s.calls ++ [FxCall.fx_file_close fptr.fx_file] ++
        (if c = FX_SUCCESS ∧ (s.mem fptr.fx_file).delete_on_close ≠ 0
          then [FxCall.fx_file_delete (s.mem fptr.fx_file).fx_file_name] else []) ∧
      (c = FX_SUCCESS → rc = SQLITE_OK ∧ s1.allocated = s.allocated.erase fptr.fx_file) ∧
      (c ≠ FX_SUCCESS → rc = SQLITE_IOERR_CLOSE ∧ s1.allocated = s.allocated) := by
  unfold xClose
  simp only [hp, if_false]
  rw [if_neg (not_not.2 hc)]
  by_cases hs : c = FX_SUCCESS
  · rw [if_pos hs]
    refine ⟨_, _, rfl, ?_, fun _ => ⟨rfl, ?_⟩, fun hne => absurd hs hne⟩
    · by_cases hd : (s.mem fptr.fx_file).delete_on_close ≠ 0 <;>
        simp [hs, hd, fx_file_close, fx_file_delete, mem_write]
    · by_cases hd : (s.mem fptr.fx_file).delete_on_close ≠ 0 <;>
        simp [hs, hd, fx_file_close, fx_file_delete, mem_write]
  · rw [if_neg hs]
    refine ⟨_, _, rfl, ?_, fun h => absurd h hs, fun _ => ⟨rfl, ?_⟩⟩
    · simp [hs, fx_file_close]
    · simp [hs, fx_file_close]

/-! ## Theorems: the registry of opened files -/

/-- Claim C9, counterexample. A path is opened twice with `SQLITE_OPEN_DELETEONCLOSE` and
closed twice, the volume refusing the close (`FX_IO_ERROR`): the second `xClose` returns
`SQLITE_IOERR_CLOSE`, the file object at address 100 is still allocated, and no
`fx_file_delete` has been issued. -/
theorem xClose_refused_by_volume_keeps_handle :
    ((xClose (xOpen (xOpen emptyState (goodEnv 7 100) (some "test.db") { fx_file := 0 }
                (SQLITE_OPEN_READWRITE ||| SQLITE_OPEN_CREATE ||| SQLITE_OPEN_DELETEONCLOSE)
                none).state
              (goodEnv 8 200) (some "test.db") { fx_file := 0 }
              (SQLITE_OPEN_READWRITE ||| SQLITE_OPEN_CREATE ||| SQLITE_OPEN_DELETEONCLOSE)
              none).state FX_SUCCESS { fx_file := 100 }).bind
        (fun r => xClose r.1 FX_IO_ERROR { fx_file := 100 })).map
        (fun r => (r.2, r.1.allocated, r.1.calls)) =
      some (SQLITE_IOERR_CLOSE, [100],
        [FxCall.fx_file_create "test.db", FxCall.fx_file_open 100 "test.db" FX_OPEN_FOR_WRITE,
         FxCall.fx_file_close 100]) := by
  decide


/-- Claim C9, amended. After a successful `xOpen` of a path that was not open and a second
`xOpen` of the same path, both file objects point to one `FX_FILE`, no second one is
allocated, its `open_count` is 2, its `delete_on_close` is the OR of the `DELETEONCLOSE`
flags of the two openers and its lock fields are untouched. The first `xClose` returns
`SQLITE_OK`, leaves `open_count` at 1 and issues no FileX call. The second `xClose` issues
`fx_file_close`; when that succeeds it issues `fx_file_delete` if `delete_on_close` is set,
frees the file object and returns `SQLITE_OK`; when it fails it returns `SQLITE_IOERR_CLOSE`,
deletes nothing and leaves the file object allocated. -/
theorem xOpen_shares_handle_and_last_xClose_releases
    (s : VfsState) (env1 env2 : OpenEnv) (zName : String)
    (fptr1 fptr2 : sqlite3_azure_file) (flags1 flags2 : Nat) (po1 po2 : Option Nat)
    (c1 c2 : Nat) (o1 o2 : OpenResult)
    (hnew : look_up s.mem zName s.fx_media_opened_file_list = none)
    (ho1 : o1 = xOpen s env1 (some zName) fptr1 flags1 po1)
    (ho2 : o2 = xOpen o1.state env2 (some zName) fptr2 flags2 po2)
    (h1 : o1.rc = SQLITE_OK) :
    o1.file.fx_file ≠ 0 ∧ o2.file.fx_file = o1.file.fx_file ∧
    o2.state.allocated = o1.state.allocated ∧
    (o2.state.mem o1.file.fx_file).open_count = 2 ∧
    (o2.state.mem o1.file.fx_file).delete_on_close =
      (flags1 &&& SQLITE_OPEN_DELETEONCLOSE) ||| (flags2 &&& SQLITE_OPEN_DELETEONCLOSE) ∧
    (o2.state.mem o1.file.fx_file).shared_locks_count =
      (o1.state.mem o1.file.fx_file).shared_locks_count ∧
    (o2.state.mem o1.file.fx_file).lock_type = (o1.state.mem o1.file.fx_file).lock_type ∧
    (o2.state.mem o1.file.fx_file).lock_task = (o1.state.mem o1.file.fx_file).lock_task ∧
    ∃ s3, xClose o2.state c1 o2.file = some (s3, SQLITE_OK) ∧
      (s3.mem o1.file.fx_file).open_count = 1 ∧
      s3.calls = o2.state.calls ∧
      s3.fx_media_opened_file_list = o2.state.fx_media_opened_file_list ∧
      s3.allocated = o2.state.allocated ∧
      ∃ s4 rc, xClose s3 c2 o1.file = some (s4, rc) ∧
        s4.calls = s3.calls ++ [FxCall.fx_file_close o1.file.fx_file] ++
          (if c2 = FX_SUCCESS ∧
              (flags1 &&& SQLITE_OPEN_DELETEONCLOSE) |||
                (flags2 &&& SQLITE_OPEN_DELETEONCLOSE) ≠ 0
            then [FxCall.fx_file_delete zName] else []) ∧
        (c2 = FX_SUCCESS → rc = SQLITE_OK ∧ s4.allocated = s.allocated) ∧
        (c2 ≠ FX_SUCCESS → rc = SQLITE_IOERR_CLOSE ∧ s4.allocated = o2.state.allocated) := by
  have e1 : o1 = xOpen_create s env1 zName false fptr1 flags1 po1 := by
    rw [ho1]; simp only [xOpen, hnew]
  rw [e1] at h1
  obtain ⟨hp, hf, hn, hoc, hdc, hl, ha, hm⟩ := xOpen_create_ok s env1 zName fptr1 flags1 po1 h1
  rw [← e1] at hf hn hoc hdc hl ha hm
  have hlook : look_up o1.state.mem zName o1.state.fx_media_opened_file_list =
      some env1.malloc_result := by
    rw [hl]
    exact look_up_append s.mem o1.state.mem zName env1.malloc_result hn hm _ hnew
  have e2 : o2 = xOpen_reuse o1.state env2 zName env1.malloc_result flags2 po2 := by
    rw [ho2]; simp only [xOpen, hlook]
  obtain ⟨rf, ra, roc, rdc, rsc, rlt, rtk, rn⟩ :=
    xOpen_reuse_effect o1.state env2 zName env1.malloc_result flags2 po2 hn
  rw [← e2] at rf ra roc rdc rsc rlt rtk rn
  rw [hf]
  rw [hoc] at roc
  rw [hdc] at rdc
  have hinc : u32_inc 1 = 2 := by decide
  rw [hinc] at roc
  have hfp : o2.file.fx_file ≠ 0 := by rw [rf]; exact hp
  have hd2 : u32_dec (o2.state.mem o2.file.fx_file).open_count ≠ 0 := by
    rw [rf, roc]; decide
  refine ⟨hp, rf, ra, roc, rdc, rsc, rlt, rtk, _, xClose_not_last o2.state c1 o2.file hfp hd2,
    ?_, rfl, rfl, rfl, ?_⟩
  · simp only [rf, mem_write, if_true, roc]
    decide
  · have hfp1 : o1.file.fx_file ≠ 0 := by rw [hf]; exact hp
    obtain ⟨s4, rc, hx, hcalls, hok, hfail⟩ := xClose_last
      { o2.state with
        mem := mem_write o2.state.mem o2.file.fx_file
          { o2.state.mem o2.file.fx_file with
            open_count := u32_dec (o2.state.mem o2.file.fx_file).open_count } }
      c2 o1.file hfp1 (by
        simp only [rf, hf, mem_write, if_true, roc]
        decide)
    refine ⟨s4, rc, hx, ?_, fun hc => ⟨(hok hc).1, ?_⟩, fun hc => ⟨(hfail hc).1, ?_⟩⟩
    · rw [hcalls]
      simp only [rf, hf, mem_write, if_true, rdc, rn]
    · rw [(hok hc).2]
      simp only [ra, ha, hf, List.erase_cons_head]
    · rw [(hfail hc).2]


/-- Witness of `xOpen_shares_handle_and_last_xClose_releases`: "test.db" is opened by thread
7 and again by thread 8; the one file object, at address 100, has open count 2. -/
theorem xOpen_shares_handle_and_last_xClose_releases_witness :
    (xOpen emptyState (goodEnv 7 100) (some "test.db") { fx_file := 0 }
      (SQLITE_OPEN_READWRITE ||| SQLITE_OPEN_CREATE) none).rc = SQLITE_OK ∧
    (xOpen (xOpen emptyState (goodEnv 7 100) (some "test.db") { fx_file := 0 }
        (SQLITE_OPEN_READWRITE ||| SQLITE_OPEN_CREATE) none).state
      (goodEnv 8 200) (some "test.db") { fx_file := 0 }
      (SQLITE_OPEN_READWRITE ||| SQLITE_OPEN_DELETEONCLOSE) none).file.fx_file = 100 ∧
    ((xOpen (xOpen emptyState (goodEnv 7 100) (some "test.db") { fx_file := 0 }
        (SQLITE_OPEN_READWRITE ||| SQLITE_OPEN_CREATE) none).state
      (goodEnv 8 200) (some "test.db") { fx_file := 0 }
      (SQLITE_OPEN_READWRITE ||| SQLITE_OPEN_DELETEONCLOSE) none).state.mem 100).open_count
      = 2 :=
  have h := xOpen_shares_handle_and_last_xClose_releases emptyState (goodEnv 7 100)
    (goodEnv 8 200) "test.db" { fx_file := 0 } { fx_file := 0 }
    (SQLITE_OPEN_READWRITE ||| SQLITE_OPEN_CREATE)
    (SQLITE_OPEN_READWRITE ||| SQLITE_OPEN_DELETEONCLOSE) none none FX_SUCCESS FX_SUCCESS
    _ _ (by decide) rfl rfl (by decide)
  ⟨by decide, h.2.1, h.2.2.2.1⟩

/-- Claim C10, the failing input. "test.db" is open for reading on a write-protected volume
and is opened again with `SQLITE_OPEN_READWRITE`: `fx_file_open` for writing returns
`FX_WRITE_PROTECT` (0x23) and `xOpen` returns that status as it is, 35, which is none of the
result codes of the engine; translated it would be `SQLITE_ERROR`. -/
theorem xOpen_of_open_path_returns_raw_status :
    (xOpen
      (xOpen emptyState (goodEnv 7 100) (some "test.db") { fx_file := 0 }
        SQLITE_OPEN_READONLY none).state
      { thread := 8, create_result := FX_SUCCESS, malloc_result := 200,
        malloc_contents := blankFile, close_result := FX_SUCCESS,
        open_result := FX_WRITE_PROTECT, fallback_result := FX_SUCCESS }
      (some "test.db") { fx_file := 0 } SQLITE_OPEN_READWRITE none).rc = 35 ∧
    (35 : Int) ∉ engineCodes ∧
    TranslateReturnValue FX_WRITE_PROTECT = SQLITE_ERROR := by
  decide

/-! ## Theorems: status translation and temporary names -/

lemma ite_mem_of_mem {c : Prop} [Decidable c] {a b : Int} {l : List Int}
    (ha : a ∈ l) (hb : b ∈ l) : (if c then a else b) ∈ l := by
  by_cases hc : c
  · rw [if_pos hc]; exact ha
  · rw [if_neg hc]; exact hb

lemma TranslateReturnValue_mem (value : Nat) : TranslateReturnValue value ∈ engineCodes := by
  unfold TranslateReturnValue
  repeat' apply ite_mem_of_mem
  all_goals decide

/-- Claim C11. For every filesystem status `TranslateReturnValue` returns one of `SQLITE_OK`,
`SQLITE_NOTFOUND`, `SQLITE_IOERR`, `SQLITE_CANTOPEN`, `SQLITE_CORRUPT`,
`SQLITE_IOERR_SHORT_READ`, `SQLITE_NOMEM`, `SQLITE_ERROR`, and it returns `SQLITE_OK` if and
only if the status is `FX_SUCCESS`. -/
theorem TranslateReturnValue_closed_and_ok_iff_success (value : Nat) :
    (TranslateReturnValue value = SQLITE_OK ∨ TranslateReturnValue value = SQLITE_NOTFOUND ∨
      TranslateReturnValue value = SQLITE_IOERR ∨ TranslateReturnValue value = SQLITE_CANTOPEN ∨
      TranslateReturnValue value = SQLITE_CORRUPT ∨
      TranslateReturnValue value = SQLITE_IOERR_SHORT_READ ∨
      TranslateReturnValue value = SQLITE_NOMEM ∨ TranslateReturnValue value = SQLITE_ERROR) ∧
    (TranslateReturnValue value = SQLITE_OK ↔ value = FX_SUCCESS) := by
  refine ⟨?_, TranslateReturnValue_eq_ok value⟩
  have h := TranslateReturnValue_mem value
  simpa [engineCodes] using h


lemma tempname_digits_eq (c : Nat) :
    tempname_digits 11 c 1000000000 =
      [Char.ofNat (c / 1000000000 % 10 + 48), Char.ofNat (c / 100000000 % 10 + 48),
       Char.ofNat (c / 10000000 % 10 + 48), Char.ofNat (c / 1000000 % 10 + 48),
       Char.ofNat (c / 100000 % 10 + 48), Char.ofNat (c / 10000 % 10 + 48),
       Char.ofNat (c / 1000 % 10 + 48), Char.ofNat (c / 100 % 10 + 48),
       Char.ofNat (c / 10 % 10 + 48), Char.ofNat (c / 1 % 10 + 48)] := by
  rfl

lemma digit_char (d : Nat) (h : d < 10) :
    (Char.ofNat (d + 48)).toNat - 48 = d ∧ (Char.ofNat (d + 48)).isDigit = true := by
  interval_cases d <;> exact ⟨rfl, rfl⟩

lemma decimalValue_tempname_digits (c : Nat) (h : c < 10000000000) :
    decimalValue (tempname_digits 11 c 1000000000) = c := by
  rw [tempname_digits_eq]
  have e0 := (digit_char (c / 1000000000 % 10) (Nat.mod_lt _ (by norm_num))).1
  have e1 := (digit_char (c / 100000000 % 10) (Nat.mod_lt _ (by norm_num))).1
  have e2 := (digit_char (c / 10000000 % 10) (Nat.mod_lt _ (by norm_num))).1
  have e3 := (digit_char (c / 1000000 % 10) (Nat.mod_lt _ (by norm_num))).1
  have e4 := (digit_char (c / 100000 % 10) (Nat.mod_lt _ (by norm_num))).1
  have e5 := (digit_char (c / 10000 % 10) (Nat.mod_lt _ (by norm_num))).1
  have e6 := (digit_char (c / 1000 % 10) (Nat.mod_lt _ (by norm_num))).1
  have e7 := (digit_char (c / 100 % 10) (Nat.mod_lt _ (by norm_num))).1
  have e8 := (digit_char (c / 10 % 10) (Nat.mod_lt _ (by norm_num))).1
  have e9 := (digit_char (c / 1 % 10) (Nat.mod_lt _ (by norm_num))).1
  simp only [decimalValue, List.foldl, e0, e1, e2, e3, e4, e5, e6, e7, e8, e9]
  clear e0 e1 e2 e3 e4 e5 e6 e7 e8 e9
  have t9 : c / 1000000000 % 10 = c / 1000000000 := by omega
  have s8 : c / 1000000000 * 10 + c / 100000000 % 10 = c / 100000000 := by omega
  have s7 : c / 100000000 * 10 + c / 10000000 % 10 = c / 10000000 := by omega
  have s6 : c / 10000000 * 10 + c / 1000000 % 10 = c / 1000000 := by omega
  have s5 : c / 1000000 * 10 + c / 100000 % 10 = c / 100000 := by omega
  have s4 : c / 100000 * 10 + c / 10000 % 10 = c / 10000 := by omega
  have s3 : c / 10000 * 10 + c / 1000 % 10 = c / 1000 := by omega
  have s2 : c / 1000 * 10 + c / 100 % 10 = c / 100 := by omega
  have s1 : c / 100 * 10 + c / 10 % 10 = c / 10 := by omega
  have s0 : c / 10 * 10 + c / 1 % 10 = c := by omega
  rw [Nat.zero_mul, Nat.zero_add, t9, s8, s7, s6, s5, s4, s3, s2, s1, s0]


lemma fx_file_open_calls (s : VfsState) (p : Nat) (name : String) (m st : Nat) :
    (fx_file_open s p name m st).temp_counter = s.temp_counter ∧
    (fx_file_open s p name m st).calls = s.calls ++ [FxCall.fx_file_open p name m] := by
  unfold fx_file_open
  by_cases h : st = FX_SUCCESS <;> simp [h]

lemma xOpen_try_open_calls (s : VfsState) (env : OpenEnv) (p : Nat) (name : String)
    (m : Nat) (po : Option Nat) :
    (xOpen_try_open s env p name m po).2.2.temp_counter = s.temp_counter ∧
    ∃ rest, (xOpen_try_open s env p name m po).2.2.calls = s.calls ++ rest := by
  unfold xOpen_try_open
  by_cases hr : env.open_result = FX_ACCESS_ERROR ∧ m &&& FX_OPEN_FOR_WRITE ≠ 0
  · rw [if_pos hr]
    obtain ⟨t1, c1⟩ := fx_file_open_calls s p name m env.open_result
    obtain ⟨t2, c2⟩ := fx_file_open_calls (fx_file_open s p name m env.open_result) p name
      FX_OPEN_FOR_READ env.fallback_result
    exact ⟨t2.trans t1, _, by rw [c2, c1, List.append_assoc]⟩
  · rw [if_neg hr]
    obtain ⟨t1, c1⟩ := fx_file_open_calls s p name m env.open_result
    exact ⟨t1, _, c1⟩

lemma xOpen_finish_calls (s : VfsState) (env : OpenEnv) (p result flags : Nat) (z : Bool)
    (po : Option Nat) :
    (xOpen_finish s env p result flags z po).state.temp_counter = s.temp_counter ∧
    (xOpen_finish s env p result flags z po).state.calls = s.calls := by
  unfold xOpen_finish
  by_cases h : result ≠ FX_SUCCESS
  · rw [if_pos h]; exact ⟨rfl, rfl⟩
  · rw [if_neg h]; exact ⟨rfl, rfl⟩

/-- For a `NULL` name `xOpen` keeps the counter it is given and first deletes the file of the
invented name. -/
lemma xOpen_create_null_name (s : VfsState) (env : OpenEnv) (name : String)
    (fptr : sqlite3_azure_file) (flags : Nat) (po : Option Nat) :
    (xOpen_create s env name true fptr flags po).state.temp_counter = s.temp_counter ∧
    ∃ rest, (xOpen_create s env name true fptr flags po).state.calls =
      s.calls ++ FxCall.fx_file_delete name :: rest := by
  unfold xOpen_create
  simp only [if_true]
  have hs1 : (if flags &&& SQLITE_OPEN_CREATE ≠ 0
        then fx_file_create (fx_file_delete s name) name
        else fx_file_delete s name).temp_counter = s.temp_counter ∧
      ∃ rest, (if flags &&& SQLITE_OPEN_CREATE ≠ 0
        then fx_file_create (fx_file_delete s name) name
        else fx_file_delete s name).calls = s.calls ++ FxCall.fx_file_delete name :: rest := by
    by_cases hc : flags &&& SQLITE_OPEN_CREATE ≠ 0
    · rw [if_pos hc]
      exact ⟨rfl, [FxCall.fx_file_create name], by simp [fx_file_create, fx_file_delete]⟩
    · rw [if_neg hc]
      exact ⟨rfl, [], by simp [fx_file_delete]⟩
  generalize (if flags &&& SQLITE_OPEN_CREATE ≠ 0
        then fx_file_create (fx_file_delete s name) name
        else fx_file_delete s name) = s1 at hs1 ⊢
  obtain ⟨ht, rest, hc⟩ := hs1
  by_cases hcant : flags &&& SQLITE_OPEN_CREATE ≠ 0 ∧
      ((env.create_result = FX_ALREADY_CREATED ∧ flags &&& SQLITE_OPEN_EXCLUSIVE ≠ 0) ∨
       (env.create_result ≠ FX_ALREADY_CREATED ∧ env.create_result ≠ FX_SUCCESS))
  · rw [if_pos hcant]; exact ⟨ht, rest, hc⟩
  · rw [if_neg hcant]
    by_cases hm : env.malloc_result = 0
    · rw [if_pos hm]; exact ⟨ht, rest, hc⟩
    · rw [if_neg hm]
      obtain ⟨f1, f2⟩ := xOpen_finish_calls
        (xOpen_try_open
          { s1 with
            allocated := env.malloc_result :: s1.allocated,
            mem := mem_write s1.mem env.malloc_result
              { env.malloc_contents with
                delete_on_close := flags &&& SQLITE_OPEN_DELETEONCLOSE } }
          env env.malloc_result name
          (if flags &&& SQLITE_OPEN_READWRITE ≠ 0 then FX_OPEN_FOR_WRITE else FX_OPEN_FOR_READ)
          (Option.map (fun _ => flags) po)).2.2
        env env.malloc_result
        (xOpen_try_open
          { s1 with
            allocated := env.malloc_result :: s1.allocated,
            mem := mem_write s1.mem env.malloc_result
              { env.malloc_contents with
                delete_on_close := flags &&& SQLITE_OPEN_DELETEONCLOSE } }
          env env.malloc_result name
          (if flags &&& SQLITE_OPEN_READWRITE ≠ 0 then FX_OPEN_FOR_WRITE else FX_OPEN_FOR_READ)
          (Option.map (fun _ => flags) po)).1
        flags true
        (xOpen_try_open
          { s1 with
            allocated := env.malloc_result :: s1.allocated,
            mem := mem_write s1.mem env.malloc_result
              { env.malloc_contents with
                delete_on_close := flags &&& SQLITE_OPEN_DELETEONCLOSE } }
          env env.malloc_result name
          (if flags &&& SQLITE_OPEN_READWRITE ≠ 0 then FX_OPEN_FOR_WRITE else FX_OPEN_FOR_READ)
          (Option.map (fun _ => flags) po)).2.1
      obtain ⟨g1, rest2, g2⟩ := xOpen_try_open_calls
        { s1 with
          allocated := env.malloc_result :: s1.allocated,
          mem := mem_write s1.mem env.malloc_result
            { env.malloc_contents with
              delete_on_close := flags &&& SQLITE_OPEN_DELETEONCLOSE } }
        env env.malloc_result name
        (if flags &&& SQLITE_OPEN_READWRITE ≠ 0 then FX_OPEN_FOR_WRITE else FX_OPEN_FOR_READ)
        (Option.map (fun _ => flags) po)
      refine ⟨f1.trans (g1.trans ht), rest ++ rest2, ?_⟩
      rw [f2, g2]
      show s1.calls ++ rest2 = _
      rw [hc]
      simp


lemma tempname_injective (a b : Nat) (ha : a < 2 ^ 32) (hb : b < 2 ^ 32)
    (h : tempname a = tempname b) : a = b := by
  unfold tempname at h
  have hd := List.append_cancel_left (congrArg String.data h)
  have ha1 : a < 10000000000 := by norm_num at ha; omega
  have hb1 : b < 10000000000 := by norm_num at hb; omega
  rw [← decimalValue_tempname_digits a ha1, ← decimalValue_tempname_digits b hb1, hd]

/-- Claim C14. For an `xOpen` call with a `NULL` name and a 32-bit `temp_counter`, the name is
"~sqlite3_temp-" followed by ten decimal digits whose value is `temp_counter` (24 characters,
25 bytes with the terminator), the file of that name is the one `xOpen` works on,
`temp_counter` is incremented, and another counter value gives another name. -/
theorem xOpen_null_name_is_unique_tempname (s : VfsState) (env : OpenEnv)
    (fptr : sqlite3_azure_file) (flags : Nat) (po : Option Nat) (other : Nat)
    (h : s.temp_counter < 2 ^ 32) (ho : other < 2 ^ 32) :
    tempname s.temp_counter =
      String.mk ("~sqlite3_temp-".data ++ tempname_digits 11 s.temp_counter 1000000000) ∧
    (tempname_digits 11 s.temp_counter 1000000000).length = 10 ∧
    (∀ ch ∈ tempname_digits 11 s.temp_counter 1000000000, ch.isDigit = true) ∧
    decimalValue (tempname_digits 11 s.temp_counter 1000000000) = s.temp_counter ∧
    (tempname s.temp_counter).length = 24 ∧ (tempname s.temp_counter).length + 1 ≤ 25 ∧
    (xOpen s env none fptr flags po).state.temp_counter = u32_inc s.temp_counter ∧
    (∃ rest, (xOpen s env none fptr flags po).state.calls =
      s.calls ++ FxCall.fx_file_delete (tempname s.temp_counter) :: rest) ∧
    (other ≠ s.temp_counter → tempname other ≠ tempname s.temp_counter) := by
  have hc : s.temp_counter < 10000000000 := by norm_num at h; omega
  have hlen : (tempname_digits 11 s.temp_counter 1000000000).length = 10 := by
    rw [tempname_digits_eq]; rfl
  have hlen24 : (tempname s.temp_counter).length = 24 := by
    unfold tempname
    rw [String.length, List.length_append, hlen]
    rfl
  obtain ⟨hx1, hx2⟩ := xOpen_create_null_name
    { s with temp_counter := u32_inc s.temp_counter } env (tempname s.temp_counter) fptr flags po
  refine ⟨rfl, hlen, ?_, decimalValue_tempname_digits _ hc, hlen24, by rw [hlen24], hx1, hx2,
    fun hne heq => hne (tempname_injective _ _ ho h heq)⟩
  intro ch hch
  rw [tempname_digits_eq] at hch
  simp only [List.mem_cons, List.mem_singleton, List.not_mem_nil, or_false] at hch
  rcases hch with e | e | e | e | e | e | e | e | e | e <;> rw [e] <;>
    exact (digit_char _ (Nat.mod_lt _ (by norm_num))).2

/-- Witness of `xOpen_null_name_is_unique_tempname`: with the counter at 42 the name is
"~sqlite3_temp-0000000042". -/
theorem xOpen_null_name_is_unique_tempname_witness :
    tempname 42 = "~sqlite3_temp-0000000042" ∧
    (xOpen { emptyState with temp_counter := 42 } (goodEnv 7 100) none { fx_file := 0 }
      SQLITE_OPEN_READWRITE none).state.temp_counter = 43 :=
  ⟨by decide,
   (xOpen_null_name_is_unique_tempname { emptyState with temp_counter := 42 } (goodEnv 7 100)
      { fx_file := 0 } SQLITE_OPEN_READWRITE none 43 (by decide) (by decide)).2.2.2.2.2.2.1⟩

/-! ## Theorems: reading and writing -/

lemma xRead_returns (env : ReadEnv) (buffer : Nat → Nat) (iAmt iOfst : Int)
    (hA : 0 ≤ iAmt) (hO : 0 ≤ iOfst) : ∃ r, xRead env buffer iAmt iOfst = some r := by
  unfold xRead
  rw [if_neg (by omega)]
  dsimp only
  split_ifs <;> exact ⟨_, rfl⟩

lemma TranslateReturnValue_ne_seek (value : Nat) :
    TranslateReturnValue value ≠ SQLITE_IOERR_SEEK := by
  intro h
  have hm := TranslateReturnValue_mem value
  rw [h] at hm
  revert hm
  decide

/-- Claim C12. For every `xRead` of `iAmt` bytes at `iOfst` (both non-negative, as asserted) the
call returns; when fewer than `iAmt` bytes were transferred, the buffer is zero from the number
of bytes read up to `iAmt` and the result is `SQLITE_IOERR_SEEK` if the seek was made and failed,
`SQLITE_IOERR_SHORT_READ` otherwise; when `iOfst` is beyond the file size neither a seek nor a
read is made, nothing is transferred, the result is `SQLITE_IOERR_SHORT_READ` and the whole
buffer up to `iAmt` is zero. -/
theorem xRead_short_read_is_zero_filled (env : ReadEnv) (buffer : Nat → Nat) (iAmt iOfst : Int)
    (hA : 0 ≤ iAmt) (hO : 0 ≤ iOfst) :
    ∃ r, xRead env buffer iAmt iOfst = some r ∧
      ((r.actual_size : Int) < iAmt →
        (∀ i : Nat, r.actual_size ≤ i → (i : Int) < iAmt → r.buffer i = 0) ∧
        r.rc = (if (iOfst ≤ env.fx_file_current_file_size ∧ env.seek_status ≠ FX_SUCCESS)
                then SQLITE_IOERR_SEEK else SQLITE_IOERR_SHORT_READ)) ∧
      ((env.fx_file_current_file_size : Int) < iOfst →
        r.calls = [] ∧ r.actual_size = 0 ∧ r.rc = SQLITE_IOERR_SHORT_READ ∧
        ∀ i : Nat, (i : Int) < iAmt → r.buffer i = 0) := by
  have hT := TranslateReturnValue_ne_seek env.read_status
  unfold xRead
  rw [if_neg (by omega)]
  by_cases hb : (env.fx_file_current_file_size : Int) < iOfst
  · have hnb : ¬ (iOfst ≤ env.fx_file_current_file_size ∧ env.seek_status ≠ FX_SUCCESS) := by
      intro h; omega
    rw [if_neg hnb]
    by_cases hz : (0 : Int) < iAmt
    · simp [hb, hz, SQLITE_IOERR_SHORT_READ, SQLITE_OK, SQLITE_IOERR_SEEK]
      intro i h1 h2
      omega
    · simp [hb, hz, SQLITE_IOERR_SHORT_READ, SQLITE_OK, SQLITE_IOERR_SEEK]
      intro i h1
      omega
  · by_cases hs : env.seek_status = FX_SUCCESS
    · have hnb : ¬ (iOfst ≤ env.fx_file_current_file_size ∧ env.seek_status ≠ FX_SUCCESS) := by
        intro h; exact h.2 hs
      rw [if_neg hnb]
      by_cases hz : ((env.read_actual_size % 2 ^ 32 : Nat) : Int) < iAmt
      · simp [hb, hs, hT, SQLITE_OK]
        rw [if_pos (by simpa using hz)]
        refine ⟨_, rfl, fun _ => ⟨fun i h1 h2 => ?_, rfl⟩⟩
        show (if env.read_actual_size % 4294967296 ≤ i ∧ (i : Int) < iAmt then 0
          else env.read_buffer i) = 0
        rw [if_pos ⟨h1, h2⟩]
      · simp [hb, hs, hT, SQLITE_OK]
        rw [if_neg (by simpa using hz)]
        refine ⟨_, rfl, fun h => ?_⟩
        exact absurd h (by simpa using hz)
    · have hnb : (iOfst ≤ env.fx_file_current_file_size ∧ env.seek_status ≠ FX_SUCCESS) :=
        ⟨by omega, hs⟩
      rw [if_pos hnb]
      by_cases hz : (0 : Int) < iAmt
      · simp [hb, hs, hz, SQLITE_IOERR_SHORT_READ, SQLITE_OK, SQLITE_IOERR_SEEK]
        intro i h1 h2
        omega
      · simp [hb, hs, hz, SQLITE_IOERR_SHORT_READ, SQLITE_OK, SQLITE_IOERR_SEEK]

/-- Witness for C12: two of the four requested bytes arrive; the last two bytes of the buffer
are zeroed and the result is `SQLITE_IOERR_SHORT_READ`. -/
theorem xRead_short_read_is_zero_filled_witness :
    ∃ r, xRead readEnvExample (fun _ => 7) 4 2 = some r ∧
      ((r.actual_size : Int) < 4 →
        (∀ i : Nat, r.actual_size ≤ i → (i : Int) < 4 → r.buffer i = 0) ∧
        r.rc = (if ((2 : Int) ≤ readEnvExample.fx_file_current_file_size ∧
                  readEnvExample.seek_status ≠ FX_SUCCESS)
                then SQLITE_IOERR_SEEK else SQLITE_IOERR_SHORT_READ)) ∧
      ((readEnvExample.fx_file_current_file_size : Int) < 2 →
        r.calls = [] ∧ r.actual_size = 0 ∧ r.rc = SQLITE_IOERR_SHORT_READ ∧
        ∀ i : Nat, (i : Int) < 4 → r.buffer i = 0) :=
  xRead_short_read_is_zero_filled readEnvExample (fun _ => 7) 4 2 (by decide) (by decide)

lemma xRead_example_evaluated :
    (xRead readEnvExample (fun _ => 7) 4 2).map
        (fun r => (r.rc, r.buffer 0, r.buffer 1, r.buffer 2, r.buffer 3, r.calls)) =
      some (522, 170, 170, 0, 0, [IoCall.fx_file_extended_seek 2, IoCall.fx_file_read 4]) := by
  rfl

lemma xWrite_example_evaluated :
    xWrite writeEnvGood 7 (exclusiveFile 7) { contents := [1, 2], fx_file_current_file_offset := 0 }
        [9, 9] 2 5 10 =
      Run.returned { rc := 0, data := { contents := [1, 2, 0, 0, 0, 9, 9],
                                        fx_file_current_file_offset := 7 },
                     calls := [IoCall.fx_file_extended_seek 2, IoCall.fx_file_write [0, 0, 0],
                               IoCall.fx_file_write [9, 9]] } := by
  decide

lemma fx_file_write_nil (d : FileData) : fx_file_write d [] FX_SUCCESS = d := by
  cases d
  simp [fx_file_write]

lemma fx_file_write_at_end (d : FileData) (bytes : List Nat)
    (h : d.fx_file_current_file_offset = d.contents.length) :
    fx_file_write d bytes FX_SUCCESS =
      { contents := d.contents ++ bytes
        fx_file_current_file_offset := d.contents.length + bytes.length } := by
  cases d
  simp only at h
  simp [fx_file_write, h]

/-- When the distance to `iOfst` is a positive multiple of 2^32 and the writes succeed, the
32-bit `size` is 0, the write of no bytes leaves the file as it is, and the loop does not end
within any number of steps. -/
lemma xWrite_zero_extend_spins (env : WriteEnv) (iOfst : Nat) (d : FileData)
    (hs : ∀ k, env.zero_write_status k = FX_SUCCESS)
    (hlt : d.contents.length < iOfst) (hmod : (iOfst - d.contents.length) % 2 ^ 32 = 0) :
    ∀ fuel k calls, xWrite_zero_extend env iOfst fuel k d calls = none := by
  intro fuel
  induction fuel with
  | zero => intro k calls; rfl
  | succ n ih =>
    intro k calls
    unfold xWrite_zero_extend
    rw [if_pos hlt]
    simp only [hmod, hs, zero_buffer_size]
    simp only [ne_eq, not_true_eq_false, if_false, gt_iff_lt, Nat.not_lt_zero,
      List.replicate_zero, fx_file_write_nil]
    exact ih _ _

/-- When the distance to `iOfst` is below 2^32 and the writes succeed, the loop ends within
`iOfst - size + 1` steps, having appended exactly the missing zero bytes in writes of at most
512 bytes. -/
lemma xWrite_zero_extend_ok (env : WriteEnv) (iOfst : Nat)
    (hs : ∀ k, env.zero_write_status k = FX_SUCCESS) :
    ∀ fuel k (d : FileData) calls,
      d.fx_file_current_file_offset = d.contents.length → d.contents.length ≤ iOfst →
      iOfst - d.contents.length < 2 ^ 32 → iOfst - d.contents.length < fuel →
      ∃ chunks, xWrite_zero_extend env iOfst fuel k d calls =
          some (SQLITE_OK,
            { contents := d.contents ++ List.replicate (iOfst - d.contents.length) 0
              fx_file_current_file_offset := iOfst }, calls ++ chunks) ∧
        ∀ c ∈ chunks, ∃ n, n ≤ 512 ∧ c = IoCall.fx_file_write (List.replicate n 0) := by
  intro fuel
  induction fuel with
  | zero => intro k d calls _ _ _ h; omega
  | succ n ih =>
    intro k d calls hoff hle hgap hfuel
    unfold xWrite_zero_extend
    by_cases hlt : d.contents.length < iOfst
    · rw [if_pos hlt]
      have hmod : (iOfst - d.contents.length) % 2 ^ 32 = iOfst - d.contents.length :=
        Nat.mod_eq_of_lt hgap
      simp only [hmod, hs, ne_eq, not_true_eq_false, if_false]
      generalize hsz : (if iOfst - d.contents.length > zero_buffer_size then zero_buffer_size
        else iOfst - d.contents.length) = size
      have hsz1 : size ≤ 512 ∧ 0 < size ∧ size ≤ iOfst - d.contents.length := by
        rw [← hsz]; unfold zero_buffer_size; split_ifs <;> omega
      rw [fx_file_write_at_end d _ hoff]
      have hlen : (d.contents ++ List.replicate size 0).length = d.contents.length + size := by
        simp
      obtain ⟨chunks, hc, hall⟩ := ih (k + 1)
        { contents := d.contents ++ List.replicate size 0
          fx_file_current_file_offset := d.contents.length + (List.replicate size 0).length }
        (calls ++ [IoCall.fx_file_write (List.replicate size 0)])
        (by simp) (by rw [hlen]; omega) (by rw [hlen]; omega) (by rw [hlen]; omega)
      refine ⟨IoCall.fx_file_write (List.replicate size 0) :: chunks, ?_, ?_⟩
      · rw [hc]
        have e : iOfst - d.contents.length = size + (iOfst - (d.contents.length + size)) := by
          omega
        simp only [hlen]
        rw [e, List.replicate_add]
        simp
      · intro c hcm
        rcases List.mem_cons.1 hcm with rfl | hcm
        · exact ⟨size, hsz1.1, rfl⟩
        · exact hall c hcm
    · rw [if_neg hlt]
      have e : iOfst = d.contents.length := by omega
      refine ⟨[], ?_, by simp⟩
      cases d
      simp only at hoff e
      simp [e, hoff]

/-- For a distance below 2^32 the behaviour is the intended one: the call returns for every
fuel above the distance, with `SQLITE_OK`, the file being its old contents, the missing zero
bytes and the data, and every write of the loop at most 512 bytes long. -/
lemma xWrite_beyond_end_below_4GiB (env : WriteEnv) (thread : Nat) (file : FX_FILE)
    (d : FileData) (buffer : List Nat) (iAmt iOfst : Int) (fuel : Nat)
    (hseek : env.seek_status = FX_SUCCESS) (hs : ∀ k, env.zero_write_status k = FX_SUCCESS)
    (hw : env.write_status = FX_SUCCESS)
    (hA : iAmt = buffer.length) (hlock : file.lock_type = SQLITE_LOCK_EXCLUSIVE)
    (htask : file.lock_task = thread)
    (hO : (d.contents.length : Int) < iOfst) (hgap : iOfst - d.contents.length < 2 ^ 32)
    (hfuel : iOfst - d.contents.length < fuel) :
    ∃ chunks, xWrite env thread file d buffer iAmt iOfst fuel = Run.returned
        { rc := SQLITE_OK
          data := { contents := d.contents ++
                      List.replicate (iOfst.toNat - d.contents.length) 0 ++ buffer
                    fx_file_current_file_offset := iOfst.toNat + buffer.length }
          calls := IoCall.fx_file_extended_seek d.contents.length :: chunks ++
                      [IoCall.fx_file_write buffer] } ∧
      ∀ c ∈ chunks, ∃ n, n ≤ 512 ∧ c = IoCall.fx_file_write (List.replicate n 0) := by
  unfold xWrite
  rw [if_neg (by
    rintro (h | h | h | h)
    · omega
    · omega
    · exact h hlock
    · exact h htask)]
  rw [if_pos hO]
  simp only [hseek, ne_eq, not_true_eq_false, if_false]
  have hseekd : fx_file_extended_seek d d.contents.length FX_SUCCESS =
      { contents := d.contents, fx_file_current_file_offset := d.contents.length } := by
    simp [fx_file_extended_seek]
  rw [hseekd]
  obtain ⟨chunks, hc, hall⟩ := xWrite_zero_extend_ok env iOfst.toNat hs fuel 0
    { contents := d.contents, fx_file_current_file_offset := d.contents.length }
    [IoCall.fx_file_extended_seek d.contents.length] rfl (by simp only; omega)
    (by simp only; omega) (by simp only; omega)
  refine ⟨chunks, ?_, hall⟩
  rw [hc]
  simp only [xWrite_data, if_true, hw, (TranslateReturnValue_eq_ok FX_SUCCESS).2 rfl]
  have htake : buffer.take iAmt.toNat = buffer := by
    rw [hA]; simp
  rw [htake, fx_file_write_at_end _ _ (by simp; omega)]
  simp
  omega

/-- When the first write of the loop fails, `SQLITE_IOERR_WRITE` is returned and the data are
not written: the only calls are the seek and the failed write. -/
lemma xWrite_zero_write_fails (env : WriteEnv) (thread : Nat) (file : FX_FILE)
    (d : FileData) (buffer : List Nat) (iAmt iOfst : Int) (fuel : Nat)
    (hseek : env.seek_status = FX_SUCCESS) (hs : env.zero_write_status 0 ≠ FX_SUCCESS)
    (hA : 0 ≤ iAmt) (hlock : file.lock_type = SQLITE_LOCK_EXCLUSIVE)
    (htask : file.lock_task = thread)
    (hO : (d.contents.length : Int) < iOfst) :
    ∃ size, size ≤ 512 ∧ xWrite env thread file d buffer iAmt iOfst (fuel + 1) = Run.returned
        { rc := SQLITE_IOERR_WRITE
          data := { contents := d.contents, fx_file_current_file_offset := d.contents.length }
          calls := [IoCall.fx_file_extended_seek d.contents.length,
                    IoCall.fx_file_write (List.replicate size 0)] } := by
  unfold xWrite
  rw [if_neg (by
    rintro (h | h | h | h)
    · omega
    · omega
    · exact h hlock
    · exact h htask)]
  rw [if_pos hO]
  simp only [hseek, ne_eq, not_true_eq_false, if_false]
  have hseekd : fx_file_extended_seek d d.contents.length FX_SUCCESS =
      { contents := d.contents, fx_file_current_file_offset := d.contents.length } := by
    simp [fx_file_extended_seek]
  rw [hseekd]
  unfold xWrite_zero_extend
  rw [if_pos (by simp only; omega)]
  simp only [ne_eq, hs, not_false_eq_true, if_true]
  refine ⟨(if (iOfst.toNat - d.contents.length) % 2 ^ 32 > zero_buffer_size then zero_buffer_size
    else (iOfst.toNat - d.contents.length) % 2 ^ 32), ?_, ?_⟩
  · unfold zero_buffer_size; split_ifs <;> omega
  · simp only [xWrite_data, SQLITE_IOERR_WRITE, SQLITE_OK]
    simp [fx_file_write, hs]

/-- Claim C13 (code evaluated at the failing input). An `xWrite` of one byte at offset 2^32 into
an empty file, on a volume where every seek and write succeeds, by the thread holding the
Exclusive lock: the 32-bit `size` of the zero-extension loop is 0, no byte is ever appended, and
the call does not return within any number of loop steps. -/
theorem xWrite_4GiB_beyond_end_never_returns (fuel : Nat) :
    xWrite writeEnvGood 7 (exclusiveFile 7) { contents := [], fx_file_current_file_offset := 0 }
      [9] 1 4294967296 fuel = Run.out_of_fuel := by
  have h := xWrite_zero_extend_spins writeEnvGood 4294967296
    { contents := [], fx_file_current_file_offset := 0 } (fun _ => rfl) (by decide) (by decide)
    fuel 0 [IoCall.fx_file_extended_seek 0]
  unfold xWrite
  rw [if_neg (by decide), if_pos (by decide), if_neg (by decide)]
  have e : fx_file_extended_seek { contents := [], fx_file_current_file_offset := 0 }
      ({ contents := [], fx_file_current_file_offset := 0 } : FileData).contents.length
      writeEnvGood.seek_status = { contents := [], fx_file_current_file_offset := 0 } := by
    decide
  simp only [e]
  have e2 : (4294967296 : Int).toNat = 4294967296 := by decide
  rw [e2]
  show (match xWrite_zero_extend writeEnvGood 4294967296 fuel 0
      { contents := [], fx_file_current_file_offset := 0 } [IoCall.fx_file_extended_seek 0] with
    | none => Run.out_of_fuel
    | some (retval, d1, calls1) => Run.returned (xWrite_data writeEnvGood retval d1 calls1 [9] 1))
    = Run.out_of_fuel
  rw [h]

/-! ## Theorems: threads in `xOpen` and `xClose` -/

/-- Claim C15 (code evaluated at the failing schedules). While thread 1 is in the last
`xClose` of a handle and thread 0 in `xOpen` of the same path:
(1) when thread 0 has found the handle and released `openclose` (line 285) and thread 1 then
runs `xClose` to its end, thread 0 goes on to `mutex_get(&look_fptr->mutex)` on freed memory;
(2) when thread 1 has decremented `open_count` to 0 (line 631) before thread 0 looks the path
up, thread 0 increments `open_count` while `openclose` is held by thread 1, both calls return
`SQLITE_OK`, and the handle thread 0 was given has been freed and is out of the registry. -/
theorem xOpen_attach_races_last_xClose :
    (raceRun openAgainstLastClose [0, 0, 0, 1, 1, 1, 1, 1, 1, 0]).use_after_free = true ∧
    (raceRun openAgainstLastClose [1, 1, 0, 0, 0, 1, 1, 0]).threads[0]? =
      some { pc := RacePc.xOpen OpenPc.attach, fx_file := 1, rc := none } ∧
    (raceRun openAgainstLastClose [1, 1, 0, 0, 0, 1, 1, 0]).openclose = some 1 ∧
    raceRun openAgainstLastClose [1, 1, 0, 0, 0, 1, 1, 0, 0, 0, 1, 1] =
      { openclose := none
        opened := 0
        files := [{ open_count := 1, mutex := none, freed := true }]
        threads := [{ pc := RacePc.xOpen OpenPc.returned, fx_file := 1, rc := some SQLITE_OK },
                    { pc := RacePc.xClose ClosePc.returned, fx_file := 1, rc := some SQLITE_OK }]
        use_after_free := false } := by
  decide

set_option maxRecDepth 100000 in
/-- The 20 states two racing openers of a new path can reach are closed under the steps of
both threads; in each of them at most one `FX_FILE` exists, and when both calls have returned
both file objects point to it and its `open_count` is 2. -/
lemma twoOpeners_reach_closed :
    ∀ s ∈ raceReach 12 [twoOpeners],
      raceStep s 0 ∈ raceReach 12 [twoOpeners] ∧ raceStep s 1 ∈ raceReach 12 [twoOpeners] ∧
      s.files.length ≤ 1 ∧ s.threads.length = 2 ∧ s.use_after_free = false ∧
      ((∀ th ∈ s.threads, th.pc = RacePc.xOpen OpenPc.returned) →
        s.files = [{ open_count := 2, mutex := none, freed := false }] ∧
        ∀ th ∈ s.threads, th.fx_file = 1 ∧ th.rc = some SQLITE_OK) := by
  decide

lemma raceStep_no_thread (s : RaceState) (t : Nat) (h : s.threads.length ≤ t) :
    raceStep s t = s := by
  unfold raceStep
  rw [List.getElem?_eq_none h]

lemma twoOpeners_run_reach (schedule : List Nat) :
    raceRun twoOpeners schedule ∈ raceReach 12 [twoOpeners] := by
  have hgen : ∀ (sched : List Nat) (s : RaceState), s ∈ raceReach 12 [twoOpeners] →
      raceRun s sched ∈ raceReach 12 [twoOpeners] := by
    intro sched
    induction sched with
    | nil => intro s hs; exact hs
    | cons t rest ih =>
      intro s hs
      show raceRun (raceStep s t) rest ∈ _
      apply ih
      obtain ⟨h0, h1, -, hlen, -⟩ := twoOpeners_reach_closed s hs
      match t with
      | 0 => exact h0
      | 1 => exact h1
      | t + 2 =>
        rw [raceStep_no_thread s (t + 2) (by omega)]
        exact hs
  exact hgen schedule twoOpeners (by decide)

/-- Two threads opening the same new path: whatever the schedule, at most one `FX_FILE` is
created for the path and no freed handle is touched; once both calls have returned, both file
objects point to that one handle, whose `open_count` is 2, and both results are `SQLITE_OK`. -/
lemma two_openers_create_one_handle (schedule : List Nat) :
    (raceRun twoOpeners schedule).files.length ≤ 1 ∧
    (raceRun twoOpeners schedule).use_after_free = false ∧
    ((∀ th ∈ (raceRun twoOpeners schedule).threads, th.pc = RacePc.xOpen OpenPc.returned) →
      (raceRun twoOpeners schedule).files = [{ open_count := 2, mutex := none, freed := false }] ∧
      ∀ th ∈ (raceRun twoOpeners schedule).threads, th.fx_file = 1 ∧ th.rc = some SQLITE_OK) := by
  obtain ⟨-, -, h1, -, h2, h3⟩ := twoOpeners_reach_closed _ (twoOpeners_run_reach schedule)
  exact ⟨h1, h2, h3⟩

/-- Both calls do return under a schedule that lets each thread run often enough. -/
lemma two_openers_return :
    ∀ th ∈ (raceRun twoOpeners [0, 1, 0, 1, 0, 0, 1, 1, 1, 1, 1, 1]).threads,
      th.pc = RacePc.xOpen OpenPc.returned := by
  decide

/-! ## Theorems: hard errors and the reader count -/

lemma xLock_error_unchanged (f : FX_FILE) (caller : Nat) (lock : Int) (f1 : FX_FILE)
    (h : xLock f caller lock = some (f1, SQLITE_ERROR)) : f1 = f := by
  have e1 : SQLITE_OK ≠ SQLITE_ERROR := by decide
  have e2 : SQLITE_BUSY ≠ SQLITE_ERROR := by decide
  unfold xLock at h
  split_ifs at h
  · unfold xLock_from_none at h
    split_ifs at h <;> simp only [Option.some.injEq, Prod.mk.injEq, reduceCtorEq] at h <;>
      exact absurd h.2 e1
  · unfold xLock_from_shared at h
    split_ifs at h <;> simp only [Option.some.injEq, Prod.mk.injEq, reduceCtorEq] at h <;>
      first | exact absurd h.2 e1 | exact absurd h.2 e2 | exact h.1.symm
  · unfold xLock_from_reserved at h
    split_ifs at h <;> simp only [Option.some.injEq, Prod.mk.injEq, reduceCtorEq] at h <;>
      first | exact absurd h.2 e1 | exact absurd h.2 e2 | exact h.1.symm
  · unfold xLock_from_pending at h
    split_ifs at h <;> simp only [Option.some.injEq, Prod.mk.injEq, reduceCtorEq] at h <;>
      first | exact absurd h.2 e1 | exact absurd h.2 e2 | exact h.1.symm
  · unfold xLock_from_exclusive at h
    split_ifs at h <;> simp only [Option.some.injEq, Prod.mk.injEq, reduceCtorEq] at h <;>
      first | exact absurd h.2 e1 | exact absurd h.2 e2 | exact h.1.symm

lemma xUnlock_error_unchanged (f : FX_FILE) (caller : Nat) (lock : Int) (f1 : FX_FILE)
    (h : xUnlock f caller lock = some (f1, SQLITE_ERROR)) : f1 = f := by
  have e1 : SQLITE_OK ≠ SQLITE_ERROR := by decide
  unfold xUnlock at h
  split_ifs at h
  · unfold xUnlock_to_none at h
    split_ifs at h <;> simp only [Option.some.injEq, Prod.mk.injEq, reduceCtorEq] at h <;>
      exact absurd h.2 e1
  · unfold xUnlock_to_shared at h
    split_ifs at h <;> simp only [Option.some.injEq, Prod.mk.injEq, reduceCtorEq] at h <;>
      first | exact absurd h.2 e1 | exact h.1.symm

/-- Claim C29. For every file object, calling thread and requested level, when `xLock` or
`xUnlock` returns `SQLITE_ERROR` the fields `lock_type`, `lock_task` and
`shared_locks_count` (indeed the whole file object) are as before the call; whereas `xLock`
for Exclusive at level Shared with a second reader returns `SQLITE_BUSY` having moved the level
to Pending, taken the ownership and decremented the reader count. -/
theorem lock_hard_error_changes_nothing (f : FX_FILE) (caller : Nat) (lock : Int)
    (f1 : FX_FILE)
    (h : xLock f caller lock = some (f1, SQLITE_ERROR) ∨
      xUnlock f caller lock = some (f1, SQLITE_ERROR)) :
    (f1.lock_type = f.lock_type ∧ f1.lock_task = f.lock_task ∧
      f1.shared_locks_count = f.shared_locks_count ∧ f1 = f) ∧
    xLock { blankFile with lock_type := SQLITE_LOCK_SHARED, shared_locks_count := 2 } 7
        SQLITE_LOCK_EXCLUSIVE =
      some ({ blankFile with lock_type := SQLITE_LOCK_PENDING, shared_locks_count := 1,
                             lock_task := 7 }, SQLITE_BUSY) := by
  have hf : f1 = f := by
    rcases h with h | h
    · exact xLock_error_unchanged f caller lock f1 h
    · exact xUnlock_error_unchanged f caller lock f1 h
  subst hf
  exact ⟨⟨rfl, rfl, rfl, rfl⟩, by decide⟩

/-- Witness for C29: the owner of an Exclusive lock asking for Shared gets `SQLITE_ERROR`. -/
theorem lock_hard_error_changes_nothing_witness :
    (xLock (exclusiveFile 7) 7 SQLITE_LOCK_SHARED = some (exclusiveFile 7, SQLITE_ERROR) ∨
      xUnlock (exclusiveFile 7) 7 SQLITE_LOCK_SHARED = some (exclusiveFile 7, SQLITE_ERROR)) ∧
    (exclusiveFile 7).lock_type = (exclusiveFile 7).lock_type ∧
    (exclusiveFile 7).lock_task = (exclusiveFile 7).lock_task ∧
    (exclusiveFile 7).shared_locks_count = (exclusiveFile 7).shared_locks_count ∧
    exclusiveFile 7 = exclusiveFile 7 :=
  ⟨Or.inl (by decide),
   (lock_hard_error_changes_nothing (exclusiveFile 7) 7 SQLITE_LOCK_SHARED (exclusiveFile 7)
      (Or.inl (by decide))).1⟩


lemma runCalls_append (a b : List LockCall) :
    ∀ f : FX_FILE, runCalls f (a ++ b) = (runCalls f a).bind (fun f1 => runCalls f1 b) := by
  induction a with
  | nil => intro f; rfl
  | cons c cs ih =>
    intro f
    show (match lockStep f c with
      | none => none
      | some (f1, _) => runCalls f1 (cs ++ b)) = Option.bind (match lockStep f c with
      | none => none
      | some (f1, _) => runCalls f1 cs) _
    cases lockStep f c with
    | none => rfl
    | some p => exact ih p.1

/-- Each further `xLock` for Shared at level Shared adds one to the reader count modulo 2^32,
whoever calls: `n` of them from a count `c` with `c + n ≤ 2^32` leave `(c + n) % 2^32`. -/
lemma runCalls_shared_again (t : Nat) (n : Nat) :
    ∀ (f : FX_FILE), f.lock_type = SQLITE_LOCK_SHARED → 0 < f.shared_locks_count →
      f.shared_locks_count < 2 ^ 32 → f.shared_locks_count + n ≤ 2 ^ 32 →
      runCalls f (List.replicate n (LockCall.lock t SQLITE_LOCK_SHARED)) =
        some { f with shared_locks_count := (f.shared_locks_count + n) % 2 ^ 32 } := by
  induction n with
  | zero =>
    intro f _ _ hlt _
    have e : (f.shared_locks_count + 0) % 2 ^ 32 = f.shared_locks_count :=
      Nat.mod_eq_of_lt hlt
    rw [e]
    rfl
  | succ n ih =>
    intro f hl hpos hlt hb
    have hne : ¬ f.lock_type = SQLITE_LOCK_NONE := by rw [hl]; decide
    have hstep : lockStep f (LockCall.lock t SQLITE_LOCK_SHARED) =
        some ({ f with shared_locks_count := u32_inc f.shared_locks_count }, SQLITE_OK) := by
      show xLock f t SQLITE_LOCK_SHARED = _
      unfold xLock
      rw [if_neg (by decide), if_neg hne, if_pos hl]
      unfold xLock_from_shared
      rw [if_neg (by omega), if_pos rfl]
    show (match lockStep f (LockCall.lock t SQLITE_LOCK_SHARED) with
      | none => none
      | some (f1, _) => runCalls f1 (List.replicate n (LockCall.lock t SQLITE_LOCK_SHARED))) = _
    rw [hstep]
    by_cases hn : n = 0
    · subst hn
      show some _ = some _
      unfold u32_inc
      rfl
    · have hinc : u32_inc f.shared_locks_count = f.shared_locks_count + 1 :=
        u32_inc_of_lt _ (by omega)
      have hrec := ih { f with shared_locks_count := u32_inc f.shared_locks_count } hl
        (by show 0 < u32_inc f.shared_locks_count; omega)
        (by show u32_inc f.shared_locks_count < 2 ^ 32; omega)
        (by show u32_inc f.shared_locks_count + n ≤ 2 ^ 32; omega)
      show runCalls { f with shared_locks_count := u32_inc f.shared_locks_count }
        (List.replicate n (LockCall.lock t SQLITE_LOCK_SHARED)) = _
      rw [hrec]
      show some { f with shared_locks_count := (u32_inc f.shared_locks_count + n) % 2 ^ 32 } = _
      rw [hinc, Nat.add_right_comm, Nat.add_assoc]

/-- From the state `xOpen` creates at level None, `n + 1` calls of `xLock` for Shared with
`n + 1 ≤ 2^32` leave level Shared with the count `(n + 1) % 2^32`. -/
lemma runCalls_shared_from_none (t : Nat) (n : Nat) (hn : n + 1 ≤ 2 ^ 32) :
    runCalls (xOpen_init_locks blankFile 0 false 9)
        (List.replicate (n + 1) (LockCall.lock t SQLITE_LOCK_SHARED)) =
      some { blankFile with open_count := 1, lock_type := SQLITE_LOCK_SHARED,
                            shared_locks_count := (n + 1) % 2 ^ 32 } := by
  have hstep : lockStep (xOpen_init_locks blankFile 0 false 9)
      (LockCall.lock t SQLITE_LOCK_SHARED) =
      some ({ blankFile with open_count := 1, lock_type := SQLITE_LOCK_SHARED,
                             shared_locks_count := 1 }, SQLITE_OK) := by
    rfl
  rw [List.replicate_succ]
  have hcons : ∀ (f : FX_FILE) (c : LockCall) (cs : List LockCall),
      runCalls f (c :: cs) = match lockStep f c with
        | none => none
        | some (f1, _) => runCalls f1 cs := fun _ _ _ => rfl
  rw [hcons, hstep]
  have h := runCalls_shared_again t n
    { blankFile with open_count := 1, lock_type := SQLITE_LOCK_SHARED, shared_locks_count := 1 }
    rfl (by decide) (by decide) (by show 1 + n ≤ 2 ^ 32; omega)
  show runCalls { blankFile with open_count := 1, lock_type := SQLITE_LOCK_SHARED,
                                 shared_locks_count := 1 }
    (List.replicate n (LockCall.lock t SQLITE_LOCK_SHARED)) = _
  rw [h]
  show some { blankFile with open_count := 1, lock_type := SQLITE_LOCK_SHARED,
                             shared_locks_count := (1 + n) % 2 ^ 32 } = _
  rw [Nat.add_comm 1 n]

/-- Counterexample for C28. After 2^32 calls of `xLock` for Shared on a handle created at level
None, the level is Shared and the 32-bit reader count has wrapped to 0; the next `xUnlock` then
fails its assertion `shared_locks_count > 0`. -/
theorem reader_count_wraps_at_level_shared :
    runCalls (xOpen_init_locks blankFile 0 false 9)
        (List.replicate (2 ^ 32) (LockCall.lock 1 SQLITE_LOCK_SHARED)) =
      some { blankFile with open_count := 1, lock_type := SQLITE_LOCK_SHARED,
                            shared_locks_count := 0 } ∧
    runCalls (xOpen_init_locks blankFile 0 false 9)
        (List.replicate (2 ^ 32) (LockCall.lock 1 SQLITE_LOCK_SHARED) ++
          [LockCall.unlock 1 SQLITE_LOCK_NONE]) = none := by
  have h1 := runCalls_shared_from_none 1 (2 ^ 32 - 1) (by norm_num)
  have e : (2 : Nat) ^ 32 - 1 + 1 = 2 ^ 32 := by norm_num
  have e2 : (2 : Nat) ^ 32 % 2 ^ 32 = 0 := by norm_num
  rw [e, e2] at h1
  refine ⟨h1, ?_⟩
  rw [runCalls_append, h1]
  rfl

/-- Claim C28, amended. From either state `xOpen` creates, every sequence of fewer than
`2 ^ 32` calls of `xLock` (levels Shared to Exclusive) and `xUnlock` (to None or Shared)
completes, so no assertion of `xLock` or `xUnlock` fails on the way, and in the state reached
the reader count is 0 at level None, positive at level Shared and 0 at level Exclusive; the
count is at most the number of calls made, so it has not wrapped. -/
theorem lock_levels_bound_reader_count
    (f : FX_FILE) (flags : Nat) (zNameIsNull : Bool) (creator : Nat)
    (cs : List LockCall) (hv : ∀ c ∈ cs, c.valid = true) (hlen : cs.length < 2 ^ 32) :
    ((xOpen_init_locks f flags zNameIsNull creator).shared_locks_count = 0 ∧
      ((xOpen_init_locks f flags zNameIsNull creator).lock_type = SQLITE_LOCK_NONE ∨
       (xOpen_init_locks f flags zNameIsNull creator).lock_type = SQLITE_LOCK_EXCLUSIVE)) ∧
    ∃ f1, runCalls (xOpen_init_locks f flags zNameIsNull creator) cs = some f1 ∧
      (f1.lock_type = SQLITE_LOCK_NONE → f1.shared_locks_count = 0) ∧
      (f1.lock_type = SQLITE_LOCK_SHARED → 0 < f1.shared_locks_count) ∧
      (f1.lock_type = SQLITE_LOCK_EXCLUSIVE → f1.shared_locks_count = 0) ∧
      f1.shared_locks_count ≤ cs.length := by
  obtain ⟨hinv0, hc0⟩ := xOpen_init_locks_lockInv f flags zNameIsNull creator
  obtain ⟨f1, hrun, ⟨-, hn, hs, hx⟩, hle⟩ := runCalls_lockInv cs _ hv hinv0 (by omega)
  refine ⟨⟨hc0, ?_⟩, f1, hrun, hn, hs, hx, by omega⟩
  unfold xOpen_init_locks
  split_ifs
  · right; rfl
  · left; rfl

/-- Witness for C28: a reader arrives and leaves on a handle created at level None. -/
theorem lock_levels_bound_reader_count_witness :
    runCalls (xOpen_init_locks blankFile 0 false 9)
        [LockCall.lock 1 SQLITE_LOCK_SHARED, LockCall.lock 2 SQLITE_LOCK_SHARED,
         LockCall.unlock 1 SQLITE_LOCK_NONE] =
      some { blankFile with open_count := 1, lock_type := SQLITE_LOCK_SHARED,
                            shared_locks_count := 1 } ∧
    ∃ f1, runCalls (xOpen_init_locks blankFile 0 false 9)
        [LockCall.lock 1 SQLITE_LOCK_SHARED, LockCall.lock 2 SQLITE_LOCK_SHARED,
         LockCall.unlock 1 SQLITE_LOCK_NONE] = some f1 ∧
      (f1.lock_type = SQLITE_LOCK_NONE → f1.shared_locks_count = 0) ∧
      (f1.lock_type = SQLITE_LOCK_SHARED → 0 < f1.shared_locks_count) ∧
      (f1.lock_type = SQLITE_LOCK_EXCLUSIVE → f1.shared_locks_count = 0) ∧
      f1.shared_locks_count ≤ 3 :=
  ⟨by decide,
   (lock_levels_bound_reader_count blankFile 0 false 9
      [LockCall.lock 1 SQLITE_LOCK_SHARED, LockCall.lock 2 SQLITE_LOCK_SHARED,
       LockCall.unlock 1 SQLITE_LOCK_NONE] (by decide) (by decide)).2⟩

end SqliteAzure

namespace MplibStorage

/-! ## Theorems: the ingestion pipeline -/

/-! ### The staging buffers -/

lemma succ_div_mod_lt (C n : Nat) (hC : 0 < C) (h : n % C + 1 < C) :
    (n + 1) / C = n / C ∧ (n + 1) % C = n % C + 1 := by
  have e : n + 1 = C * (n / C) + (n % C + 1) := by
    have := Nat.div_add_mod n C
    omega
  constructor
  · rw [e, Nat.mul_add_div hC, Nat.div_eq_of_lt h, Nat.add_zero]
  · rw [e, Nat.mul_add_mod, Nat.mod_eq_of_lt h]

lemma succ_div_mod_eq (C n : Nat) (hC : 0 < C) (h : n % C + 1 = C) :
    (n + 1) / C = n / C + 1 ∧ (n + 1) % C = 0 := by
  have e : n + 1 = C * (n / C) + C := by
    have := Nat.div_add_mod n C
    omega
  constructor
  · rw [e, Nat.mul_add_div hC, Nat.div_self hC]
  · rw [e, Nat.mul_add_mod, Nat.mod_self]

lemma captureMany_succ (C : Nat) (between : Nat → Nat) (log : Nat → DS_LOG_STRUCT) (n : Nat)
    (s : Staging) :
    captureMany C between log (n + 1) s =
      match captureMany C between log n s with
      | Capture.done s1 => captureLog C between s1 (log n)
      | Capture.blocked s1 => Capture.blocked s1 := rfl

lemma captureLog_fill (C : Nat) (between : Nat → Nat) (s : Staging) (log : DS_LOG_STRUCT)
    (h : s.current_index < C) :
    captureLog C between s log = Capture.done (s.store log) := by
  unfold captureLog
  rw [if_neg (by omega)]

lemma captureLog_swap (C : Nat) (between : Nat → Nat) (s : Staging) (log : DS_LOG_STRUCT)
    (q : Nat) (h : C ≤ s.current_index)
    (ha : s.active_fill_buffer =
      if q % 2 = 0 then Buffer.psram_buffer_A else Buffer.psram_buffer_B)
    (hf : between (s.staging_events ||| readyFlagOf q) &&& freeFlagOf q = freeFlagOf q) :
    captureLog C between s log = Capture.done (Staging.store
      { s with
        staging_events :=
          between (s.staging_events ||| readyFlagOf q) &&& (0xFFFFFFFF ^^^ freeFlagOf q)
        active_fill_buffer :=
          if (q + 1) % 2 = 0 then Buffer.psram_buffer_A else Buffer.psram_buffer_B
        current_index := 0
        signalled := s.signalled ++ [readyFlagOf q] } log) := by
  unfold captureLog
  rw [if_pos h]
  by_cases hq : q % 2 = 0
  · have hq1 : (q + 1) % 2 ≠ 0 := by omega
    simp only [readyFlagOf, freeFlagOf, hq, if_true] at hf ha ⊢
    simp only [ha, if_true, hf, hq1, if_false]
  · have hq1 : (q + 1) % 2 = 0 := by omega
    simp only [readyFlagOf, freeFlagOf, hq, if_false] at hf ha ⊢
    have e : (FLAG_BUF_B_READY = FLAG_BUF_A_READY) = False := by decide
    simp only [ha, hf, hq1, if_true, e, if_false, reduceCtorEq]

lemma captureLog_blocks (C : Nat) (between : Nat → Nat) (s : Staging) (log : DS_LOG_STRUCT)
    (q : Nat) (h : C ≤ s.current_index)
    (ha : s.active_fill_buffer =
      if q % 2 = 0 then Buffer.psram_buffer_A else Buffer.psram_buffer_B)
    (hf : between (s.staging_events ||| readyFlagOf q) &&& freeFlagOf q ≠ freeFlagOf q) :
    captureLog C between s log = Capture.blocked
      { s with
        staging_events := between (s.staging_events ||| readyFlagOf q)
        signalled := s.signalled ++ [readyFlagOf q] } := by
  unfold captureLog
  rw [if_pos h]
  by_cases hq : q % 2 = 0
  · simp only [readyFlagOf, freeFlagOf, hq, if_true] at hf ha ⊢
    simp only [ha, if_true, hf, if_false]
  · simp only [readyFlagOf, freeFlagOf, hq, if_false] at hf ha ⊢
    have e : (FLAG_BUF_B_READY = FLAG_BUF_A_READY) = False := by decide
    simp only [ha, hf, e, if_false, reduceCtorEq]

/-- The cycle of `captureLog`: as long as the free flag waited for at each swap is set (after
the other threads have run), call number `n + 1` ends with the cursor behind slot `n % C` of
buffer A or B (by the parity of `n / C`), that slot holding record `n` with its
`local_log_index` set to the slot, the flags being `fl (n / C)`, and one ready flag signalled
per swap. -/
lemma captureMany_cycle (C : Nat) (hC : 0 < C) (hC32 : C < 2 ^ 32) (between : Nat → Nat)
    (log : Nat → DS_LOG_STRUCT) (fl : Nat → Nat) (N : Nat) (h0 : fl 0 = init.staging_events)
    (hstep : ∀ q, q < N →
      between (fl q ||| readyFlagOf q) &&& freeFlagOf q = freeFlagOf q ∧
      fl (q + 1) = between (fl q ||| readyFlagOf q) &&& (0xFFFFFFFF ^^^ freeFlagOf q)) :
    ∀ n, n / C ≤ N → ∃ s, captureMany C between log (n + 1) init = Capture.done s ∧
      s.current_index = n % C + 1 ∧
      s.active_fill_buffer =
        (if (n / C) % 2 = 0 then Buffer.psram_buffer_A else Buffer.psram_buffer_B) ∧
      s.staging_events = fl (n / C) ∧
      s.signalled = (List.range (n / C)).map readyFlagOf ∧
      s.active (n % C) = { log n with local_log_index := n % C } := by
  intro n
  induction n with
  | zero =>
    intro _
    refine ⟨init.store (log 0), ?_, ?_⟩
    · show (match captureMany C between log 0 init with
        | Capture.done s1 => captureLog C between s1 (log 0)
        | Capture.blocked s1 => Capture.blocked s1) = _
      show captureLog C between init (log 0) = _
      exact captureLog_fill C between init (log 0) hC
    · simp [Staging.store, Staging.active, init, h0, Nat.div_eq_of_lt hC]
  | succ n ih =>
    intro hN
    have hdm : n % C + 1 < C ∨ n % C + 1 = C := by
      have := Nat.mod_lt n hC
      omega
    have hle : n / C ≤ (n + 1) / C := Nat.div_le_div_right (Nat.le_succ n)
    obtain ⟨s, hs, hidx, hact, hfl, hsig, -⟩ := ih (le_trans hle hN)
    have hrun : captureMany C between log (n + 1 + 1) init =
        captureLog C between s (log (n + 1)) := by
      show (match captureMany C between log (n + 1) init with
        | Capture.done s1 => captureLog C between s1 (log (n + 1))
        | Capture.blocked s1 => Capture.blocked s1) = _
      rw [hs]
    rw [hrun]
    rcases hdm with hlt | heq
    · obtain ⟨hd, hm⟩ := succ_div_mod_lt C n hC hlt
      rw [hd, hm]
      refine ⟨s.store (log (n + 1)), captureLog_fill C between s _ (by omega), ?_⟩
      have hw : n % C + 1 + 1 < 4294967296 := by norm_num at hC32; omega
      by_cases hq : n / C % 2 = 0
      · rw [if_pos hq] at hact ⊢
        simp [Staging.store, Staging.active, hact, hidx, hfl, hsig, hw]
      · rw [if_neg hq] at hact ⊢
        simp [Staging.store, Staging.active, hact, hidx, hfl, hsig, hw]
    · obtain ⟨hd, hm⟩ := succ_div_mod_eq C n hC heq
      rw [hd] at hN
      obtain ⟨hfree, hnext⟩ := hstep (n / C) (by omega)
      rw [hd, hm]
      rw [← hfl] at hfree hnext
      refine ⟨_, captureLog_swap C between s _ (n / C) (by omega) hact hfree, ?_⟩
      by_cases hq : (n / C + 1) % 2 = 0
      · simp [Staging.store, Staging.active, hq, hnext, hsig, List.range_succ]
      · simp [Staging.store, Staging.active, hq, hnext, hsig, List.range_succ]

/-- Without a consumer the flags go from 12 (`init`) to 5 at the first swap and to 3 at the
second: both swaps find the free flag they wait for, the third does not. -/
lemma captureMany_neverConsumes (C : Nat) (hC : 0 < C) (hC32 : C < 2 ^ 32)
    (log : Nat → DS_LOG_STRUCT) (n : Nat) (hn : n / C ≤ 2) :
    ∃ s, captureMany C neverConsumes log (n + 1) init = Capture.done s ∧
      s.current_index = n % C + 1 ∧
      s.active_fill_buffer =
        (if (n / C) % 2 = 0 then Buffer.psram_buffer_A else Buffer.psram_buffer_B) ∧
      s.staging_events = (if n / C = 0 then 12 else if n / C = 1 then 5 else 3) ∧
      s.signalled = (List.range (n / C)).map readyFlagOf ∧
      s.active (n % C) = { log n with local_log_index := n % C } := by
  refine captureMany_cycle C hC hC32 neverConsumes log
    (fun q => if q = 0 then 12 else if q = 1 then 5 else 3) 2 (by decide) ?_ n hn
  intro q hq
  interval_cases q <;> decide

/-- With a consumer that takes each ready buffer at once the flags are 12 before the first
swap, 4 after an odd number of swaps and 8 after an even one: every swap finds its free flag. -/
lemma captureMany_consumesAtOnce (C : Nat) (hC : 0 < C) (hC32 : C < 2 ^ 32)
    (log : Nat → DS_LOG_STRUCT) (n : Nat) :
    ∃ s, captureMany C consumesAtOnce log (n + 1) init = Capture.done s ∧
      s.current_index = n % C + 1 ∧
      s.active_fill_buffer =
        (if (n / C) % 2 = 0 then Buffer.psram_buffer_A else Buffer.psram_buffer_B) ∧
      s.staging_events = (if n / C = 0 then 12 else if (n / C) % 2 = 1 then 4 else 8) ∧
      s.signalled = (List.range (n / C)).map readyFlagOf ∧
      s.active (n % C) = { log n with local_log_index := n % C } := by
  refine captureMany_cycle C hC hC32 consumesAtOnce log
    (fun q => if q = 0 then 12 else if q % 2 = 1 then 4 else 8) (n / C) (by decide) ?_ n
    (le_refl _)
  intro q _
  by_cases h0 : q = 0
  · subst h0; decide
  · by_cases h1 : q % 2 = 1
    · have h2 : (q + 1) % 2 ≠ 1 := by omega
      have h3 : q % 2 ≠ 0 := by omega
      simp only [readyFlagOf, freeFlagOf, h0, h1, h2, h3, if_true, if_false,
        Nat.succ_ne_zero]
      decide
    · have h2 : (q + 1) % 2 = 1 := by omega
      have h3 : q % 2 = 0 := by omega
      simp only [readyFlagOf, freeFlagOf, h0, h1, h2, h3, if_true, if_false,
        Nat.succ_ne_zero]
      decide

lemma stagingRun_captures (C : Nat) (log : Nat → DS_LOG_STRUCT) (s0 : Staging) :
    ∀ n, stagingRun C ((List.range n).map (fun k => StagingStep.captureLog (log k))) s0 =
      match captureMany C neverConsumes log n s0 with
      | Capture.done s => some s
      | Capture.blocked _ => none := by
  intro n
  induction n with
  | zero => rfl
  | succ n ih =>
    unfold stagingRun at ih ⊢
    rw [List.range_succ, List.map_append, List.foldl_append, ih]
    show _ = match (match captureMany C neverConsumes log n s0 with
        | Capture.done s1 => captureLog C neverConsumes s1 (log n)
        | Capture.blocked s1 => Capture.blocked s1) with
      | Capture.done s => some s
      | Capture.blocked _ => none
    cases captureMany C neverConsumes log n s0 with
    | done s1 => rfl
    | blocked s1 => rfl

/-- Claim C16 (code evaluated at the failing input). From the state `init` leaves, with a
consumer that never runs, call number `2 * LOGS_PER_BUFFER + 1` of `captureLog` does not block:
the flag `FLAG_BUF_A_FREE` it waits for is still set from `init`, so it swaps back to buffer A
and overwrites slot 0 of it while `FLAG_BUF_A_READY` is set; the call that blocks is number
`3 * LOGS_PER_BUFFER + 1`. -/
theorem captureLog_blocks_one_buffer_late (log : Nat → DS_LOG_STRUCT) :
    (∃ s, captureMany LOGS_PER_BUFFER neverConsumes log (2 * LOGS_PER_BUFFER + 1) init =
        Capture.done s ∧
      s.active_fill_buffer = Buffer.psram_buffer_A ∧ s.current_index = 1 ∧
      s.staging_events = FLAG_BUF_A_READY ||| FLAG_BUF_B_READY ∧
      s.signalled = [FLAG_BUF_A_READY, FLAG_BUF_B_READY] ∧
      s.buffer_A 0 = { log (2 * LOGS_PER_BUFFER) with local_log_index := 0 }) ∧
    (∃ s, captureMany LOGS_PER_BUFFER neverConsumes log (3 * LOGS_PER_BUFFER + 1) init =
        Capture.blocked s ∧
      s.staging_events &&& FLAG_BUF_B_FREE = 0) := by
  constructor
  · obtain ⟨s, hs, hidx, hact, hfl, hsig, hrec⟩ :=
      captureMany_neverConsumes LOGS_PER_BUFFER (by decide) (by decide) log
        (2 * LOGS_PER_BUFFER) (by decide)
    have hq : 2 * LOGS_PER_BUFFER / LOGS_PER_BUFFER = 2 := by decide
    have hr : 2 * LOGS_PER_BUFFER % LOGS_PER_BUFFER = 0 := by decide
    rw [hq] at hact hfl hsig
    rw [hr] at hidx hrec
    refine ⟨s, hs, hact, hidx, hfl, hsig, ?_⟩
    unfold Staging.active at hrec
    rw [hact] at hrec
    exact hrec
  · obtain ⟨s, hs, hidx, hact, hfl, hsig, -⟩ :=
      captureMany_neverConsumes LOGS_PER_BUFFER (by decide) (by decide) log
        (3 * LOGS_PER_BUFFER - 1) (by decide)
    have hq : (3 * LOGS_PER_BUFFER - 1) / LOGS_PER_BUFFER = 2 := by decide
    have hr : (3 * LOGS_PER_BUFFER - 1) % LOGS_PER_BUFFER + 1 = LOGS_PER_BUFFER := by decide
    rw [hq] at hact hfl
    rw [hr] at hidx
    have e : 3 * LOGS_PER_BUFFER + 1 = 3 * LOGS_PER_BUFFER - 1 + 1 + 1 := by decide
    have hrun : captureMany LOGS_PER_BUFFER neverConsumes log (3 * LOGS_PER_BUFFER + 1) init =
        captureLog LOGS_PER_BUFFER neverConsumes s (log (3 * LOGS_PER_BUFFER - 1 + 1)) := by
      rw [e, captureMany_succ, hs]
    rw [hrun, captureLog_blocks LOGS_PER_BUFFER neverConsumes s _ 2 (by omega) hact
      (by rw [hfl]; decide)]
    refine ⟨_, rfl, ?_⟩
    show neverConsumes (s.staging_events ||| readyFlagOf 2) &&& FLAG_BUF_B_FREE = 0
    rw [hfl]
    decide

/-- Claim C17 (code evaluated at the failing input). After `LOGS_PER_BUFFER + 1` steps of
`captureLog` from the state `init` leaves, `FLAG_BUF_A_READY` and `FLAG_BUF_A_FREE` are both
set (the flags are 5): buffer A is signalled full while its free flag from `init` has never
been taken. -/
theorem buffer_A_ready_and_free_together (log : Nat → DS_LOG_STRUCT) :
    ∃ s, stagingRun LOGS_PER_BUFFER
        ((List.range (LOGS_PER_BUFFER + 1)).map (fun k => StagingStep.captureLog (log k)))
        init = some s ∧
      s.staging_events = FLAG_BUF_A_READY ||| FLAG_BUF_A_FREE ∧
      s.staging_events &&& FLAG_BUF_A_READY ≠ 0 ∧ s.staging_events &&& FLAG_BUF_A_FREE ≠ 0 := by
  obtain ⟨s, hs, -, -, hfl, -, -⟩ :=
    captureMany_neverConsumes LOGS_PER_BUFFER (by decide) (by decide) log LOGS_PER_BUFFER
      (by decide)
  have hq : LOGS_PER_BUFFER / LOGS_PER_BUFFER = 1 := by decide
  rw [hq] at hfl
  refine ⟨s, ?_, ?_⟩
  · rw [stagingRun_captures, hs]
  · rw [hfl]
    decide

/-- Claim C18. For every capacity `C` with `1 ≤ C` (below 2^32, the range of the cursor) and
every `n ≥ 1`, with a consumer that takes each ready buffer at once, the first `n` calls of
`captureLog` return, and record `n` lies at slot `(n - 1) % C` of buffer A when `(n - 1) / C`
is even and of buffer B when it is odd, equal to the record passed in except that its
`local_log_index` is that slot; one ready flag has been signalled per completed buffer. With
`C = 4`: buffer A is active with no signal after record 4, buffer B after record 5 (one
signal), still B after record 8, and after record 9 buffer A is active again with its slot 0
just written and exactly two buffers signalled. -/
theorem captureLog_keeps_order_and_swaps_on_full (C n : Nat) (log : Nat → DS_LOG_STRUCT)
    (hC : 1 ≤ C) (hC32 : C < 2 ^ 32) (hn : 1 ≤ n) :
    (∃ s, captureMany C consumesAtOnce log n init = Capture.done s ∧
      s.active_fill_buffer =
        (if ((n - 1) / C) % 2 = 0 then Buffer.psram_buffer_A else Buffer.psram_buffer_B) ∧
      (if ((n - 1) / C) % 2 = 0 then s.buffer_A else s.buffer_B) ((n - 1) % C) =
        { log (n - 1) with local_log_index := (n - 1) % C } ∧
      s.current_index = (n - 1) % C + 1 ∧
      s.signalled = (List.range ((n - 1) / C)).map readyFlagOf) ∧
    (∃ s, captureMany 4 consumesAtOnce log 4 init = Capture.done s ∧
      s.active_fill_buffer = Buffer.psram_buffer_A ∧ s.current_index = 4 ∧ s.signalled = []) ∧
    (∃ s, captureMany 4 consumesAtOnce log 5 init = Capture.done s ∧
      s.active_fill_buffer = Buffer.psram_buffer_B ∧ s.current_index = 1 ∧
      s.signalled = [FLAG_BUF_A_READY]) ∧
    (∃ s, captureMany 4 consumesAtOnce log 8 init = Capture.done s ∧
      s.active_fill_buffer = Buffer.psram_buffer_B ∧ s.current_index = 4 ∧
      s.signalled = [FLAG_BUF_A_READY]) ∧
    (∃ s, captureMany 4 consumesAtOnce log 9 init = Capture.done s ∧
      s.active_fill_buffer = Buffer.psram_buffer_A ∧ s.current_index = 1 ∧
      s.buffer_A 0 = { log 8 with local_log_index := 0 } ∧
      s.signalled = [FLAG_BUF_A_READY, FLAG_BUF_B_READY]) := by
  refine ⟨?_, ?_, ?_, ?_, ?_⟩
  · obtain ⟨s, hs, hidx, hact, -, hsig, hrec⟩ :=
      captureMany_consumesAtOnce C hC hC32 log (n - 1)
    have e : n - 1 + 1 = n := by omega
    rw [e] at hs
    refine ⟨s, hs, hact, ?_, hidx, hsig⟩
    unfold Staging.active at hrec
    rw [hact] at hrec
    by_cases hq : (n - 1) / C % 2 = 0
    · rw [if_pos hq] at hrec ⊢; exact hrec
    · rw [if_neg hq] at hrec ⊢; exact hrec
  · obtain ⟨s, hs, hidx, hact, -, hsig, -⟩ :=
      captureMany_consumesAtOnce 4 (by decide) (by decide) log 3
    exact ⟨s, hs, hact, hidx, hsig⟩
  · obtain ⟨s, hs, hidx, hact, -, hsig, -⟩ :=
      captureMany_consumesAtOnce 4 (by decide) (by decide) log 4
    exact ⟨s, hs, hact, hidx, hsig⟩
  · obtain ⟨s, hs, hidx, hact, -, hsig, -⟩ :=
      captureMany_consumesAtOnce 4 (by decide) (by decide) log 7
    exact ⟨s, hs, hact, hidx, hsig⟩
  · obtain ⟨s, hs, hidx, hact, -, hsig, hrec⟩ :=
      captureMany_consumesAtOnce 4 (by decide) (by decide) log 8
    refine ⟨s, hs, hact, hidx, ?_, hsig⟩
    unfold Staging.active at hrec
    have hact1 : s.active_fill_buffer = Buffer.psram_buffer_A := hact
    rw [hact1] at hrec
    exact hrec

/-- Witness for C18: capacity 4 and record 9, which lies at slot 0 of buffer A. -/
theorem captureLog_keeps_order_and_swaps_on_full_witness :
    (1 ≤ 4 ∧ 4 < 2 ^ 32 ∧ 1 ≤ 9) ∧
    ∃ s, captureMany 4 consumesAtOnce testLog 9 init = Capture.done s ∧
      s.active_fill_buffer =
        (if ((9 - 1) / 4) % 2 = 0 then Buffer.psram_buffer_A else Buffer.psram_buffer_B) ∧
      (if ((9 - 1) / 4) % 2 = 0 then s.buffer_A else s.buffer_B) ((9 - 1) % 4) =
        { testLog (9 - 1) with local_log_index := (9 - 1) % 4 } ∧
      s.current_index = (9 - 1) % 4 + 1 ∧
      s.signalled = (List.range ((9 - 1) / 4)).map readyFlagOf :=
  ⟨by decide,
   (captureLog_keeps_order_and_swaps_on_full 4 9 testLog (by decide) (by decide)
      (by decide)).1⟩


/-! ### The staged strategy -/

/-- A row refused with a status other than `SQLITE_NOMEM` is skipped and the loop goes on with
the next row, whatever the error code: the critical-error exit is not taken. -/
lemma ingestRows_skips_refused_row (env : IngestEnv) (chunk remaining i chunk_skipped : Nat)
    (events : List IngestEvent) (h1 : env.step_status chunk i ≠ SQLITE_DONE)
    (h2 : env.step_status chunk i ≠ SQLITE_NOMEM) :
    ingestRows env chunk (remaining + 1) i chunk_skipped events =
      ingestRows env chunk remaining (i + 1) (chunk_skipped + 1)
        (events ++ [IngestEvent.bindAndStep chunk i]) := by
  have h3 : ¬ (env.step_status chunk i = SQLITE_NOMEM ∨ env.step_status chunk i = 7) := by
    rintro (h | h)
    · exact h2 h
    · exact h2 h
  rw [ingestRows]
  simp only [h1, h3, ne_eq, not_false_eq_true, if_true, if_false]

/-- Claim C19 (code evaluated at the failing input). A raw file of one chunk of three rows whose
second row makes `bindAndStep` return `SQLITE_CORRUPT` with error code `SQLITE_CORRUPT`:
`ingestRawToSQLite` skips that row, inserts the third row, commits the chunk, deletes the raw
file and returns `true`; there is no `ROLLBACK` and `recoverDatabase` is not run. -/
theorem ingestRawToSQLite_skips_corrupt_row :
    ingestRawToSQLite corruptRowEnv 3 = some
      { returned := true
        total_logs_skipped := 1
        successful_chunks := 1
        events := [IngestEvent.fx_file_open, IngestEvent.fx_file_read 0,
          IngestEvent.begin_transaction 0, IngestEvent.bindAndStep 0 0,
          IngestEvent.bindAndStep 0 1, IngestEvent.bindAndStep 0 2, IngestEvent.commit 0,
          IngestEvent.release_memory, IngestEvent.fx_file_read 1, IngestEvent.fx_file_close,
          IngestEvent.fx_media_flush, IngestEvent.fx_file_delete] } := by
  decide

set_option maxRecDepth 4000 in
/-- The queue after 41 successful passes of `work` and no pass of `ingestor`. -/
lemma queueRun_41_work :
    queueRun (List.replicate 41 (QueueStep.work FX_SUCCESS)) queueInit = some
      { produce_idx := 41, consume_idx := 0, sem_raw_files := 41, simulator_suspended := true,
        written := List.range 40 ++ [0], ingested := [] } := by
  decide

/-- Claim C20 (code evaluated at the failing input). After 41 passes of `work` whose writes
succeed and no pass of `ingestor`, the occupancy `produce_idx - consume_idx` is 41: the 41st
pass finds the queue full, suspends the simulator and still writes `batch_0.raw` again, which
has not been ingested. -/
theorem work_fills_queue_beyond_MAX_RAW_FILES :
    ∃ q, queueRun (List.replicate 41 (QueueStep.work FX_SUCCESS)) queueInit = some q ∧
      q.occupancy = 41 ∧ MAX_RAW_FILES < q.occupancy ∧ q.produce_idx = 41 ∧ q.consume_idx = 0 ∧
      q.simulator_suspended = true ∧ q.written = List.range 40 ++ [0] ∧ q.ingested = [] :=
  ⟨_, queueRun_41_work, by decide⟩

/-! ### Queue full, file names, event flags of `work` -/

set_option maxRecDepth 4000 in
/-- The queue after 40 successful passes of `work`, a 41st pass whose write fails, and one pass
of `ingestor` whose file is skipped. -/
lemma queueRun_full_then_skip :
    queueRun (List.replicate 40 (QueueStep.work FX_SUCCESS) ++
        [QueueStep.work 0x90, QueueStep.ingestor false]) queueInit = some
      { produce_idx := 40, consume_idx := 1, sem_raw_files := 39, simulator_suspended := true,
        written := List.range 40 ++ [0], ingested := [0] } := by
  decide

/-- Claim C22 (code evaluated at the failing input). The queue is full (40 files) and the
simulator has been suspended by `work`; the ingestor consumes one file and skips it
(`ingestRawToSQLite` returns `false`): `consume_idx` advances, the occupancy is 39, below
`MAX_RAW_FILES`, and the simulator is still suspended when the ingestor goes back to wait for
the next file. -/
theorem ingestor_skip_does_not_resume_simulator :
    ∃ q, queueRun (List.replicate 40 (QueueStep.work FX_SUCCESS) ++
        [QueueStep.work 0x90, QueueStep.ingestor false]) queueInit = some q ∧
      q.consume_idx = 1 ∧ q.occupancy = 39 ∧ q.occupancy < MAX_RAW_FILES ∧
      q.simulator_suspended = true :=
  ⟨_, queueRun_full_then_skip, by decide⟩

/-- When the file is ingested (`ingestRawToSQLite` returns `true`) the pass does resume the
simulator once the occupancy is below `MAX_RAW_FILES`. -/
lemma ingestor_success_resumes (q q1 : RawQueue) (h : ingestor q true = some q1)
    (hocc : q1.occupancy < MAX_RAW_FILES) : q1.simulator_suspended = false := by
  unfold ingestor at h
  by_cases h0 : q.sem_raw_files = 0
  · rw [if_pos h0] at h
    exact absurd h (by simp)
  · rw [if_neg h0] at h
    simp only [if_true, Option.some.injEq] at h
    subst h
    split_ifs at hocc ⊢ with h1
    · rfl
    · exact absurd hocc h1

/-- When the file is skipped the pass leaves `simulator_suspended` as it was. -/
lemma ingestor_skip_keeps_suspended (q q1 : RawQueue) (h : ingestor q false = some q1) :
    q1.simulator_suspended = q.simulator_suspended := by
  unfold ingestor at h
  by_cases h0 : q.sem_raw_files = 0
  · rw [if_pos h0] at h
    exact absurd h (by simp)
  · rw [if_neg h0] at h
    simp only [Bool.false_eq_true, if_false, Option.some.injEq] at h
    subst h
    rfl

/-- The pass of `work` leaves both free flags as they were: the only thing it does to the event
flags is to clear the two ready bits. -/
lemma work_pass_keeps_free_flags (flags : Nat) (q : RawQueue) (write_status : Nat)
    (flags1 : Nat) (b : Buffer) (q1 : RawQueue)
    (h : work_pass flags q write_status = some (flags1, b, q1)) :
    flags1 &&& FLAG_BUF_A_FREE = flags &&& FLAG_BUF_A_FREE ∧
    flags1 &&& FLAG_BUF_B_FREE = flags &&& FLAG_BUF_B_FREE ∧
    flags1 &&& FLAG_BUF_A_READY = 0 ∧ flags1 &&& FLAG_BUF_B_READY = 0 := by
  unfold work_pass work_wait at h
  by_cases h0 : flags &&& 0x03 = 0
  · rw [if_pos h0] at h
    exact absurd h (by simp)
  · rw [if_neg h0] at h
    simp only [Option.some.injEq, Prod.mk.injEq] at h
    obtain ⟨rfl, -, -⟩ := h
    have e1 : (0xFFFFFFFF ^^^ 0x03) &&& FLAG_BUF_A_FREE = FLAG_BUF_A_FREE := by decide
    have e2 : (0xFFFFFFFF ^^^ 0x03) &&& FLAG_BUF_B_FREE = FLAG_BUF_B_FREE := by decide
    have e3 : (0xFFFFFFFF ^^^ 0x03) &&& FLAG_BUF_A_READY = 0 := by decide
    have e4 : (0xFFFFFFFF ^^^ 0x03) &&& FLAG_BUF_B_READY = 0 := by decide
    rw [Nat.land_assoc, Nat.land_assoc, Nat.land_assoc, Nat.land_assoc, e1, e2, e3, e4]
    exact ⟨rfl, rfl, Nat.and_zero _, Nat.and_zero _⟩

/-- Claim C21 (code evaluated at the failing input). Buffer A is ready and no free flag is set
(`staging_events == 0x01`); the pass of `work` drains buffer A to `batch_0.raw`, the write
succeeding, advances `produce_idx` and posts the semaphore once, and ends with
`staging_events == 0`: `FLAG_BUF_A_FREE` has not been set. -/
theorem work_does_not_set_free_flag :
    work_pass FLAG_BUF_A_READY queueInit FX_SUCCESS = some
      (0, Buffer.psram_buffer_A,
       { produce_idx := 1, consume_idx := 0, sem_raw_files := 1, simulator_suspended := false,
         written := [0], ingested := [] }) ∧
    (0 : Nat) &&& FLAG_BUF_A_FREE = 0 := by
  decide

/-- The names of the 40 slots are pairwise different. -/
lemma raw_filename_injective_on_slots :
    ∀ a ∈ List.range 40, ∀ b ∈ List.range 40, raw_filename a = raw_filename b → a = b := by
  decide

/-- Without a wrap of the counters between them, two queued file numbers have different
slots. -/
lemma queued_slots_distinct (consume produce i j : Nat) (hc : consume ≤ i) (hij : i < j)
    (hj : j < produce) (hocc : produce ≤ consume + MAX_RAW_FILES) :
    i % MAX_RAW_FILES ≠ j % MAX_RAW_FILES := by
  unfold MAX_RAW_FILES at *
  omega

/-- The stager writes file number `k` under the name of the slot `produce_idx % 40`, and the
ingestor opens file number `k` under the name of the slot `consume_idx % 40`, both counters
being `k` modulo 2^32 at that moment. -/
lemma work_and_ingestor_slots (q : RawQueue) (ok : Bool) :
    (work q FX_SUCCESS).written = q.written ++ [q.produce_idx % MAX_RAW_FILES] ∧
    (∀ q1, ingestor q ok = some q1 →
      q1.ingested = q.ingested ++ [q.consume_idx % MAX_RAW_FILES]) := by
  constructor
  · unfold work
    simp only [if_true]
    split_ifs <;> rfl
  · intro q1 h
    unfold ingestor at h
    by_cases h0 : q.sem_raw_files = 0
    · rw [if_pos h0] at h
      exact absurd h (by simp)
    · rw [if_neg h0] at h
      cases ok with
      | false =>
        simp only [Bool.false_eq_true, if_false, Option.some.injEq] at h
        subst h
        rfl
      | true =>
        simp only [if_true, Option.some.injEq] at h
        subst h
        split_ifs <;> rfl

/-- Claim C27 (code evaluated at the failing input). With `consume_idx = 4294967280` and
`produce_idx = 1` the occupancy is 17; the oldest queued file, number 4294967280, and the
newest, whose counter value is 0 after the wrap, both have the name `batch_0.raw` (2^32 is not
a multiple of 40). The pass of `work` at `produce_idx = 0` writes slot 0, the slot the
ingestor reads next. -/
theorem raw_filename_repeats_across_counter_wrap :
    ({ queueInit with produce_idx := 1, consume_idx := 4294967280 } : RawQueue).occupancy = 17 ∧
    counterOf (4294967280 + 16) = 0 ∧
    raw_filename 4294967280 = "batch_0.raw" ∧
    raw_filename (counterOf (4294967280 + 16)) = "batch_0.raw" ∧
    (work { queueInit with produce_idx := 0, consume_idx := 4294967280, sem_raw_files := 16 }
        FX_SUCCESS).written = [0] ∧
    (ingestor (work { queueInit with produce_idx := 0, consume_idx := 4294967280,
                                     sem_raw_files := 16 } FX_SUCCESS) true).map
        (fun q => q.ingested) = some [0] := by
  decide


/-! ### One pass of `ingestor_direct` -/

lemma land_release (a m f x : Nat) :
    ((a &&& m) ||| f) &&& x = (a &&& (m &&& x)) ||| (f &&& x) := by
  rw [Nat.and_distrib_right, Nat.land_assoc]

lemma land_lor_self (a b : Nat) : (a &&& b) ||| b = b := by
  apply Nat.eq_of_testBit_eq
  intro i
  simp only [Nat.testBit_lor, Nat.testBit_land]
  cases a.testBit i <;> cases b.testBit i <;> rfl

/-- The flags a pass of `ingestor_direct` leaves: the ready bit of the buffer it took is clear,
its free bit is set, and the two bits of the other buffer are as before. Buffer A is taken when
its ready bit is set, buffer B otherwise. -/
lemma ingestor_direct_flags (flags released : Nat)
    (h : ingestor_direct flags = some released) :
    (flags &&& FLAG_BUF_A_READY ≠ 0 →
      released &&& FLAG_BUF_A_READY = 0 ∧ released &&& FLAG_BUF_A_FREE = FLAG_BUF_A_FREE ∧
      released &&& FLAG_BUF_B_READY = flags &&& FLAG_BUF_B_READY ∧
      released &&& FLAG_BUF_B_FREE = flags &&& FLAG_BUF_B_FREE) ∧
    (flags &&& FLAG_BUF_A_READY = 0 →
      flags &&& FLAG_BUF_B_READY ≠ 0 ∧
      released &&& FLAG_BUF_B_READY = 0 ∧ released &&& FLAG_BUF_B_FREE = FLAG_BUF_B_FREE ∧
      released &&& FLAG_BUF_A_READY = flags &&& FLAG_BUF_A_READY ∧
      released &&& FLAG_BUF_A_FREE = flags &&& FLAG_BUF_A_FREE) := by
  unfold ingestor_direct at h
  by_cases h0 : flags &&& (FLAG_BUF_A_READY ||| FLAG_BUF_B_READY) = 0
  · rw [if_pos h0] at h
    exact absurd h (by simp)
  · rw [if_neg h0] at h
    by_cases hA : flags &&& FLAG_BUF_A_READY ≠ 0
    · simp only [hA, ne_eq, not_false_eq_true, if_true, Option.some.injEq] at h
      subst h
      refine ⟨fun _ => ?_, fun hz => absurd hz hA⟩
      have e1 : (0xFFFFFFFF ^^^ FLAG_BUF_A_READY) &&& FLAG_BUF_A_READY = 0 := by decide
      have e2 : (0xFFFFFFFF ^^^ FLAG_BUF_A_READY) &&& FLAG_BUF_A_FREE = FLAG_BUF_A_FREE := by
        decide
      have e3 : (0xFFFFFFFF ^^^ FLAG_BUF_A_READY) &&& FLAG_BUF_B_READY = FLAG_BUF_B_READY := by
        decide
      have e4 : (0xFFFFFFFF ^^^ FLAG_BUF_A_READY) &&& FLAG_BUF_B_FREE = FLAG_BUF_B_FREE := by
        decide
      have f1 : FLAG_BUF_A_FREE &&& FLAG_BUF_A_READY = 0 := by decide
      have f3 : FLAG_BUF_A_FREE &&& FLAG_BUF_B_READY = 0 := by decide
      have f4 : FLAG_BUF_A_FREE &&& FLAG_BUF_B_FREE = 0 := by decide
      refine ⟨?_, ?_, ?_, ?_⟩
      · rw [land_release, e1, f1, Nat.and_zero, Nat.or_zero]
      · rw [land_release, e2, Nat.and_self, land_lor_self]
      · rw [land_release, e3, f3, Nat.or_zero]
      · rw [land_release, e4, f4, Nat.or_zero]
    · have hA0 : flags &&& FLAG_BUF_A_READY = 0 := by
        by_contra hne
        exact hA hne
      have hB : flags &&& FLAG_BUF_B_READY ≠ 0 := by
        intro hB0
        apply h0
        rw [Nat.and_or_distrib_left, hA0, hB0]
        rfl
      have ne : (FLAG_BUF_B_READY = FLAG_BUF_A_READY) = False := by decide
      simp only [hA, if_false, ne, Option.some.injEq] at h
      subst h
      refine ⟨fun hz => absurd hz hA, fun _ => ⟨hB, ?_⟩⟩
      have e1 : (0xFFFFFFFF ^^^ FLAG_BUF_B_READY) &&& FLAG_BUF_B_READY = 0 := by decide
      have e2 : (0xFFFFFFFF ^^^ FLAG_BUF_B_READY) &&& FLAG_BUF_B_FREE = FLAG_BUF_B_FREE := by
        decide
      have e3 : (0xFFFFFFFF ^^^ FLAG_BUF_B_READY) &&& FLAG_BUF_A_READY = FLAG_BUF_A_READY := by
        decide
      have e4 : (0xFFFFFFFF ^^^ FLAG_BUF_B_READY) &&& FLAG_BUF_A_FREE = FLAG_BUF_A_FREE := by
        decide
      have f1 : FLAG_BUF_B_FREE &&& FLAG_BUF_B_READY = 0 := by decide
      have f3 : FLAG_BUF_B_FREE &&& FLAG_BUF_A_READY = 0 := by decide
      have f4 : FLAG_BUF_B_FREE &&& FLAG_BUF_A_FREE = 0 := by decide
      refine ⟨?_, ?_, ?_, ?_⟩
      · rw [land_release, e1, f1, Nat.and_zero, Nat.or_zero]
      · rw [land_release, e2, Nat.and_self, land_lor_self]
      · rw [land_release, e3, f3, Nat.or_zero]
      · rw [land_release, e4, f4, Nat.or_zero]

/-- A pass that gets to `BEGIN` ends, whatever the engine answers, with the flags released. -/
lemma ingestor_direct_pass_releases (capacity : Nat) (env : DirectEnv) (s : DirectState)
    (released : Nat) (hready : ingestor_direct s.staging_events = some released)
    (hreach : reachesTransaction env s) :
    ∃ s1, ingestor_direct_pass capacity env s = some s1 ∧ s1.staging_events = released := by
  unfold ingestor_direct_pass
  rw [hready]
  have h1 : ¬ (s.db = 0 ∧ env.open_rc ≠ SQLITE_OK) := by
    rintro ⟨hdb, hrc⟩
    rcases hreach with h | h
    · exact h hdb
    · exact hrc h.1
  have h2 : ¬ (s.db = 0 ∧ env.prepare_rc ≠ SQLITE_OK) := by
    rintro ⟨hdb, hrc⟩
    rcases hreach with h | h
    · exact h hdb
    · exact hrc h.2
  simp only [h1, h2, if_false]
  by_cases hb : env.begin_rc ≠ SQLITE_OK
  · rw [if_pos hb]
    exact ⟨_, rfl, rfl⟩
  · rw [if_neg hb]
    exact ⟨_, rfl, rfl⟩

/-- Claim C23. For every pass of `ingestor_direct` that finds a ready flag and gets to the
transaction (the database is open or can be opened and the statement prepared), whatever
`BEGIN`, the row inserts and `COMMIT` return: the pass ends, the ready flag of the buffer it
took (A when `FLAG_BUF_A_READY` is set, B otherwise) is clear and the free flag of that buffer
is set, and the ready and free flags of the other buffer are as before the pass. -/
theorem ingestor_direct_releases_consumed_buffer (capacity : Nat) (env : DirectEnv)
    (s : DirectState)
    (hready : s.staging_events &&& (FLAG_BUF_A_READY ||| FLAG_BUF_B_READY) ≠ 0)
    (hreach : reachesTransaction env s) :
    ∃ s1, ingestor_direct_pass capacity env s = some s1 ∧
      (s.staging_events &&& FLAG_BUF_A_READY ≠ 0 →
        s1.staging_events &&& FLAG_BUF_A_READY = 0 ∧
        s1.staging_events &&& FLAG_BUF_A_FREE = FLAG_BUF_A_FREE ∧
        s1.staging_events &&& FLAG_BUF_B_READY = s.staging_events &&& FLAG_BUF_B_READY ∧
        s1.staging_events &&& FLAG_BUF_B_FREE = s.staging_events &&& FLAG_BUF_B_FREE) ∧
      (s.staging_events &&& FLAG_BUF_A_READY = 0 →
        s1.staging_events &&& FLAG_BUF_B_READY = 0 ∧
        s1.staging_events &&& FLAG_BUF_B_FREE = FLAG_BUF_B_FREE ∧
        s1.staging_events &&& FLAG_BUF_A_READY = s.staging_events &&& FLAG_BUF_A_READY ∧
        s1.staging_events &&& FLAG_BUF_A_FREE = s.staging_events &&& FLAG_BUF_A_FREE) := by
  have hsome : ∃ released, ingestor_direct s.staging_events = some released := by
    unfold ingestor_direct
    rw [if_neg hready]
    exact ⟨_, rfl⟩
  obtain ⟨released, hrel⟩ := hsome
  obtain ⟨s1, hs1, hfl⟩ := ingestor_direct_pass_releases capacity env s released hrel hreach
  obtain ⟨hA, hB⟩ := ingestor_direct_flags s.staging_events released hrel
  rw [← hfl] at hA hB
  exact ⟨s1, hs1, hA, fun hz => (hB hz).2⟩

/-- Witness for C23: buffer B is ready while buffer A is free, the database is closed, and
the second row of the buffer is refused, so the buffer is rolled back. -/
theorem ingestor_direct_releases_consumed_buffer_witness :
    (ingestor_direct_pass 3 { directEnvGood with step_rc := fun i => if i = 1 then 1 else 101 }
        { staging_events := 0x06, db := 0, insert_stmt := 0, buffer_counter := 4,
          events := [] }).map (fun s1 => (s1.staging_events, s1.buffer_counter, s1.events)) =
      some (0x0C, 5,
        [DirectEvent.sqlite3_open, DirectEvent.tuneDbConfig, DirectEvent.sqlite3_prepare,
         DirectEvent.begin_transaction, DirectEvent.bindAndStep 0, DirectEvent.bindAndStep 1,
         DirectEvent.rollback, DirectEvent.flags_and 0xFFFFFFFD, DirectEvent.flags_or 0x08,
         DirectEvent.wal_checkpoint SQLITE_CHECKPOINT_PASSIVE]) ∧
    ∃ s1, ingestor_direct_pass 3
        { directEnvGood with step_rc := fun i => if i = 1 then 1 else 101 }
        { staging_events := 0x06, db := 0, insert_stmt := 0, buffer_counter := 4,
          events := [] } = some s1 ∧
      ((0x06 : Nat) &&& FLAG_BUF_A_READY ≠ 0 →
        s1.staging_events &&& FLAG_BUF_A_READY = 0 ∧
        s1.staging_events &&& FLAG_BUF_A_FREE = FLAG_BUF_A_FREE ∧
        s1.staging_events &&& FLAG_BUF_B_READY = 0x06 &&& FLAG_BUF_B_READY ∧
        s1.staging_events &&& FLAG_BUF_B_FREE = 0x06 &&& FLAG_BUF_B_FREE) ∧
      ((0x06 : Nat) &&& FLAG_BUF_A_READY = 0 →
        s1.staging_events &&& FLAG_BUF_B_READY = 0 ∧
        s1.staging_events &&& FLAG_BUF_B_FREE = FLAG_BUF_B_FREE ∧
        s1.staging_events &&& FLAG_BUF_A_READY = 0x06 &&& FLAG_BUF_A_READY ∧
        s1.staging_events &&& FLAG_BUF_A_FREE = 0x06 &&& FLAG_BUF_A_FREE) :=
  ⟨by decide,
   ingestor_direct_releases_consumed_buffer 3
     { directEnvGood with step_rc := fun i => if i = 1 then 1 else 101 }
     { staging_events := 0x06, db := 0, insert_stmt := 0, buffer_counter := 4, events := [] }
     (by decide) (by decide)⟩


/-! ### `ingestRawToSQLite`: result, deletion of the raw file, checkpoints -/

/-- The row loop adds events that are neither a recovery, nor a deletion, nor a checkpoint,
followed, exactly when it leaves through the critical-error exit, by `ROLLBACK`, the close of
the raw file and `recoverDatabase`. -/
lemma ingestRows_events (env : IngestEnv) (chunk : Nat) :
    ∀ (remaining i skipped : Nat) (events : List IngestEvent),
      ∃ extra, (∀ e ∈ extra, e.quiet = true ∧ e.isCheckpoint = false ∧ e.isCommit = false) ∧
        (ingestRows env chunk remaining i skipped events).events =
          events ++ extra ++
            (if (ingestRows env chunk remaining i skipped events).aborted then
              [IngestEvent.rollback, IngestEvent.fx_file_close, IngestEvent.recoverDatabase]
             else []) := by
  intro remaining
  induction remaining with
  | zero =>
    intro i skipped events
    refine ⟨[], by simp, ?_⟩
    simp [ingestRows]
  | succ n ih =>
    intro i skipped events
    rw [ingestRows]
    by_cases h1 : env.step_status chunk i ≠ SQLITE_DONE
    · rw [if_pos h1]
      by_cases h2 : env.step_status chunk i = SQLITE_NOMEM ∨ env.step_status chunk i = 7
      · simp only [h2, if_true]
        by_cases h3 : env.retry_status chunk i ≠ SQLITE_DONE
        · rw [if_pos h3]
          obtain ⟨extra, hq, he⟩ := ih (i + 1) (skipped + 1)
            (events ++ [IngestEvent.bindAndStep chunk i] ++
              [IngestEvent.release_memory, IngestEvent.bindAndStep chunk i])
          refine ⟨[IngestEvent.bindAndStep chunk i, IngestEvent.release_memory,
            IngestEvent.bindAndStep chunk i] ++ extra, ?_, ?_⟩
          · intro e he1
            rcases List.mem_append.1 he1 with hm | hm
            · simp only [List.mem_cons, List.mem_singleton, List.not_mem_nil, or_false] at hm
              rcases hm with rfl | rfl | rfl <;> exact ⟨rfl, rfl, rfl⟩
            · exact hq e hm
          · rw [he]
            simp only [List.append_assoc, List.cons_append, List.nil_append]
        · rw [if_neg h3]
          by_cases h4 : env.errcode chunk i = SQLITE_CORRUPT_code ∨
              env.errcode chunk i = SQLITE_NOTADB_code ∨ env.errcode chunk i = SQLITE_IOERR_code
          · rw [if_pos h4]
            refine ⟨[IngestEvent.bindAndStep chunk i, IngestEvent.release_memory,
              IngestEvent.bindAndStep chunk i], ?_, ?_⟩
            · intro e hm
              simp only [List.mem_cons, List.mem_singleton, List.not_mem_nil, or_false] at hm
              rcases hm with rfl | rfl | rfl <;> exact ⟨rfl, rfl, rfl⟩
            · simp only [if_true, List.append_assoc, List.cons_append, List.nil_append]
          · rw [if_neg h4]
            obtain ⟨extra, hq, he⟩ := ih (i + 1) skipped
              (events ++ [IngestEvent.bindAndStep chunk i] ++
                [IngestEvent.release_memory, IngestEvent.bindAndStep chunk i])
            refine ⟨[IngestEvent.bindAndStep chunk i, IngestEvent.release_memory,
              IngestEvent.bindAndStep chunk i] ++ extra, ?_, ?_⟩
            · intro e he1
              rcases List.mem_append.1 he1 with hm | hm
              · simp only [List.mem_cons, List.mem_singleton, List.not_mem_nil, or_false] at hm
                rcases hm with rfl | rfl | rfl <;> exact ⟨rfl, rfl, rfl⟩
              · exact hq e hm
            · rw [he]
              simp only [List.append_assoc, List.cons_append, List.nil_append]
      · simp only [h2, if_false]
        obtain ⟨extra, hq, he⟩ := ih (i + 1) (skipped + 1)
          (events ++ [IngestEvent.bindAndStep chunk i])
        refine ⟨[IngestEvent.bindAndStep chunk i] ++ extra, ?_, ?_⟩
        · intro e he1
          rcases List.mem_append.1 he1 with hm | hm
          · simp only [List.mem_singleton] at hm
            subst hm
            exact ⟨rfl, rfl, rfl⟩
          · exact hq e hm
        · rw [he]
          simp only [List.append_assoc, List.cons_append, List.nil_append]
    · rw [if_neg h1]
      obtain ⟨extra, hq, he⟩ := ih (i + 1) skipped
        (events ++ [IngestEvent.bindAndStep chunk i])
      refine ⟨[IngestEvent.bindAndStep chunk i] ++ extra, ?_, ?_⟩
      · intro e he1
        rcases List.mem_append.1 he1 with hm | hm
        · simp only [List.mem_singleton] at hm
          subst hm
          exact ⟨rfl, rfl, rfl⟩
        · exact hq e hm
      · rw [he]
        simp only [List.append_assoc, List.cons_append, List.nil_append]

lemma quiet_not_mem (events : List IngestEvent) (h : ∀ e ∈ events, e.quiet = true) :
    IngestEvent.recoverDatabase ∉ events ∧ IngestEvent.fx_file_delete ∉ events := by
  constructor
  · intro hm
    exact absurd (h _ hm) (by decide)
  · intro hm
    exact absurd (h _ hm) (by decide)

lemma quiet_append (a b : List IngestEvent) (ha : ∀ e ∈ a, e.quiet = true)
    (hb : ∀ e ∈ b, e.quiet = true) : ∀ e ∈ a ++ b, e.quiet = true := by
  intro e he
  rcases List.mem_append.1 he with h | h
  · exact ha e h
  · exact hb e h

lemma ingestFinish_result (skipped chunks : Nat) (events : List IngestEvent)
    (h : ∀ e ∈ events, e.quiet = true) :
    ((ingestFinish skipped chunks events).returned = true ↔
      IngestEvent.recoverDatabase ∉ (ingestFinish skipped chunks events).events ∧
      0 < (ingestFinish skipped chunks events).successful_chunks) ∧
    (IngestEvent.fx_file_delete ∈ (ingestFinish skipped chunks events).events ↔
      IngestEvent.recoverDatabase ∉ (ingestFinish skipped chunks events).events) := by
  obtain ⟨h1, -⟩ := quiet_not_mem events h
  have hr : IngestEvent.recoverDatabase ∉ (ingestFinish skipped chunks events).events := by
    unfold ingestFinish
    simp only [List.mem_append, List.mem_cons, List.mem_singleton, List.not_mem_nil,
      reduceCtorEq, or_false, or_self]
    exact h1
  have hd : IngestEvent.fx_file_delete ∈ (ingestFinish skipped chunks events).events := by
    unfold ingestFinish
    simp
  refine ⟨?_, ?_⟩
  · constructor
    · intro hret
      refine ⟨hr, ?_⟩
      unfold ingestFinish at hret ⊢
      simpa using hret
    · rintro ⟨-, hpos⟩
      unfold ingestFinish at hpos ⊢
      simpa using hpos
  · exact ⟨fun _ => hr, fun _ => hd⟩

/-- The chunk loop, started with events that hold neither a recovery nor a deletion: the
result is `true` exactly when no recovery ran and a chunk was committed, and the raw file is
deleted exactly when no recovery ran. -/
lemma ingestChunks_result (env : IngestEnv) :
    ∀ (fuel chunk_count total skipped chunks : Nat) (events : List IngestEvent)
      (r : IngestResult), (∀ e ∈ events, e.quiet = true) →
      ingestChunks env fuel chunk_count total skipped chunks events = some r →
      (r.returned = true ↔ IngestEvent.recoverDatabase ∉ r.events ∧ 0 < r.successful_chunks) ∧
      (IngestEvent.fx_file_delete ∈ r.events ↔ IngestEvent.recoverDatabase ∉ r.events) := by
  intro fuel
  induction fuel with
  | zero =>
    intro c t sk sc ev r _ h
    exact absurd h (by simp [ingestChunks])
  | succ n ih =>
    intro c t sk sc ev r hq h
    rw [ingestChunks] at h
    by_cases h1 : t < LOGS_PER_BUFFER
    · rw [if_pos h1] at h
      have hq1 : ∀ e ∈ ev ++ [IngestEvent.fx_file_read c], e.quiet = true :=
        quiet_append _ _ hq (by simp [IngestEvent.quiet])
      by_cases h2 : env.read_status c ≠ FX_SUCCESS ∨ env.bytes_read c = 0
      · simp only [h2, if_true, Option.some.injEq] at h
        subst h
        exact ingestFinish_result _ _ _ hq1
      · simp only [h2, if_false] at h
        have hq2 : ∀ e ∈ ev ++ [IngestEvent.fx_file_read c] ++ [IngestEvent.begin_transaction c],
            e.quiet = true := quiet_append _ _ hq1 (by simp [IngestEvent.quiet])
        by_cases h3 : env.begin_status c = SQLITE_OK
        · simp only [h3, ne_eq, not_true_eq_false, if_false] at h
          obtain ⟨extra, hx, he⟩ := ingestRows_events env c
            (env.bytes_read c / sizeof_DS_LOG_STRUCT) 0 0
            (ev ++ [IngestEvent.fx_file_read c] ++ [IngestEvent.begin_transaction c])
          have hq3 : ∀ e ∈ ev ++ [IngestEvent.fx_file_read c] ++
              [IngestEvent.begin_transaction c] ++ extra, e.quiet = true :=
            quiet_append _ _ hq2 (fun e hm => (hx e hm).1)
          by_cases h4 : (ingestRows env c (env.bytes_read c / sizeof_DS_LOG_STRUCT) 0 0
              (ev ++ [IngestEvent.fx_file_read c] ++ [IngestEvent.begin_transaction c])).aborted
              = true
          · rw [h4] at he
            simp only [h4, if_true, Option.some.injEq] at h he
            subst h
            obtain ⟨-, hnd⟩ := quiet_not_mem _ hq3
            simp only [he]
            refine ⟨⟨fun hf => absurd hf (by simp), fun hf => absurd ?_ hf.1⟩,
              ⟨fun hf => ?_, fun hf => absurd ?_ hf⟩⟩
            · simp
            · exfalso
              rcases List.mem_append.1 hf with hm | hm
              · exact hnd hm
              · simp at hm
            · simp
          · have h4f : (ingestRows env c (env.bytes_read c / sizeof_DS_LOG_STRUCT) 0 0
                (ev ++ [IngestEvent.fx_file_read c] ++
                  [IngestEvent.begin_transaction c])).aborted = false := by
              simpa using h4
            rw [h4f] at he
            simp only [h4f, Bool.false_eq_true, if_false, List.append_nil] at h he
            rw [he] at h
            have hq4 : ∀ e ∈ ev ++ [IngestEvent.fx_file_read c] ++
                [IngestEvent.begin_transaction c] ++ extra ++ [IngestEvent.commit c],
                e.quiet = true := quiet_append _ _ hq3 (by simp [IngestEvent.quiet])
            by_cases h5 : env.commit_status c = SQLITE_OK
            · simp only [h5, ne_eq, not_true_eq_false, if_false] at h
              exact ih _ _ _ _ _ r (quiet_append _ _ hq4 (by simp [IngestEvent.quiet])) h
            · simp only [h5, ne_eq, not_false_eq_true, if_true] at h
              have hq5 : ∀ e ∈ ev ++ [IngestEvent.fx_file_read c] ++
                  [IngestEvent.begin_transaction c] ++ extra ++ [IngestEvent.commit c] ++
                  [IngestEvent.rollback], e.quiet = true :=
                quiet_append _ _ hq4 (by simp [IngestEvent.quiet])
              by_cases h6 : env.commit_errcode c = SQLITE_CORRUPT_code ∨
                  env.commit_errcode c = SQLITE_NOTADB_code
              · simp only [h6, if_true, Option.some.injEq] at h
                subst h
                obtain ⟨-, hnd⟩ := quiet_not_mem _ hq5
                refine ⟨⟨fun hf => absurd hf (by simp), fun hf => absurd ?_ hf.1⟩,
                  ⟨fun hf => ?_, fun hf => absurd ?_ hf⟩⟩
                · simp
                · exfalso
                  rcases List.mem_append.1 hf with hm | hm
                  · exact hnd hm
                  · simp at hm
                · simp
              · simp only [h6, if_false] at h
                refine ih _ _ _ _ _ r ?_ h
                split_ifs
                · exact quiet_append _ _ hq5 (by simp [IngestEvent.quiet])
                · exact hq5
        · simp only [h3, ne_eq, not_false_eq_true, if_true, Option.some.injEq] at h
          subst h
          exact ingestFinish_result _ _ _ hq2
    · rw [if_neg h1] at h
      simp only [Option.some.injEq] at h
      subst h
      exact ingestFinish_result _ _ _ hq

lemma commit_mem_append (a b : List IngestEvent) (hb : ∀ e ∈ b, e.isCommit = false)
    (k : Nat) : IngestEvent.commit k ∈ a ++ b ↔ IngestEvent.commit k ∈ a := by
  constructor
  · intro h
    rcases List.mem_append.1 h with h | h
    · exact h
    · have hc : (IngestEvent.commit k).isCommit = false := hb _ h
      exact absurd hc (by simp [IngestEvent.isCommit])
  · intro h
    exact List.mem_append.2 (Or.inl h)

lemma committed_append (env : IngestEnv) (a b : List IngestEvent)
    (hb : ∀ e ∈ b, e.isCommit = false) :
    (∃ k, IngestEvent.commit k ∈ a ++ b ∧ env.commit_status k = SQLITE_OK) ↔
      ∃ k, IngestEvent.commit k ∈ a ∧ env.commit_status k = SQLITE_OK := by
  constructor
  · rintro ⟨k, hk, hs⟩
    exact ⟨k, (commit_mem_append a b hb k).1 hk, hs⟩
  · rintro ⟨k, hk, hs⟩
    exact ⟨k, (commit_mem_append a b hb k).2 hk, hs⟩

/-- The chunk loop on a raw file whose read number `N` fails or finds nothing more: it ends
within `N + 1` passes, and the counter `successful_chunks` it ends with is positive exactly
when the `COMMIT` of some chunk returned `SQLITE_OK`. -/
lemma ingestChunks_returns (env : IngestEnv) (N : Nat) (hN : N < 2 ^ 32)
    (hend : env.read_status N ≠ FX_SUCCESS ∨ env.bytes_read N = 0) :
    ∀ (fuel chunk_count total skipped chunks : Nat) (events : List IngestEvent),
      chunk_count ≤ N → N - chunk_count < fuel → chunks ≤ chunk_count →
      (0 < chunks ↔ ∃ k, IngestEvent.commit k ∈ events ∧ env.commit_status k = SQLITE_OK) →
      ∃ r, ingestChunks env fuel chunk_count total skipped chunks events = some r ∧
        (0 < r.successful_chunks ↔
          ∃ k, IngestEvent.commit k ∈ r.events ∧ env.commit_status k = SQLITE_OK) := by
  intro fuel
  induction fuel with
  | zero => intro c t sk sc ev _ h; omega
  | succ n ih =>
    intro c t sk sc ev hc hfuel hsc hinv
    have hfin : ∀ (ev1 : List IngestEvent), (∀ e ∈ ev1, e.isCommit = false) →
        (0 < (ingestFinish sk sc (ev ++ ev1)).successful_chunks ↔
          ∃ k, IngestEvent.commit k ∈ (ingestFinish sk sc (ev ++ ev1)).events ∧
            env.commit_status k = SQLITE_OK) := by
      intro ev1 h1
      unfold ingestFinish
      simp only
      rw [List.append_assoc, committed_append env ev _ (by
        intro e he
        rcases List.mem_append.1 he with h | h
        · exact h1 e h
        · simp only [List.mem_cons, List.mem_singleton, List.not_mem_nil, or_false] at h
          rcases h with rfl | rfl | rfl <;> rfl)]
      exact hinv
    rw [ingestChunks]
    by_cases h1 : t < LOGS_PER_BUFFER
    · rw [if_pos h1]
      by_cases h2 : env.read_status c ≠ FX_SUCCESS ∨ env.bytes_read c = 0
      · simp only [h2, if_true]
        exact ⟨_, rfl, hfin [IngestEvent.fx_file_read c] (by simp [IngestEvent.isCommit])⟩
      · have hcN : c < N := by
          rcases Nat.lt_or_ge c N with h | h
          · exact h
          · have : c = N := by omega
            subst this
            exact absurd hend h2
        have hc1 : (c + 1) % 2 ^ 32 = c + 1 := Nat.mod_eq_of_lt (by omega)
        have hA : c + 1 ≤ N := hcN
        have hB : N - (c + 1) < n := by omega
        have hC : sc ≤ c + 1 := by omega
        have hD : sc + 1 ≤ c + 1 := by omega
        have hsc1 : (sc + 1) % 2 ^ 32 = sc + 1 := Nat.mod_eq_of_lt (by omega)
        simp only [h2, if_false]
        by_cases h3 : env.begin_status c = SQLITE_OK
        · simp only [h3, ne_eq, not_true_eq_false, if_false]
          obtain ⟨extra, hx, he⟩ := ingestRows_events env c
            (env.bytes_read c / sizeof_DS_LOG_STRUCT) 0 0
            (ev ++ [IngestEvent.fx_file_read c] ++ [IngestEvent.begin_transaction c])
          have hpre : ∀ e ∈ [IngestEvent.fx_file_read c] ++ [IngestEvent.begin_transaction c]
              ++ extra, e.isCommit = false := by
            intro e hm
            rcases List.mem_append.1 hm with h | h
            · simp only [List.append_eq, List.cons_append, List.nil_append, List.mem_cons,
                List.mem_singleton, List.not_mem_nil, or_false] at h
              rcases h with rfl | rfl <;> rfl
            · exact (hx e h).2.2
          by_cases h4 : (ingestRows env c (env.bytes_read c / sizeof_DS_LOG_STRUCT) 0 0
              (ev ++ [IngestEvent.fx_file_read c] ++ [IngestEvent.begin_transaction c])).aborted
              = true
          · rw [h4] at he
            simp only [h4, if_true] at he ⊢
            refine ⟨_, rfl, ?_⟩
            simp only [he]
            have e1 : ev ++ [IngestEvent.fx_file_read c] ++ [IngestEvent.begin_transaction c] ++
                extra ++ [IngestEvent.rollback, IngestEvent.fx_file_close,
                  IngestEvent.recoverDatabase] =
                ev ++ (([IngestEvent.fx_file_read c] ++ [IngestEvent.begin_transaction c] ++
                  extra) ++ [IngestEvent.rollback, IngestEvent.fx_file_close,
                    IngestEvent.recoverDatabase]) := by
              simp only [List.append_assoc]
            rw [e1, committed_append env ev _ (by
              intro e hm
              rcases List.mem_append.1 hm with h | h
              · exact hpre e h
              · simp only [List.mem_cons, List.mem_singleton, List.not_mem_nil, or_false] at h
                rcases h with rfl | rfl | rfl <;> rfl)]
            exact hinv
          · have h4f : (ingestRows env c (env.bytes_read c / sizeof_DS_LOG_STRUCT) 0 0
                (ev ++ [IngestEvent.fx_file_read c] ++
                  [IngestEvent.begin_transaction c])).aborted = false := by
              simpa using h4
            rw [h4f] at he
            simp only [h4f, Bool.false_eq_true, if_false, List.append_nil] at he ⊢
            rw [he]
            have e0 : ev ++ [IngestEvent.fx_file_read c] ++ [IngestEvent.begin_transaction c] ++
                extra = ev ++ ([IngestEvent.fx_file_read c] ++
                  [IngestEvent.begin_transaction c] ++ extra) := by
              simp only [List.append_assoc]
            have hinv0 : (0 < sc ↔ ∃ k, IngestEvent.commit k ∈ ev ++
                [IngestEvent.fx_file_read c] ++ [IngestEvent.begin_transaction c] ++ extra ∧
                env.commit_status k = SQLITE_OK) := by
              rw [e0, committed_append env ev _ hpre]
              exact hinv
            by_cases h5 : env.commit_status c = SQLITE_OK
            · simp only [h5, ne_eq, not_true_eq_false, if_false]
              rw [hc1, hsc1]
              apply ih
              · exact hA
              · exact hB
              · exact hD
              · constructor
                · intro _
                  exact ⟨c, by simp, h5⟩
                · intro _
                  exact Nat.succ_pos sc
            · simp only [h5, ne_eq, not_false_eq_true, if_true]
              have hinv1 : ∀ (tail : List IngestEvent), (∀ e ∈ tail, e.isCommit = false) →
                  (0 < sc ↔ ∃ k, IngestEvent.commit k ∈ ev ++ [IngestEvent.fx_file_read c] ++
                    [IngestEvent.begin_transaction c] ++ extra ++ [IngestEvent.commit c] ++
                    tail ∧ env.commit_status k = SQLITE_OK) := by
                intro tail htail
                rw [committed_append env _ tail htail]
                constructor
                · intro hp
                  obtain ⟨k, hk, hs⟩ := hinv0.1 hp
                  exact ⟨k, List.mem_append.2 (Or.inl hk), hs⟩
                · rintro ⟨k, hk, hs⟩
                  rcases List.mem_append.1 hk with hm | hm
                  · exact hinv0.2 ⟨k, hm, hs⟩
                  · simp only [List.mem_singleton, IngestEvent.commit.injEq] at hm
                    subst hm
                    exact absurd hs h5
              by_cases h6 : env.commit_errcode c = SQLITE_CORRUPT_code ∨
                  env.commit_errcode c = SQLITE_NOTADB_code
              · simp only [h6, if_true]
                refine ⟨_, rfl, ?_⟩
                simp only
                have := hinv1 ([IngestEvent.rollback] ++ [IngestEvent.fx_file_close,
                  IngestEvent.recoverDatabase]) (by
                    intro e hm
                    simp only [List.cons_append, List.nil_append, List.mem_cons,
                      List.mem_singleton, List.not_mem_nil, or_false] at hm
                    rcases hm with rfl | rfl | rfl <;> rfl)
                simpa only [List.append_assoc] using this
              · simp only [h6, if_false]
                rw [hc1]
                apply ih
                · exact hA
                · exact hB
                · exact hC
                · split_ifs
                  · have := hinv1 ([IngestEvent.rollback] ++
                      [IngestEvent.wal_checkpoint SQLITE_CHECKPOINT_TRUNCATE]) (by
                        intro e hm
                        simp only [List.cons_append, List.nil_append, List.mem_cons,
                          List.mem_singleton, List.not_mem_nil, or_false] at hm
                        rcases hm with rfl | rfl <;> rfl)
                    simpa only [List.append_assoc] using this
                  · exact hinv1 [IngestEvent.rollback] (by
                      intro e hm
                      simp only [List.mem_singleton] at hm
                      subst hm
                      rfl)
        · simp only [h3, ne_eq, not_false_eq_true, if_true]
          refine ⟨_, rfl, ?_⟩
          have := hfin ([IngestEvent.fx_file_read c] ++ [IngestEvent.begin_transaction c]) (by
            intro e hm
            simp only [List.cons_append, List.nil_append, List.mem_cons,
              List.mem_singleton, List.not_mem_nil, or_false] at hm
            rcases hm with rfl | rfl <;> rfl)
          simpa only [List.append_assoc] using this
    · rw [if_neg h1]
      refine ⟨_, rfl, ?_⟩
      have := hfin [] (by simp)
      simpa only [List.append_nil] using this

/-- Claim C30. On a raw file whose reads come to an end (read number `N` fails or returns no
byte), `ingestRawToSQLite` returns, and it returns `true` exactly when the raw file could be
opened, `recoverDatabase` was not run and the `COMMIT` of at least one chunk succeeded; the raw
file is deleted exactly when it could be opened and `recoverDatabase` was not run, so in the
`true` case and when no chunk was committed, not when the file is abandoned for recovery. A
read failure or a failed `BEGIN` after a committed chunk gives `true`. -/
theorem ingestRawToSQLite_true_iff_committed (env : IngestEnv) (N fuel : Nat)
    (hN : N < 2 ^ 32)
    (hend : env.read_status N ≠ FX_SUCCESS ∨ env.bytes_read N = 0) (hfuel : N < fuel) :
    (∃ r, ingestRawToSQLite env fuel = some r ∧
      (r.returned = true ↔
        env.open_status = FX_SUCCESS ∧ IngestEvent.recoverDatabase ∉ r.events ∧
        ∃ k, IngestEvent.commit k ∈ r.events ∧ env.commit_status k = SQLITE_OK) ∧
      (IngestEvent.fx_file_delete ∈ r.events ↔
        env.open_status = FX_SUCCESS ∧ IngestEvent.recoverDatabase ∉ r.events)) ∧
    (ingestRawToSQLite readFailsAfterCommitEnv 2).map (fun r => r.returned) = some true ∧
    (ingestRawToSQLite beginFailsAfterCommitEnv 2).map (fun r => r.returned) = some true := by
  refine ⟨?_, by decide, by decide⟩
  unfold ingestRawToSQLite
  by_cases ho : env.open_status = FX_SUCCESS
  · simp only [ho, ne_eq, not_true_eq_false, if_false, true_and]
    obtain ⟨r, hr, hcommitted⟩ := ingestChunks_returns env N hN hend fuel 0 0 0 0
      [IngestEvent.fx_file_open] (Nat.zero_le N) (by omega) (le_refl 0) (by
        constructor
        · intro h
          exact absurd h (lt_irrefl 0)
        · rintro ⟨k, hk, -⟩
          simp at hk)
    obtain ⟨hret, hdel⟩ := ingestChunks_result env fuel 0 0 0 0 [IngestEvent.fx_file_open] r
      (by simp [IngestEvent.quiet]) hr
    refine ⟨r, hr, ?_, hdel⟩
    rw [hret, hcommitted]
  · simp only [ho, ne_eq, not_false_eq_true, if_true, false_and, iff_false]
    exact ⟨_, rfl, by simp, by simp⟩

/-- Witness for C30: the raw file of `corruptRowEnv` ends at its second read; its only chunk
commits, the result is `true` and the raw file is deleted. -/
theorem ingestRawToSQLite_true_iff_committed_witness :
    (1 < 2 ^ 32 ∧ (corruptRowEnv.read_status 1 ≠ FX_SUCCESS ∨ corruptRowEnv.bytes_read 1 = 0) ∧
      1 < 3) ∧
    ∃ r, ingestRawToSQLite corruptRowEnv 3 = some r ∧
      (r.returned = true ↔
        corruptRowEnv.open_status = FX_SUCCESS ∧ IngestEvent.recoverDatabase ∉ r.events ∧
        ∃ k, IngestEvent.commit k ∈ r.events ∧ corruptRowEnv.commit_status k = SQLITE_OK) ∧
      (IngestEvent.fx_file_delete ∈ r.events ↔
        corruptRowEnv.open_status = FX_SUCCESS ∧ IngestEvent.recoverDatabase ∉ r.events) :=
  ⟨⟨by decide, by decide, by decide⟩,
   (ingestRawToSQLite_true_iff_committed corruptRowEnv 1 3 (by decide) (by decide)
      (by decide)).1⟩

/-- When every `COMMIT` succeeds the chunk loop adds no request for a checkpoint. -/
lemma ingestChunks_no_checkpoint (env : IngestEnv)
    (hcommit : ∀ k, env.commit_status k = SQLITE_OK) :
    ∀ (fuel chunk_count total skipped chunks : Nat) (events : List IngestEvent)
      (r : IngestResult), (∀ e ∈ events, e.isCheckpoint = false) →
      ingestChunks env fuel chunk_count total skipped chunks events = some r →
      ∀ e ∈ r.events, e.isCheckpoint = false := by
  intro fuel
  induction fuel with
  | zero =>
    intro c t sk sc ev r _ h
    exact absurd h (by simp [ingestChunks])
  | succ n ih =>
    intro c t sk sc ev r hq h
    have hfin : ∀ (ev1 : List IngestEvent), (∀ e ∈ ev1, e.isCheckpoint = false) →
        ∀ e ∈ (ingestFinish sk sc ev1).events, e.isCheckpoint = false := by
      intro ev1 h1 e he
      unfold ingestFinish at he
      rcases List.mem_append.1 he with hm | hm
      · exact h1 e hm
      · simp only [List.mem_cons, List.mem_singleton, List.not_mem_nil, or_false] at hm
        rcases hm with rfl | rfl | rfl <;> rfl
    have happ : ∀ (a b : List IngestEvent), (∀ e ∈ a, e.isCheckpoint = false) →
        (∀ e ∈ b, e.isCheckpoint = false) → ∀ e ∈ a ++ b, e.isCheckpoint = false := by
      intro a b ha hb e he
      rcases List.mem_append.1 he with hm | hm
      · exact ha e hm
      · exact hb e hm
    rw [ingestChunks] at h
    by_cases h1 : t < LOGS_PER_BUFFER
    · rw [if_pos h1] at h
      have hq1 := happ ev [IngestEvent.fx_file_read c] hq (by simp [IngestEvent.isCheckpoint])
      by_cases h2 : env.read_status c ≠ FX_SUCCESS ∨ env.bytes_read c = 0
      · simp only [h2, if_true, Option.some.injEq] at h
        subst h
        exact hfin _ hq1
      · simp only [h2, if_false] at h
        have hq2 := happ _ [IngestEvent.begin_transaction c] hq1
          (by simp [IngestEvent.isCheckpoint])
        by_cases h3 : env.begin_status c = SQLITE_OK
        · simp only [h3, ne_eq, not_true_eq_false, if_false] at h
          obtain ⟨extra, hx, he⟩ := ingestRows_events env c
            (env.bytes_read c / sizeof_DS_LOG_STRUCT) 0 0
            (ev ++ [IngestEvent.fx_file_read c] ++ [IngestEvent.begin_transaction c])
          have hq3 := happ _ extra hq2 (fun e hm => (hx e hm).2.1)
          by_cases h4 : (ingestRows env c (env.bytes_read c / sizeof_DS_LOG_STRUCT) 0 0
              (ev ++ [IngestEvent.fx_file_read c] ++ [IngestEvent.begin_transaction c])).aborted
              = true
          · rw [h4] at he
            simp only [h4, if_true, Option.some.injEq] at h he
            subst h
            simp only [he]
            exact happ _ _ hq3 (by
              intro e hm
              simp only [List.mem_cons, List.mem_singleton, List.not_mem_nil, or_false] at hm
              rcases hm with rfl | rfl | rfl <;> rfl)
          · have h4f : (ingestRows env c (env.bytes_read c / sizeof_DS_LOG_STRUCT) 0 0
                (ev ++ [IngestEvent.fx_file_read c] ++
                  [IngestEvent.begin_transaction c])).aborted = false := by
              simpa using h4
            rw [h4f] at he
            simp only [h4f, Bool.false_eq_true, if_false, List.append_nil] at h he
            rw [he] at h
            simp only [hcommit c, ne_eq, not_true_eq_false, if_false] at h
            refine ih _ _ _ _ _ r ?_ h
            exact happ _ _ (happ _ _ hq3 (by simp [IngestEvent.isCheckpoint]))
              (by simp [IngestEvent.isCheckpoint])
        · simp only [h3, ne_eq, not_false_eq_true, if_true, Option.some.injEq] at h
          subst h
          exact hfin _ hq2
    · rw [if_neg h1] at h
      simp only [Option.some.injEq] at h
      subst h
      exact hfin _ hq

/-- Claim C26 (code evaluated at the failing input). A raw file of two chunks that both
commit: `ingestRawToSQLite` processes the two chunks, deletes the file and returns `true`
without a single request for a checkpoint. The request sits in the branch of a failed `COMMIT`:
when the first `COMMIT` fails with `SQLITE_BUSY` the chunk is rolled back and a checkpoint is
requested, in mode `SQLITE_CHECKPOINT_TRUNCATE`. -/
theorem ingestRawToSQLite_checkpoints_only_after_failed_commit :
    ingestRawToSQLite twoChunksEnv 3 = some
      { returned := true
        total_logs_skipped := 0
        successful_chunks := 2
        events := [IngestEvent.fx_file_open, IngestEvent.fx_file_read 0,
          IngestEvent.begin_transaction 0, IngestEvent.bindAndStep 0 0, IngestEvent.commit 0,
          IngestEvent.release_memory, IngestEvent.fx_file_read 1,
          IngestEvent.begin_transaction 1, IngestEvent.bindAndStep 1 0, IngestEvent.commit 1,
          IngestEvent.release_memory, IngestEvent.fx_file_read 2, IngestEvent.fx_file_close,
          IngestEvent.fx_media_flush, IngestEvent.fx_file_delete] } ∧
    ingestRawToSQLite commitFailsEnv 3 = some
      { returned := true
        total_logs_skipped := 0
        successful_chunks := 1
        events := [IngestEvent.fx_file_open, IngestEvent.fx_file_read 0,
          IngestEvent.begin_transaction 0, IngestEvent.bindAndStep 0 0, IngestEvent.commit 0,
          IngestEvent.rollback, IngestEvent.wal_checkpoint SQLITE_CHECKPOINT_TRUNCATE,
          IngestEvent.fx_file_read 1, IngestEvent.begin_transaction 1,
          IngestEvent.bindAndStep 1 0, IngestEvent.commit 1, IngestEvent.release_memory,
          IngestEvent.fx_file_read 2, IngestEvent.fx_file_close, IngestEvent.fx_media_flush,
          IngestEvent.fx_file_delete] } := by
  decide

/-! ### Recovery of the database -/

/-- Claim C25. On every path of `recoverDatabase` (whatever the engine and the volume answer:
success, failure to reopen the database, failure to recreate the table) and from every session,
the queue with `produce_idx` and `consume_idx` is as before, and `db` and `insert_stmt` are
both null at the return; the next pass of `ingestor` therefore starts by calling
`sqlite3_open`. -/
theorem recoverDatabase_leaves_session_closed (env : RecoverEnv) (s : Session)
    (renv : ReopenEnv) :
    (recoverDatabase env s).1.queue = s.queue ∧
    (recoverDatabase env s).1.queue.produce_idx = s.queue.produce_idx ∧
    (recoverDatabase env s).1.queue.consume_idx = s.queue.consume_idx ∧
    (recoverDatabase env s).1.db = 0 ∧
    (recoverDatabase env s).1.insert_stmt = 0 ∧
    (ingestor_reopen renv (recoverDatabase env s).1).2.2.head? =
      some SessionEvent.sqlite3_open := by
  have ht : (recoverDatabase_teardown env s).1.queue = s.queue ∧
      (recoverDatabase_teardown env s).1.insert_stmt = 0 := by
    unfold recoverDatabase_teardown
    by_cases h1 : s.insert_stmt ≠ 0
    · simp only [h1, ne_eq, not_false_eq_true, if_true]
      split_ifs <;> exact ⟨rfl, rfl⟩
    · have h1z : s.insert_stmt = 0 := by
        by_contra hne
        exact h1 hne
      simp only [h1, if_false]
      split_ifs <;> exact ⟨rfl, h1z⟩
  have hmain : (recoverDatabase env s).1.queue = s.queue ∧ (recoverDatabase env s).1.db = 0 ∧
      (recoverDatabase env s).1.insert_stmt = 0 := by
    unfold recoverDatabase
    simp only
    split_ifs
    · exact ⟨ht.1, rfl, ht.2⟩
    · exact ⟨ht.1, rfl, ht.2⟩
    · exact ⟨ht.1, rfl, rfl⟩
  obtain ⟨hq, hdb, hst⟩ := hmain
  refine ⟨hq, by rw [hq], by rw [hq], hdb, hst, ?_⟩
  unfold ingestor_reopen
  rw [if_pos hdb]
  split_ifs <;> rfl

/-! ### Writing a staged file -/

lemma bufferBytes_length (psram : Nat → Nat) (first count : Nat) :
    (bufferBytes psram first count).length = count * sizeof_DS_LOG_STRUCT := by
  simp [bufferBytes]

lemma bufferBytes_append (psram : Nat → Nat) (a b : Nat) :
    bufferBytes psram 0 a ++ bufferBytes psram a b = bufferBytes psram 0 (a + b) := by
  unfold bufferBytes
  rw [Nat.add_mul, List.range_add, List.map_append, List.map_map]
  congr 1
  apply List.map_congr_left
  intro i _
  simp

lemma concatRecords_eq (psram : Nat → Nat) (n : Nat) :
    concatRecords psram n = bufferBytes psram 0 n := by
  induction n with
  | zero => rfl
  | succ n ih =>
    show concatRecords psram n ++ bufferBytes psram n 1 = _
    rw [ih, bufferBytes_append]

lemma memcpy_take (dst src : List Nat) : (memcpy dst src).take src.length = src := by
  unfold memcpy
  exact List.take_left _ _

lemma bulkCopy_take (interrupt : Bool) (outcome : CopyOutcome) (partial_transfer : List Nat)
    (landing src : List Nat) (record : Nat) :
    (bulkCopy interrupt outcome partial_transfer landing src record src.length).1.take
      src.length = src := by
  cases outcome <;> exact memcpy_take _ _

lemma fx_file_write_extend (P E bytes : List Nat) :
    SqliteAzure.fx_file_write { contents := P ++ E, fx_file_current_file_offset := P.length }
        bytes FX_SUCCESS =
      { contents := P ++ bytes ++ E.drop bytes.length
        fx_file_current_file_offset := P.length + bytes.length } := by
  simp [SqliteAzure.fx_file_write, SqliteAzure.FX_SUCCESS, FX_SUCCESS, List.drop_append]

lemma bulkCopy_events (interrupt : Bool) (outcome : CopyOutcome) (partial_transfer : List Nat)
    (landing src : List Nat) (record sz sz1 : Nat) :
    RawWriteEvent.fx_file_write sz1 ∉
      (bulkCopy interrupt outcome partial_transfer landing src record sz).2 := by
  cases outcome <;> cases interrupt <;> simp [bulkCopy]

/-- The chunk loop when every write succeeds: it ends within `logs_rem + 1` passes with status
`FX_SUCCESS`, the file holding the records up to `offset + logs_rem` followed by what the file
held beyond them before, and every write it makes is of at most `WRITE_CHUNK_SIZE` records. -/
lemma writeChunks_ok (interrupt : Bool) (env : RawWriteEnv) (psram : Nat → Nat)
    (existing : List Nat) (hwrite : ∀ k, env.write_status k = FX_SUCCESS) :
    ∀ (fuel : Nat) (st : RawWriteState), st.logs_rem < fuel →
      (st.offset + st.logs_rem) * sizeof_DS_LOG_STRUCT < 2 ^ 32 →
      st.status = FX_SUCCESS →
      st.file = { contents := bufferBytes psram 0 st.offset ++
                    existing.drop (st.offset * sizeof_DS_LOG_STRUCT)
                  fx_file_current_file_offset := st.offset * sizeof_DS_LOG_STRUCT } →
      ∃ st1, writeChunks interrupt env psram fuel st = some st1 ∧ st1.status = FX_SUCCESS ∧
        st1.file.contents = bufferBytes psram 0 (st.offset + st.logs_rem) ++
          existing.drop ((st.offset + st.logs_rem) * sizeof_DS_LOG_STRUCT) ∧
        ∀ sz, RawWriteEvent.fx_file_write sz ∈ st1.events →
          RawWriteEvent.fx_file_write sz ∈ st.events ∨
          ∃ count, 0 < count ∧ count ≤ WRITE_CHUNK_SIZE ∧ sz = count * sizeof_DS_LOG_STRUCT := by
  intro fuel
  induction fuel with
  | zero => intro st h; omega
  | succ n ih =>
    intro st hfuel hbound hstatus hfile
    rw [writeChunks]
    by_cases hrem : st.logs_rem > 0
    · rw [if_pos hrem]
      generalize hcount : (if st.logs_rem ≥ WRITE_CHUNK_SIZE then WRITE_CHUNK_SIZE
        else st.logs_rem) = count
      have hc : 0 < count ∧ count ≤ WRITE_CHUNK_SIZE ∧ count ≤ st.logs_rem := by
        rw [← hcount]
        unfold WRITE_CHUNK_SIZE
        split_ifs <;> omega
      have h224 : sizeof_DS_LOG_STRUCT = 224 := rfl
      have hsz : (count * sizeof_DS_LOG_STRUCT) % 2 ^ 32 = count * sizeof_DS_LOG_STRUCT := by
        apply Nat.mod_eq_of_lt
        rw [h224] at hbound ⊢
        omega
      have hoff : (st.offset + count) % 2 ^ 32 = st.offset + count := by
        apply Nat.mod_eq_of_lt
        rw [h224] at hbound
        omega
      have hsrc : (List.range (count * sizeof_DS_LOG_STRUCT)).map
          (fun i => psram (st.offset * sizeof_DS_LOG_STRUCT + i)) =
          bufferBytes psram st.offset count := rfl
      have hlen : (bufferBytes psram st.offset count).length = count * sizeof_DS_LOG_STRUCT :=
        bufferBytes_length psram st.offset count
      have hP : (bufferBytes psram 0 st.offset).length = st.offset * sizeof_DS_LOG_STRUCT :=
        bufferBytes_length psram 0 st.offset
      simp only [hsz, hsrc, hwrite, ne_eq, not_true_eq_false, if_false, hoff]
      have htake := bulkCopy_take interrupt (env.copy st.chunk) (env.partial_transfer st.chunk)
        st.landing (bufferBytes psram st.offset count) st.offset
      rw [hlen] at htake
      rw [htake, hfile, ← hP, fx_file_write_extend, hP, hlen, bufferBytes_append,
        List.drop_drop]
      have e2 : st.offset * sizeof_DS_LOG_STRUCT + count * sizeof_DS_LOG_STRUCT =
          (st.offset + count) * sizeof_DS_LOG_STRUCT := by
        rw [Nat.add_mul]
      rw [e2]
      obtain ⟨st1, hrun, hst, hcont, hev⟩ := ih
        { logs_rem := st.logs_rem - count, offset := st.offset + count, chunk := st.chunk + 1,
          status := FX_SUCCESS
          landing := (bulkCopy interrupt (env.copy st.chunk) (env.partial_transfer st.chunk)
            st.landing (bufferBytes psram st.offset count) st.offset
            (count * sizeof_DS_LOG_STRUCT)).1
          file := { contents := bufferBytes psram 0 (st.offset + count) ++
                      existing.drop ((st.offset + count) * sizeof_DS_LOG_STRUCT)
                    fx_file_current_file_offset := (st.offset + count) * sizeof_DS_LOG_STRUCT }
          events := st.events ++
            (bulkCopy interrupt (env.copy st.chunk) (env.partial_transfer st.chunk)
              st.landing (bufferBytes psram st.offset count) st.offset
              (count * sizeof_DS_LOG_STRUCT)).2 ++
            [RawWriteEvent.fx_file_write (count * sizeof_DS_LOG_STRUCT)] }
        (by show st.logs_rem - count < n; omega)
        (by
          show (st.offset + count + (st.logs_rem - count)) * sizeof_DS_LOG_STRUCT < 2 ^ 32
          have : st.offset + count + (st.logs_rem - count) = st.offset + st.logs_rem := by omega
          rw [this]
          exact hbound)
        rfl rfl
      have e3 : st.offset + count + (st.logs_rem - count) = st.offset + st.logs_rem := by omega
      simp only [e3] at hcont
      refine ⟨st1, hrun, hst, hcont, ?_⟩
      intro sz hm
      rcases hev sz hm with h | h
      · rcases List.mem_append.1 h with h1 | h1
        · rcases List.mem_append.1 h1 with h2 | h2
          · exact Or.inl h2
          · exact absurd h2 (bulkCopy_events _ _ _ _ _ _ _ _)
        · simp only [List.mem_singleton, RawWriteEvent.fx_file_write.injEq] at h1
          exact Or.inr ⟨count, hc.1, hc.2.1, h1⟩
      · exact Or.inr h
    · rw [if_neg hrem]
      have hz : st.logs_rem = 0 := by omega
      refine ⟨st, rfl, hstatus, ?_, fun sz hm => Or.inl hm⟩
      rw [hz, Nat.add_zero, hfile]

/-- The body shared by the two functions, when the file is created or exists already, is
opened, and every write succeeds: whatever the outcomes of the bulk copies, the status is
`FX_SUCCESS`, the file holds the `capacity` records one after the other followed by what it
held beyond them before, and every write is of at most `WRITE_CHUNK_SIZE` records. -/
lemma writeRaw_ok (interrupt : Bool) (capacity : Nat) (env : RawWriteEnv) (psram : Nat → Nat)
    (existing landing : List Nat) (fuel : Nat)
    (hcreate : env.create_status = FX_SUCCESS ∨ env.create_status = FX_ALREADY_CREATED)
    (hopen : env.open_status = FX_SUCCESS) (hwrite : ∀ k, env.write_status k = FX_SUCCESS)
    (hcap : capacity * sizeof_DS_LOG_STRUCT < 2 ^ 32) (hfuel : capacity < fuel) :
    ∃ r, writeRaw interrupt capacity env psram existing landing fuel = some r ∧
      r.status = FX_SUCCESS ∧
      r.contents = concatRecords psram capacity ++
        existing.drop (capacity * sizeof_DS_LOG_STRUCT) ∧
      ∀ sz, RawWriteEvent.fx_file_write sz ∈ r.events →
        ∃ count, 0 < count ∧ count ≤ WRITE_CHUNK_SIZE ∧ sz = count * sizeof_DS_LOG_STRUCT := by
  unfold writeRaw
  have h1 : ¬ (env.create_status ≠ FX_SUCCESS ∧ env.create_status ≠ FX_ALREADY_CREATED) := by
    rintro ⟨ha, hb⟩
    rcases hcreate with h | h
    · exact ha h
    · exact hb h
  rw [if_neg h1, if_neg (by rw [hopen]; exact fun h => h rfl)]
  obtain ⟨st1, hrun, hst, hcont, hev⟩ := writeChunks_ok interrupt env psram existing hwrite fuel
    { logs_rem := capacity, offset := 0, chunk := 0, status := env.open_status,
      landing := landing
      file := { contents := existing, fx_file_current_file_offset := 0 }
      events := [RawWriteEvent.fx_file_create, RawWriteEvent.fx_file_open] }
    hfuel (by show (0 + capacity) * sizeof_DS_LOG_STRUCT < 2 ^ 32; rw [Nat.zero_add]; exact hcap)
    hopen (by
      show ({ contents := existing, fx_file_current_file_offset := 0 } : SqliteAzure.FileData) =
        { contents := bufferBytes psram 0 0 ++ existing.drop (0 * sizeof_DS_LOG_STRUCT)
          fx_file_current_file_offset := 0 * sizeof_DS_LOG_STRUCT }
      simp [bufferBytes])
  rw [hrun]
  refine ⟨_, rfl, hst, ?_, ?_⟩
  · show st1.file.contents = _
    rw [hcont, concatRecords_eq]
    show bufferBytes psram 0 (0 + capacity) ++
      existing.drop ((0 + capacity) * sizeof_DS_LOG_STRUCT) = _
    rw [Nat.zero_add]
  · intro sz hm
    have hm1 : RawWriteEvent.fx_file_write sz ∈ st1.events := by
      rcases List.mem_append.1 hm with h | h
      · exact h
      · simp at h
    rcases hev sz hm1 with h | h
    · simp at h
    · exact h

/-- Counterexample for C24. Every write would succeed and every bulk copy complete, but
`fx_file_create` fails with `FX_NO_MORE_SPACE` (0x0A): both functions return 0x0A, not
`FX_SUCCESS`, without writing a byte, so the file is not the concatenation of the records. -/
theorem writeRawFile_returns_create_failure :
    (∀ k, ({ rawWriteEnvGood with create_status := 0x0A } : RawWriteEnv).write_status k =
      FX_SUCCESS) ∧
    writeRawFile LOGS_PER_BUFFER { rawWriteEnvGood with create_status := 0x0A }
        (fun i => i % 251) [] [] (LOGS_PER_BUFFER + 1) =
      some { status := 0x0A, contents := [], events := [RawWriteEvent.fx_file_create] } ∧
    writeRawFile_interrupt LOGS_PER_BUFFER { rawWriteEnvGood with create_status := 0x0A }
        (fun i => i % 251) [] [] (LOGS_PER_BUFFER + 1) =
      some { status := 0x0A, contents := [], events := [RawWriteEvent.fx_file_create] } ∧
    (0x0A : Nat) ≠ FX_SUCCESS ∧ concatRecords (fun i => i % 251) LOGS_PER_BUFFER ≠ [] := by
  refine ⟨fun _ => rfl, rfl, rfl, by decide, ?_⟩
  intro h
  have hl := congrArg List.length h
  rw [concatRecords_eq, bufferBytes_length] at hl
  exact absurd hl (by decide)

/-- Claim C24, amended. For every outcome of the bulk copy of each chunk, when the file is
created or exists already with no more bytes than the buffer has, is opened, and every write
succeeds, `writeRawFile` and `writeRawFile_interrupt` return `FX_SUCCESS` (within `capacity + 1`
passes of the loop) and the staged file is the `capacity` records of the buffer one after the
other with nothing before, between or behind them, written in chunks of at most
`WRITE_CHUNK_SIZE` records; such a chunk fits the landing zone. -/
theorem writeRawFile_stages_buffer (capacity : Nat) (env : RawWriteEnv) (psram : Nat → Nat)
    (existing landing : List Nat) (fuel : Nat)
    (hcreate : env.create_status = FX_SUCCESS ∨ env.create_status = FX_ALREADY_CREATED)
    (hopen : env.open_status = FX_SUCCESS) (hwrite : ∀ k, env.write_status k = FX_SUCCESS)
    (hold : existing.length ≤ capacity * sizeof_DS_LOG_STRUCT)
    (hcap : capacity * sizeof_DS_LOG_STRUCT < 2 ^ 32) (hfuel : capacity < fuel) :
    (∃ r, writeRawFile capacity env psram existing landing fuel = some r ∧
      r.status = FX_SUCCESS ∧ r.contents = concatRecords psram capacity ∧
      ∀ sz, RawWriteEvent.fx_file_write sz ∈ r.events →
        ∃ count, 0 < count ∧ count ≤ WRITE_CHUNK_SIZE ∧ sz = count * sizeof_DS_LOG_STRUCT) ∧
    (∃ r, writeRawFile_interrupt capacity env psram existing landing fuel = some r ∧
      r.status = FX_SUCCESS ∧ r.contents = concatRecords psram capacity ∧
      ∀ sz, RawWriteEvent.fx_file_write sz ∈ r.events →
        ∃ count, 0 < count ∧ count ≤ WRITE_CHUNK_SIZE ∧ sz = count * sizeof_DS_LOG_STRUCT) ∧
    WRITE_CHUNK_SIZE * sizeof_DS_LOG_STRUCT ≤ SRAM_LANDING_SIZE := by
  have hdrop : existing.drop (capacity * sizeof_DS_LOG_STRUCT) = [] :=
    List.drop_eq_nil_of_le hold
  refine ⟨?_, ?_, by decide⟩
  · obtain ⟨r, hr, hs, hc, hw⟩ := writeRaw_ok false capacity env psram existing landing fuel
      hcreate hopen hwrite hcap hfuel
    rw [hdrop, List.append_nil] at hc
    exact ⟨r, hr, hs, hc, hw⟩
  · obtain ⟨r, hr, hs, hc, hw⟩ := writeRaw_ok true capacity env psram existing landing fuel
      hcreate hopen hwrite hcap hfuel
    rw [hdrop, List.append_nil] at hc
    exact ⟨r, hr, hs, hc, hw⟩

/-- Witness for C24: a buffer of `LOGS_PER_BUFFER` records staged into a new file, the bulk
copy of every chunk timing out. -/
theorem writeRawFile_stages_buffer_witness :
    (([] : List Nat).length ≤ LOGS_PER_BUFFER * sizeof_DS_LOG_STRUCT ∧
      LOGS_PER_BUFFER * sizeof_DS_LOG_STRUCT < 2 ^ 32) ∧
    ∃ r, writeRawFile LOGS_PER_BUFFER
        { rawWriteEnvGood with copy := fun _ => CopyOutcome.not_completed }
        (fun i => i % 251) [] [] (LOGS_PER_BUFFER + 1) = some r ∧
      r.status = FX_SUCCESS ∧ r.contents = concatRecords (fun i => i % 251) LOGS_PER_BUFFER ∧
      ∀ sz, RawWriteEvent.fx_file_write sz ∈ r.events →
        ∃ count, 0 < count ∧ count ≤ WRITE_CHUNK_SIZE ∧ sz = count * sizeof_DS_LOG_STRUCT :=
  ⟨⟨by decide, by decide⟩,
   (writeRawFile_stages_buffer LOGS_PER_BUFFER
      { rawWriteEnvGood with copy := fun _ => CopyOutcome.not_completed }
      (fun i => i % 251) [] [] (LOGS_PER_BUFFER + 1) (Or.inl rfl) rfl (fun _ => rfl)
      (by decide) (by decide) (by decide)).1⟩

/-- A file that held more bytes than the buffer keeps its tail behind the records: the file
is opened for writing without being truncated. -/
lemma writeRaw_keeps_tail (interrupt : Bool) (psram : Nat → Nat) (old tail : List Nat)
    (hold : old.length = LOGS_PER_BUFFER * sizeof_DS_LOG_STRUCT) :
    ∃ r, writeRaw interrupt LOGS_PER_BUFFER rawWriteEnvGood psram (old ++ tail) []
        (LOGS_PER_BUFFER + 1) = some r ∧
      r.status = FX_SUCCESS ∧ r.contents = concatRecords psram LOGS_PER_BUFFER ++ tail := by
  obtain ⟨r, hr, hs, hc, -⟩ := writeRaw_ok interrupt LOGS_PER_BUFFER rawWriteEnvGood psram
    (old ++ tail) [] (LOGS_PER_BUFFER + 1) (Or.inl rfl) rfl (fun _ => rfl) (by decide)
    (by decide)
  refine ⟨r, hr, hs, ?_⟩
  rw [hc, ← hold, List.drop_left]

/-! ### The checkpoint of the direct strategy -/

/-- The last element of a list that ends with one or with two given elements. -/
lemma getLast?_append_one {α : Type} (l : List α) (a : α) : (l ++ [a]).getLast? = some a := by
  simp

lemma getLast?_append_two {α : Type} (l : List α) (a b : α) :
    (l ++ [a, b]).getLast? = some b := by
  simp

/-- The checkpoint of `ingestor_direct`: a pass that finds a ready flag, gets to the
transaction and whose `BEGIN` succeeds counts the buffer, and its last event is the request for
a passive checkpoint exactly when the count is a multiple of five. -/
lemma ingestor_direct_pass_checkpoint (capacity : Nat) (env : DirectEnv) (s : DirectState)
    (released : Nat) (hready : ingestor_direct s.staging_events = some released)
    (hreach : reachesTransaction env s) (hbegin : env.begin_rc = SQLITE_OK) :
    ∃ s1, ingestor_direct_pass capacity env s = some s1 ∧
      s1.buffer_counter = (s.buffer_counter + 1) % 2 ^ 32 ∧
      (s1.events.getLast? = some (DirectEvent.wal_checkpoint SQLITE_CHECKPOINT_PASSIVE) ↔
        s1.buffer_counter % 5 = 0) := by
  unfold ingestor_direct_pass
  rw [hready]
  have h1 : ¬ (s.db = 0 ∧ env.open_rc ≠ SQLITE_OK) := by
    rintro ⟨hdb, hrc⟩
    rcases hreach with h | h
    · exact h hdb
    · exact hrc h.1
  have h2 : ¬ (s.db = 0 ∧ env.prepare_rc ≠ SQLITE_OK) := by
    rintro ⟨hdb, hrc⟩
    rcases hreach with h | h
    · exact h hdb
    · exact hrc h.2
  have hb : ¬ env.begin_rc ≠ SQLITE_OK := fun h => h hbegin
  simp only [h1, h2, if_false]
  rw [if_neg hb]
  refine ⟨_, rfl, ?_, ?_⟩
  · by_cases hdb : s.db = 0
    · simp only [hdb, if_true]
    · simp only [hdb, if_false]
  · dsimp only
    by_cases h5 : ((if s.db = 0 then
          ({ s with db := env.open_db
                    insert_stmt := env.prepared_stmt
                    events := s.events ++ [DirectEvent.sqlite3_open, DirectEvent.tuneDbConfig,
                      DirectEvent.sqlite3_prepare] } : DirectState)
        else s).buffer_counter + 1) % 2 ^ 32 % 5 = 0
    · rw [if_pos h5]
      exact ⟨fun _ => h5, fun _ => getLast?_append_one _ _⟩
    · rw [if_neg h5]
      refine ⟨fun h => ?_, fun h => absurd h h5⟩
      rw [getLast?_append_two] at h
      exact DirectEvent.noConfusion (Option.some.inj h)

end MplibStorage
